import Mathlib

/-!
# terraform-provider-pingfederate: a shallow embedding

The provider converts Terraform plans to vendor API requests, calls the
PingFederate configuration API and converts the answers back into Terraform
state.  This file embeds the parts of the Go sources that the specification
makes claims about and proves (or refutes at a concrete input) each claim.

Conventions of the embedding

* A framework value (`types.String`, `types.Bool`, `types.Int64`, `types.Set`,
  `types.Object`) is a `TfValue α`: null, unknown or a known `α`.
* `*diag.Diagnostics` is passed and returned explicitly.
* Go pointers that may be nil are `Option`; dereferencing nil is a panic and is
  made explicit in the result type.
* Go strings are modelled by `String` and `int64` by `Int` (no arithmetic is
  performed on them by the embedded code).
* `tflog` calls only write to the log sink and are left out.
-/

namespace PingFederate

/-! ## Framework values -/

/-- A value of the Terraform plugin framework: null, unknown or known. -/
inductive TfValue (α : Type) where
  | null : TfValue α
  | unknown : TfValue α
  | known (v : α) : TfValue α
  deriving DecidableEq, Repr

namespace TfValue

variable {α : Type}

/-- Method `IsNull` of a framework value. -/
def IsNull : TfValue α → Bool
  | null => true
  | _ => false

/-- Method `IsUnknown` of a framework value. -/
def IsUnknown : TfValue α → Bool
  | unknown => true
  | _ => false

/-- The known value, or `d` (the Go zero value) when null or unknown. -/
def valueOr (d : α) : TfValue α → α
  | known v => v
  | _ => d

/-- The pointer methods `ValueStringPointer`, `ValueBoolPointer`,
`ValueInt64Pointer`: nil for a null value, a pointer to the zero value for an
unknown one, a pointer to the value otherwise. -/
def valuePointer (zero : α) : TfValue α → Option α
  | null => none
  | unknown => some zero
  | known v => some v

/-- The constructors `StringPointerValue`, `BoolPointerValue`,
`Int64PointerValue`: null for nil, the known value otherwise. -/
def ofPointer : Option α → TfValue α
  | none => null
  | some v => known v

end TfValue

abbrev TfString := TfValue String
abbrev TfBool := TfValue Bool
abbrev TfInt64 := TfValue Int

/-- Method `ValueString`: the empty string when null or unknown. -/
def TfValue.ValueString (s : TfString) : String := s.valueOr ""

/-- Method `ValueBool`: false when null or unknown. -/
def TfValue.ValueBool (b : TfBool) : Bool := b.valueOr false

/-- Method `ValueInt64`: zero when null or unknown. -/
def TfValue.ValueInt64 (i : TfInt64) : Int := i.valueOr 0

/-- Method `ValueStringPointer`. -/
def TfValue.ValueStringPointer (s : TfString) : Option String := s.valuePointer ""

/-- Method `ValueBoolPointer`. -/
def TfValue.ValueBoolPointer (b : TfBool) : Option Bool := b.valuePointer false

/-- Method `ValueInt64Pointer`. -/
def TfValue.ValueInt64Pointer (i : TfInt64) : Option Int := i.valuePointer 0

/-- Modelled from the spec: `internaltypes.IsDefined` (package `internal/types`,
not among the sources) is true for a value that is "defined (neither null nor
unknown)". -/
def IsDefined {α : Type} : TfValue α → Bool
  | .known _ => true
  | _ => false

/-- Modelled from the spec: `internaltypes.IsNonEmptyString` (package
`internal/types`, not among the sources): a defined string that is not the
empty string. -/
def IsNonEmptyString (s : TfString) : Bool :=
  IsDefined s && s.ValueString != ""

/-- A `types.Set` (or `types.List`) whose elements are strings: the elements of
a known collection are themselves framework strings. -/
abbrev TfStringSet := TfValue (List TfString)

/-- Method `Elements`: the elements of a known collection, none otherwise. -/
def TfValue.Elements {α : Type} : TfValue (List α) → List α
  | .known xs => xs
  | _ => []

/-- Modelled from the spec: `internaltypes.GetStringSet` (package
`internal/types`, not among the sources) builds the known set holding the given
strings as known values. -/
def GetStringSet (values : List String) : TfStringSet :=
  .known (values.map TfValue.known)

/-- Conversion of the elements of a collection of strings to a Go
`[]string`, as `ElementsAs(ctx, &slice, false)` does: it fails, leaving the
target untouched, when an element is null or unknown. -/
def elementsAsStrings : List TfString → Option (List String)
  | [] => some []
  | .known s :: rest => (elementsAsStrings rest).map (s :: ·)
  | _ :: _ => none

/-! ## Diagnostics -/

inductive Severity where
  | error
  | warning
  deriving DecidableEq, Repr

/-- One diagnostic of the framework: severity, summary and detail. -/
structure Diagnostic where
  severity : Severity
  summary : String
  detail : String
  deriving DecidableEq, Repr

/-- The collection `diag.Diagnostics`. -/
abbrev Diagnostics := List Diagnostic

/-- Method `Append` for one diagnostic: a diagnostic already contained in the
collection is not added a second time. -/
def Diagnostics.append1 (diags : Diagnostics) (d : Diagnostic) : Diagnostics :=
  if d ∈ diags then diags else diags ++ [d]

/-- Method `Append`: adds the non-duplicate diagnostics in order. -/
def Diagnostics.Append (diags : Diagnostics) (ins : List Diagnostic) : Diagnostics :=
  ins.foldl Diagnostics.append1 diags

/-- Method `AddError`. -/
def Diagnostics.AddError (diags : Diagnostics) (summary detail : String) : Diagnostics :=
  diags.Append [⟨.error, summary, detail⟩]

/-- Method `AddWarning`. -/
def Diagnostics.AddWarning (diags : Diagnostics) (summary detail : String) : Diagnostics :=
  diags.Append [⟨.warning, summary, detail⟩]

/-- Method `HasError`: some diagnostic has error severity. -/
def Diagnostics.HasError (diags : Diagnostics) : Bool :=
  diags.any (fun d => d.severity == .error)

/-- The `fmt.Sprintln` of one string: the string followed by a newline. -/
def Sprintln (s : String) : String := s ++ "\n"

/-! ## HTTP responses and the error envelope -/

/-- A Go `error`, through the only method used on it. -/
structure GoError where
  Error : String
  deriving DecidableEq, Repr

/-- The part of `*http.Response` the provider looks at.  `Body` is the outcome
of `io.ReadAll(httpResp.Body)`: the content, or `none` when reading fails. -/
structure HttpResponse where
  StatusCode : Int
  Body : Option String
  deriving DecidableEq, Repr

/-- Error from the PF API (`pingFederateError`). -/
structure pingFederateError where
  Schemas : List String
  Status : String
  Detail : String
  deriving DecidableEq, Repr

/-- The outcome of `json.Unmarshal(body, &pingFederateError)` as a function of
the body: the decoded envelope, or `none` when decoding returns an error.  The
functions below take the decoder as a parameter; `jsonUnmarshal` further down is
a concrete one. -/
abbrev Unmarshaler := String → Option pingFederateError

/-! ## A decoder for the error envelope

`encoding/json` is Go's standard library.  The decoder below follows its
behaviour for the target type `pingFederateError`: escapes in strings are
decoded, a `\u` escape included (a surrogate that is not part of a valid pair
becomes U+FFFD); keys are matched without regard to case, under the simple case
folding of Unicode; unknown keys are skipped, a JSON `null` leaves the target
field untouched, and a value of the wrong kind makes the call return an
error. -/

/-- A parsed JSON text. -/
inductive Json where
  | null : Json
  | bool (b : Bool) : Json
  | num (text : List Char) : Json
  | str (s : String) : Json
  | arr (elems : List Json) : Json
  | obj (members : List (String × Json)) : Json

namespace Json

/-- Skip JSON white space. -/
def skipWs : List Char → List Char
  | c :: rest => if c = ' ' ∨ c = '\n' ∨ c = '\t' ∨ c = '\r' then skipWs rest else c :: rest
  | [] => []

/-- The value of a hexadecimal digit. -/
def hexDigit (c : Char) : Option Nat :=
  if '0' ≤ c ∧ c ≤ '9' then some (c.toNat - '0'.toNat)
  else if 'a' ≤ c ∧ c ≤ 'f' then some (c.toNat - 'a'.toNat + 10)
  else if 'A' ≤ c ∧ c ≤ 'F' then some (c.toNat - 'A'.toNat + 10)
  else none

/-- The number written by the four hexadecimal digits of a `\u` escape (the
`getu4` of the library), or `none` when one of them is no such digit. -/
def getu4 (a b c d : Char) : Option Nat :=
  match hexDigit a, hexDigit b, hexDigit c, hexDigit d with
  | some x, some y, some z, some w => some (((x * 16 + y) * 16 + z) * 16 + w)
  | _, _, _, _ => none

/-- The characters written by the code units of a string literal, in order.  A
unit in the surrogate range can only come from a `\u` escape: a high surrogate
followed by a low one is the character of the pair, any other surrogate becomes
U+FFFD. -/
def decodeUnits : List Nat → List Char
  | [] => []
  | [u] => if 0xD800 ≤ u ∧ u < 0xE000 then [Char.ofNat 0xFFFD] else [Char.ofNat u]
  | u :: v :: rest =>
    if 0xD800 ≤ u ∧ u < 0xE000 then
      if u < 0xDC00 ∧ 0xDC00 ≤ v ∧ v < 0xE000 then
        Char.ofNat ((u - 0xD800) * 1024 + (v - 0xDC00) + 0x10000) :: decodeUnits rest
      else Char.ofNat 0xFFFD :: decodeUnits (v :: rest)
    else Char.ofNat u :: decodeUnits (v :: rest)

/-- The characters of a string literal after its opening quote, up to the
closing quote; the result is the content and the rest of the input.  The
accumulator holds the code units read so far, last first. -/
def parseStringBody : List Char → List Nat → Option (String × List Char)
  | [], _ => none
  | '"' :: rest, acc => some (String.mk (decodeUnits acc.reverse), rest)
  | '\\' :: e :: rest, acc =>
    if e = '"' then parseStringBody rest (('"').toNat :: acc)
    else if e = '\\' then parseStringBody rest (('\\').toNat :: acc)
    else if e = '/' then parseStringBody rest (('/').toNat :: acc)
    else if e = 'b' then parseStringBody rest (8 :: acc)
    else if e = 'f' then parseStringBody rest (12 :: acc)
    else if e = 'n' then parseStringBody rest (('\n').toNat :: acc)
    else if e = 'r' then parseStringBody rest (('\r').toNat :: acc)
    else if e = 't' then parseStringBody rest (('\t').toNat :: acc)
    else if e = 'u' then
      match rest with
      | a :: b :: c :: d :: rest1 =>
        match getu4 a b c d with
        | some rr => parseStringBody rest1 (rr :: acc)
        | none => none
      | _ => none
    else none
  | c :: rest, acc =>
    if c.toNat < 32 ∨ c = '\\' then none else parseStringBody rest (c.toNat :: acc)

/-- Split off the leading decimal digits. -/
def takeDigits : List Char → List Char × List Char
  | c :: rest =>
    if c.isDigit then ((takeDigits rest).1 |> (c :: ·), (takeDigits rest).2) else ([], c :: rest)
  | [] => ([], [])

/-- The optional fraction and exponent of a number. -/
def parseFracExp (cs : List Char) : Option (List Char × List Char) :=
  let afterFrac : Option (List Char × List Char) :=
    match cs with
    | '.' :: rest =>
      match takeDigits rest with
      | ([], _) => none
      | (ds, r) => some ('.' :: ds, r)
    | _ => some ([], cs)
  match afterFrac with
  | none => none
  | some (frac, r) =>
    match r with
    | e :: rest =>
      if e = 'e' ∨ e = 'E' then
        let (sign, rest1) : List Char × List Char :=
          match rest with
          | s :: rest2 => if s = '+' ∨ s = '-' then ([s], rest2) else ([], rest)
          | [] => ([], rest)
        match takeDigits rest1 with
        | ([], _) => none
        | (ds, r2) => some (frac ++ e :: sign ++ ds, r2)
      else some (frac, r)
    | [] => some (frac, r)

/-- A JSON number: optional minus, integer part without a leading zero,
optional fraction and exponent. -/
def parseNumber (cs : List Char) : Option (Json × List Char) :=
  let (sign, cs1) : List Char × List Char :=
    match cs with
    | '-' :: rest => (['-'], rest)
    | _ => ([], cs)
  match takeDigits cs1 with
  | ([], _) => none
  | (d :: ds, r) =>
    if d = '0' ∧ ds ≠ [] then none
    else
      match parseFracExp r with
      | none => none
      | some (tail, r2) => some (.num (sign ++ d :: ds ++ tail), r2)

mutual

/-- One JSON value, with leading white space; `fuel` bounds the number of
nested calls. -/
def parseValue : Nat → List Char → Option (Json × List Char)
  | 0, _ => none
  | fuel + 1, cs =>
    match skipWs cs with
    | 'n' :: 'u' :: 'l' :: 'l' :: rest => some (.null, rest)
    | 't' :: 'r' :: 'u' :: 'e' :: rest => some (.bool true, rest)
    | 'f' :: 'a' :: 'l' :: 's' :: 'e' :: rest => some (.bool false, rest)
    | '"' :: rest =>
      match parseStringBody rest [] with
      | some (s, r) => some (.str s, r)
      | none => none
    | '[' :: rest =>
      match skipWs rest with
      | ']' :: r => some (.arr [], r)
      | r => parseElems fuel r []
    | '{' :: rest =>
      match skipWs rest with
      | '}' :: r => some (.obj [], r)
      | r => parseMembers fuel r []
    | other => parseNumber other

/-- The elements of an array after its opening bracket. -/
def parseElems : Nat → List Char → List Json → Option (Json × List Char)
  | 0, _, _ => none
  | fuel + 1, cs, acc =>
    match parseValue fuel cs with
    | none => none
    | some (v, rest) =>
      match skipWs rest with
      | ',' :: r => parseElems fuel r (acc ++ [v])
      | ']' :: r => some (.arr (acc ++ [v]), r)
      | _ => none

/-- The members of an object after its opening brace. -/
def parseMembers : Nat → List Char → List (String × Json) → Option (Json × List Char)
  | 0, _, _ => none
  | fuel + 1, cs, acc =>
    match skipWs cs with
    | '"' :: rest =>
      match parseStringBody rest [] with
      | none => none
      | some (key, r) =>
        match skipWs r with
        | ':' :: r1 =>
          match parseValue fuel r1 with
          | none => none
          | some (v, r2) =>
            match skipWs r2 with
            | ',' :: r3 => parseMembers fuel r3 (acc ++ [(key, v)])
            | '}' :: r3 => some (.obj (acc ++ [(key, v)]), r3)
            | _ => none
        | _ => none
    | _ => none
end

/-- A whole JSON text: one value surrounded by white space. -/
def parse (s : String) : Option Json :=
  match parseValue (2 * s.length + 2) s.toList with
  | some (v, rest) => if skipWs rest = [] then some v else none
  | none => none

end Json

/-- The fold of a key, for the match of field names without regard to case:
ASCII lower case, and the two characters outside ASCII that fold to an ASCII
letter, U+017F (long s) and U+212A (Kelvin sign), become `s` and `k`. -/
def lowerKey (k : String) : String :=
  String.mk (k.toList.map fun c =>
    if c = Char.ofNat 0x17F then 's'
    else if c = Char.ofNat 0x212A then 'k'
    else c.toLower)

/-- Decode a JSON value into a Go `string` field: a string sets it, `null`
leaves it, anything else is a type error. -/
def decodeStringField (old : String) : Json → Option String
  | .str s => some s
  | .null => some old
  | _ => none

/-- Decode the elements of a JSON array into a `[]string`. -/
def decodeStringElems : List Json → Option (List String)
  | [] => some []
  | v :: rest =>
    match decodeStringField "" v, decodeStringElems rest with
    | some s, some ss => some (s :: ss)
    | _, _ => none

/-- Decode a JSON value into the `Schemas` field. -/
def decodeSchemas : Json → Option (List String)
  | .arr elems => decodeStringElems elems
  | .null => some []
  | _ => none

/-- Decode the members of an object into the envelope, in order; later
members overwrite earlier ones. -/
def decodeMembers : List (String × Json) → pingFederateError → Option pingFederateError
  | [], e => some e
  | (k, v) :: rest, e =>
    if lowerKey k = "schemas" then
      match decodeSchemas v with
      | some ss => decodeMembers rest { e with Schemas := ss }
      | none => none
    else if lowerKey k = "status" then
      match decodeStringField e.Status v with
      | some s => decodeMembers rest { e with Status := s }
      | none => none
    else if lowerKey k = "detail" then
      match decodeStringField e.Detail v with
      | some s => decodeMembers rest { e with Detail := s }
      | none => none
    else decodeMembers rest e

/-- A concrete `json.Unmarshal(body, &pingFederateError)` into a zero-valued
envelope: `none` stands for a returned error. -/
def jsonUnmarshal : Unmarshaler := fun body =>
  match Json.parse body with
  | some (.obj members) => decodeMembers members ⟨[], "", ""⟩
  | some .null => some ⟨[], "", ""⟩
  | _ => none

/-! ## `internal/resource/config/utils.go` -/

/-- The function `reportHttpResponse`: report an HTTP error as a warning or as
an error, with the detail message of the error envelope when the body of the
response can be read and decoded. -/
def reportHttpResponse (unmarshal : Unmarshaler) (diagnostics : Diagnostics)
    (errorSummary : String) (err : GoError) (httpResp : Option HttpResponse)
    (isWarning : Bool) : Diagnostics :=
  let printed : Diagnostics × Bool :=
    match httpResp with
    | some resp =>
      match resp.Body with
      | some body =>
        match unmarshal body with
        | some pdError =>
          if isWarning then
            (diagnostics.AddWarning errorSummary (err.Error ++ " - Detail: " ++ pdError.Detail), true)
          else
            (diagnostics.AddError errorSummary (err.Error ++ " - Detail: " ++ pdError.Detail), true)
        | none => (diagnostics, false)
      | none => (diagnostics, false)
    | none => (diagnostics, false)
  let httpErrorPrinted := printed.2
  if !httpErrorPrinted then
    if isWarning then
      printed.1.AddWarning errorSummary err.Error
    else
      printed.1.AddError errorSummary err.Error
  else printed.1

/-- The function `ReportHttpErrorAsWarning`: report an HTTP error as a
warning. -/
def ReportHttpErrorAsWarning (unmarshal : Unmarshaler) (diagnostics : Diagnostics)
    (errorSummary : String) (err : GoError) (httpResp : Option HttpResponse) : Diagnostics :=
  reportHttpResponse unmarshal diagnostics errorSummary err httpResp true

/-- The function `ReportHttpError`: report an HTTP error.  The body is decoded
into an envelope, and what is appended to the error message is
`string(body)`. -/
def ReportHttpError (unmarshal : Unmarshaler) (diagnostics : Diagnostics)
    (errorSummary : String) (err : GoError) (httpResp : Option HttpResponse) : Diagnostics :=
  let printed : Diagnostics × Bool :=
    match httpResp with
    | some resp =>
      match resp.Body with
      | some body =>
        match unmarshal body with
        | some _paError =>
          (diagnostics.AddError errorSummary (err.Error ++ " - Detail: " ++ body), true)
        | none => (diagnostics, false)
      | none => (diagnostics, false)
    | none => (diagnostics, false)
  let httpErrorPrinted := printed.2
  if !httpErrorPrinted then
    printed.1.AddError errorSummary err.Error
  else printed.1

/-- The response carries a body that can be read and that decodes to the
envelope `env`. -/
def parsesAs (unmarshal : Unmarshaler) (httpResp : Option HttpResponse)
    (env : pingFederateError) : Prop :=
  ∃ resp body, httpResp = some resp ∧ resp.Body = some body ∧ unmarshal body = some env

/-- The response is absent, or its body cannot be read, or the body does not
decode to an envelope. -/
def noEnvelope (unmarshal : Unmarshaler) (httpResp : Option HttpResponse) : Prop :=
  ∀ resp body, httpResp = some resp → resp.Body = some body → unmarshal body = none

/-! ## `internal/resource/protocolmetadatalifetimesettings` -/

/-- The resource model `protocolMetadataLifetimeSettingsResourceModel`. -/
structure protocolMetadataLifetimeSettingsResourceModel where
  Id : TfString
  CacheDuration : TfInt64
  ReloadDelay : TfInt64
  deriving DecidableEq, Repr

/-- The vendor struct `client.MetadataLifetimeSettings`: two optional
`*int64` fields. -/
structure MetadataLifetimeSettings where
  CacheDuration : Option Int
  ReloadDelay : Option Int
  deriving DecidableEq, Repr

/-- The vendor constructor `client.NewMetadataLifetimeSettings`: nothing set. -/
def NewMetadataLifetimeSettings : MetadataLifetimeSettings := ⟨none, none⟩

/-- The function `addOptionalProtocolMetadataLifetimeSettingsFields`: the
request after the call and the returned error (always nil). -/
def addOptionalProtocolMetadataLifetimeSettingsFields (addRequest : MetadataLifetimeSettings)
    (plan : protocolMetadataLifetimeSettingsResourceModel) :
    MetadataLifetimeSettings × Option GoError :=
  let addRequest1 :=
    if IsDefined plan.CacheDuration then
      { addRequest with CacheDuration := plan.CacheDuration.ValueInt64Pointer }
    else addRequest
  let addRequest2 :=
    if IsDefined plan.ReloadDelay then
      { addRequest1 with ReloadDelay := plan.ReloadDelay.ValueInt64Pointer }
    else addRequest1
  (addRequest2, none)

/-- Method `Metadata` of the protocol metadata lifetime settings resource: the
resource type name it sets. -/
def protocolMetadataLifetimeSettingsResource.Metadata (ProviderTypeName : String) : String :=
  ProviderTypeName ++ "_protocolmetadata_lifetimesettings"

/-- The function `readProtocolMetadataLifetimeSettingsResponse`: the state
after the call, or `none` when the call panics on a nil pointer (`r` itself,
`r.CacheDuration` or `r.ReloadDelay`). -/
def readProtocolMetadataLifetimeSettingsResponse (r : Option MetadataLifetimeSettings)
    (state _expectedValues : protocolMetadataLifetimeSettingsResourceModel) :
    Option protocolMetadataLifetimeSettingsResourceModel :=
  match r with
  | none => none
  | some r =>
    let state1 := { state with Id := TfValue.known "id" }
    match r.CacheDuration with
    | none => none
    | some cacheDuration =>
      let state2 := { state1 with CacheDuration := TfValue.known cacheDuration }
      match r.ReloadDelay with
      | none => none
      | some reloadDelay => some { state2 with ReloadDelay := TfValue.known reloadDelay }

/-! ## `internal/resource/virtualhostnames` -/

/-- The resource model `virtualHostNamesResourceModel`. -/
structure virtualHostNamesResourceModel where
  Id : TfString
  VirtualHostNames : TfStringSet
  deriving DecidableEq, Repr

/-- The vendor struct `client.VirtualHostNameSettings`: a `[]string`, nil when
unset. -/
structure VirtualHostNameSettings where
  VirtualHostNames : Option (List String)
  deriving DecidableEq, Repr

/-- The vendor constructor `client.NewVirtualHostNameSettings`: nothing set. -/
def NewVirtualHostNameSettings : VirtualHostNameSettings := ⟨none⟩

/-- The function `addOptionalVirtualHostNamesFields`: the request after the call
and the returned error (always nil).  The slice filled by `ElementsAs` stays nil
when the conversion fails. -/
def addOptionalVirtualHostNamesFields (addRequest : VirtualHostNameSettings)
    (plan : virtualHostNamesResourceModel) : VirtualHostNameSettings × Option GoError :=
  let addRequest1 :=
    if IsDefined plan.VirtualHostNames then
      let slice := elementsAsStrings plan.VirtualHostNames.Elements
      { addRequest with VirtualHostNames := slice }
    else addRequest
  (addRequest1, none)

/-- Method `Metadata` of the virtual host names resource. -/
def virtualHostNamesResource.Metadata (ProviderTypeName : String) : String :=
  ProviderTypeName ++ "_virtual_host_names"

/-- The function `readVirtualHostNamesResponse`: the state after the call, or
`none` when the call panics on a nil `r`. -/
def readVirtualHostNamesResponse (r : Option VirtualHostNameSettings)
    (state _expectedValues : virtualHostNamesResourceModel) :
    Option virtualHostNamesResourceModel :=
  match r with
  | none => none
  | some r =>
    let state1 := { state with Id := TfValue.known "id" }
    some { state1 with VirtualHostNames := GetStringSet (r.VirtualHostNames.getD []) }

/-! ## CRUD calls: what a `Read` leaves behind -/

/-- What the vendor client returns from a call: the decoded response (nil when
there is none), the HTTP response (nil when the request never got one) and the
error (nil on success). -/
structure ApiResult (R : Type) where
  responseData : Option R
  httpResp : Option HttpResponse
  err : Option GoError

/-- The observable steps of a `Read` besides its diagnostics, in the order in
which they happen: removing the resource from state, handing a vendor response
to the response-to-state conversion, and writing a model to state. -/
inductive ReadEvent (M R : Type) where
  | RemoveResource : ReadEvent M R
  | readResponse (r : Option R) : ReadEvent M R
  | StateSet (data : M) : ReadEvent M R

/-- The outcome of a `Read`: the diagnostics of the response, the steps taken,
and whether the call ended in a panic (nil pointer dereference) instead of
returning. -/
structure ReadOutcome (M R : Type) where
  Diagnostics : Diagnostics
  events : List (ReadEvent M R)
  panicked : Bool

/-- A step converts a response into state. -/
def ReadEvent.isConversion {M R : Type} : ReadEvent M R → Bool
  | .readResponse _ => true
  | _ => false

/-- A step writes a model to state. -/
def ReadEvent.isStateSet {M R : Type} : ReadEvent M R → Bool
  | .StateSet _ => true
  | _ => false

/-- The test `httpResp != nil && httpResp.StatusCode == 404`. -/
def isNotFound (httpResp : Option HttpResponse) : Bool :=
  match httpResp with
  | some resp => resp.StatusCode == 404
  | none => false

/-- The vendor struct `client.ResourceLink`. -/
structure ResourceLink where
  Id : String
  Location : Option String
  deriving DecidableEq, Repr

/-! ## `internal/resource/config/notificationpublishers` -/

/-- An object with the single attribute `id` (`parent_ref`,
`plugin_descriptor_ref`). -/
structure idRefObject where
  id : TfString
  deriving DecidableEq, Repr

/-- The resource model `notificationPublisherResourceModel`.  The attribute
types of `configuration` belong to the package `pluginconfiguration`, which is
not among the sources: the type `C` of a known configuration object is a
parameter. -/
structure notificationPublisherResourceModel (C : Type) where
  Configuration : TfValue C
  Name : TfString
  ParentRef : TfValue idRefObject
  PluginDescriptorRef : TfValue idRefObject
  PublisherId : TfString

/-- The vendor struct `client.NotificationPublisher`; `PC` is the vendor's
`PluginConfiguration`. -/
structure NotificationPublisher (PC : Type) where
  Configuration : PC
  Id : String
  Name : String
  ParentRef : Option ResourceLink
  PluginDescriptorRef : ResourceLink

/-- Method `readClientResponse` of the notification publisher model: the model
after the call and the diagnostics returned, or `none` when `response` is nil
(the call panics).  `ToState` is `pluginconfiguration.ToState`, a parameter.
The calls of `types.ObjectValue` are made with attribute values of the declared
types and return no diagnostics. -/
def notificationPublisherResourceModel.readClientResponse {C PC : Type}
    (ToState : TfValue C → PC → TfValue C × Diagnostics)
    (state : notificationPublisherResourceModel C) (response : Option (NotificationPublisher PC)) :
    Option (notificationPublisherResourceModel C × Diagnostics) :=
  match response with
  | none => none
  | some response =>
    let respDiags : Diagnostics := []
    -- configuration
    let (configurationValue, diags) := ToState state.Configuration response.Configuration
    let respDiags := respDiags.Append diags
    let state := { state with Configuration := configurationValue }
    -- name
    let state := { state with Name := TfValue.known response.Name }
    -- parent_ref
    let parentRefValue : TfValue idRefObject :=
      match response.ParentRef with
      | none => TfValue.null
      | some parentRef => TfValue.known ⟨TfValue.known parentRef.Id⟩
    let state := { state with ParentRef := parentRefValue }
    -- plugin_descriptor_ref
    let pluginDescriptorRefValue : TfValue idRefObject :=
      TfValue.known ⟨TfValue.known response.PluginDescriptorRef.Id⟩
    let state := { state with PluginDescriptorRef := pluginDescriptorRefValue }
    -- publisher_id
    let state := { state with PublisherId := TfValue.known response.Id }
    some (state, respDiags)

/-- Method `Read` of the notification publisher resource.  `respDiagnostics` are
the diagnostics of the response on entry, `stateGet` is the result of
`req.State.Get` (the decoded prior state and its diagnostics), and
`GetNotificationPublisher` is the vendor call for a publisher id.  Writing a
model of the schema's type to state returns no diagnostics. -/
def notificationPublisherResource.Read {C PC : Type}
    (ToState : TfValue C → PC → TfValue C × Diagnostics) (unmarshal : Unmarshaler)
    (GetNotificationPublisher : String → ApiResult (NotificationPublisher PC))
    (respDiagnostics : Diagnostics)
    (stateGet : notificationPublisherResourceModel C × Diagnostics) :
    ReadOutcome (notificationPublisherResourceModel C) (NotificationPublisher PC) :=
  let data := stateGet.1
  -- Read Terraform prior state data into the model
  let diags0 := respDiagnostics.Append stateGet.2
  if diags0.HasError then ⟨diags0, [], false⟩
  else
    -- Read API call logic
    let result := GetNotificationPublisher data.PublisherId.ValueString
    match result.err with
    | some err =>
      if isNotFound result.httpResp then
        ⟨ReportHttpErrorAsWarning unmarshal diags0
            "An error occurred while reading the notificationPublisher" err result.httpResp,
          [.RemoveResource], false⟩
      else
        ⟨ReportHttpError unmarshal diags0
            "An error occurred while reading the notificationPublisher" err result.httpResp,
          [], false⟩
    | none =>
      -- Read response into the model
      match data.readClientResponse ToState result.responseData with
      | none => ⟨diags0, [.readResponse result.responseData], true⟩
      | some (data1, diags) =>
        -- Save updated data into Terraform state
        ⟨diags0.Append diags, [.readResponse result.responseData, .StateSet data1], false⟩

/-! ## `internal/resource/config/oauth/client` -/

/-- Modelled from the spec: the attributes of a resource link object
(`resourcelink.AttrType`, a package that is not among the sources): `id`, and
the read-only `location` that the schemas of the sources declare next to it. -/
structure resourceLinkObject where
  id : TfString
  location : TfString
  deriving DecidableEq, Repr

/-- A known `oidc_policy` object (`oidcPolicyAttrType`). -/
structure oidcPolicyObject where
  id_token_signing_algorithm : TfString
  id_token_encryption_algorithm : TfString
  id_token_content_encryption_algorithm : TfString
  policy_group : TfValue resourceLinkObject
  grant_access_session_revocation_api : TfBool
  grant_access_session_session_management_api : TfBool
  ping_access_logout_capable : TfBool
  logout_uris : TfStringSet
  pairwise_identifier_user_type : TfBool
  sector_identifier_uri : TfString
  deriving DecidableEq, Repr

/-- A known element of `secondary_secrets` (`secondarySecretsAttrType`). -/
structure secondarySecretsObject where
  secret : TfString
  expiry_time : TfString
  deriving DecidableEq, Repr

/-- A known `client_auth` object (`clientAuthAttrType`). -/
structure clientAuthObject where
  type : TfString
  secret : TfString
  secondary_secrets : TfValue (List (TfValue secondarySecretsObject))
  client_cert_issuer_dn : TfString
  client_cert_subject_dn : TfString
  enforce_replay_prevention : TfBool
  token_endpoint_auth_signing_algorithm : TfString
  deriving DecidableEq, Repr

/-- A known `jwks_settings` object (`jwksSettingsAttrType`). -/
structure jwksSettingsObject where
  jwks_url : TfString
  jwks : TfString
  deriving DecidableEq, Repr

/-- A known element of the map `extended_parameters`. -/
structure extendedParametersObject where
  values : TfStringSet
  deriving DecidableEq, Repr

/-- The resource model `oauthClientModel`. -/
structure oauthClientModel where
  Id : TfString
  ClientId : TfString
  Enabled : TfBool
  RedirectUris : TfStringSet
  GrantTypes : TfStringSet
  Name : TfString
  Description : TfString
  ModificationDate : TfString
  CreationDate : TfString
  LogoUrl : TfString
  DefaultAccessTokenManagerRef : TfValue resourceLinkObject
  RestrictToDefaultAccessTokenManager : TfBool
  ValidateUsingAllEligibleAtms : TfBool
  PersistentGrantExpirationType : TfString
  PersistentGrantExpirationTime : TfInt64
  PersistentGrantExpirationTimeUnit : TfString
  PersistentGrantIdleTimeoutType : TfString
  PersistentGrantIdleTimeout : TfInt64
  PersistentGrantIdleTimeoutTimeUnit : TfString
  PersistentGrantReuseType : TfString
  PersistentGrantReuseGrantTypes : TfStringSet
  AllowAuthenticationApiInit : TfBool
  BypassApprovalPage : TfBool
  RestrictScopes : TfBool
  RestrictedScopes : TfStringSet
  ExclusiveScopes : TfStringSet
  AuthorizationDetailTypes : TfStringSet
  RestrictedResponseTypes : TfStringSet
  RequirePushedAuthorizationRequests : TfBool
  RequireJwtSecuredAuthorizationResponseMode : TfBool
  RequireSignedRequests : TfBool
  RequestObjectSigningAlgorithm : TfString
  OidcPolicy : TfValue oidcPolicyObject
  ClientAuth : TfValue clientAuthObject
  JwksSettings : TfValue jwksSettingsObject
  ExtendedParameters : TfValue (List (String × TfValue extendedParametersObject))
  DeviceFlowSettingType : TfString
  UserAuthorizationUrlOverride : TfString
  PendingAuthorizationTimeoutOverride : TfInt64
  DevicePollingIntervalOverride : TfInt64
  BypassActivationCodeConfirmationOverride : TfBool
  RequireProofKeyForCodeExchange : TfBool
  CibaDeliveryMode : TfString
  CibaNotificationEndpoint : TfString
  CibaPollingInterval : TfInt64
  CibaRequireSignedRequests : TfBool
  CibaRequestObjectSigningAlgorithm : TfString
  CibaUserCodeSupported : TfBool
  RequestPolicyRef : TfValue resourceLinkObject
  TokenExchangeProcessorPolicyRef : TfValue resourceLinkObject
  RefreshRolling : TfString
  RefreshTokenRollingIntervalType : TfString
  RefreshTokenRollingInterval : TfInt64
  RefreshTokenRollingGracePeriodType : TfString
  RefreshTokenRollingGracePeriod : TfInt64
  ClientSecretRetentionPeriodType : TfString
  ClientSecretRetentionPeriod : TfInt64
  ClientSecretChangedTime : TfString
  TokenIntrospectionSigningAlgorithm : TfString
  TokenIntrospectionEncryptionAlgorithm : TfString
  TokenIntrospectionContentEncryptionAlgorithm : TfString
  JwtSecuredAuthorizationResponseModeSigningAlgorithm : TfString
  JwtSecuredAuthorizationResponseModeEncryptionAlgorithm : TfString
  JwtSecuredAuthorizationResponseModeContentEncryptionAlgorithm : TfString

/-- A Go `time.Time`, through its rendering by `Format(time.RFC3339Nano)`. -/
structure GoTime where
  rfc3339Nano : String
  deriving DecidableEq, Repr

/-- The zero `time.Time`, which a vendor getter returns for a nil pointer. -/
def GoTime.zero : GoTime := ⟨"0001-01-01T00:00:00Z"⟩

/-- The vendor struct `client.ClientOIDCPolicy`. -/
structure ClientOIDCPolicy where
  IdTokenSigningAlgorithm : Option String
  IdTokenEncryptionAlgorithm : Option String
  IdTokenContentEncryptionAlgorithm : Option String
  PolicyGroup : Option ResourceLink
  GrantAccessSessionRevocationApi : Option Bool
  GrantAccessSessionSessionManagementApi : Option Bool
  PingAccessLogoutCapable : Option Bool
  LogoutUris : Option (List String)
  PairwiseIdentifierUserType : Option Bool
  SectorIdentifierUri : Option String
  deriving DecidableEq, Repr

/-- The vendor struct `client.ClientSecret`. -/
structure ClientSecret where
  Secret : Option String
  EncryptedSecret : Option String
  ExpiryTime : Option GoTime
  deriving DecidableEq, Repr

/-- The vendor struct `client.ClientAuth`; its field `Type` is `Type_` here,
`Type` being reserved. -/
structure ClientAuth where
  Type_ : Option String
  Secret : Option String
  EncryptedSecret : Option String
  SecondarySecrets : Option (List ClientSecret)
  ClientCertIssuerDn : Option String
  ClientCertSubjectDn : Option String
  EnforceReplayPrevention : Option Bool
  TokenEndpointAuthSigningAlgorithm : Option String
  deriving DecidableEq, Repr

/-- The vendor struct `client.JwksSettings`. -/
structure JwksSettings where
  JwksUrl : Option String
  Jwks : Option String
  deriving DecidableEq, Repr

/-- The vendor struct `client.ParameterValues`. -/
structure ParameterValues where
  Values : Option (List String)
  deriving DecidableEq, Repr

/-- The vendor struct `client.Client`, with the fields the provider reads or
writes.  Slices and pointers are `Option`, nil being `none`. -/
structure Client where
  ClientId : String
  Enabled : Option Bool
  RedirectUris : Option (List String)
  GrantTypes : Option (List String)
  Name : String
  Description : Option String
  ModificationDate : Option GoTime
  CreationDate : Option GoTime
  LogoUrl : Option String
  DefaultAccessTokenManagerRef : Option ResourceLink
  RestrictToDefaultAccessTokenManager : Option Bool
  ValidateUsingAllEligibleAtms : Option Bool
  RefreshRolling : Option String
  RefreshTokenRollingIntervalType : Option String
  RefreshTokenRollingInterval : Option Int
  PersistentGrantExpirationType : Option String
  PersistentGrantExpirationTime : Option Int
  PersistentGrantExpirationTimeUnit : Option String
  PersistentGrantIdleTimeoutType : Option String
  PersistentGrantIdleTimeout : Option Int
  PersistentGrantIdleTimeoutTimeUnit : Option String
  PersistentGrantReuseType : Option String
  PersistentGrantReuseGrantTypes : Option (List String)
  AllowAuthenticationApiInit : Option Bool
  BypassApprovalPage : Option Bool
  RestrictScopes : Option Bool
  RestrictedScopes : Option (List String)
  ExclusiveScopes : Option (List String)
  AuthorizationDetailTypes : Option (List String)
  RestrictedResponseTypes : Option (List String)
  RequirePushedAuthorizationRequests : Option Bool
  RequireJwtSecuredAuthorizationResponseMode : Option Bool
  RequireSignedRequests : Option Bool
  RequestObjectSigningAlgorithm : Option String
  DeviceFlowSettingType : Option String
  UserAuthorizationUrlOverride : Option String
  PendingAuthorizationTimeoutOverride : Option Int
  DevicePollingIntervalOverride : Option Int
  BypassActivationCodeConfirmationOverride : Option Bool
  RequireProofKeyForCodeExchange : Option Bool
  CibaDeliveryMode : Option String
  CibaNotificationEndpoint : Option String
  CibaPollingInterval : Option Int
  CibaRequireSignedRequests : Option Bool
  CibaRequestObjectSigningAlgorithm : Option String
  CibaUserCodeSupported : Option Bool
  RefreshTokenRollingGracePeriodType : Option String
  RefreshTokenRollingGracePeriod : Option Int
  ClientSecretRetentionPeriodType : Option String
  ClientSecretRetentionPeriod : Option Int
  ClientSecretChangedTime : Option GoTime
  TokenIntrospectionSigningAlgorithm : Option String
  TokenIntrospectionEncryptionAlgorithm : Option String
  TokenIntrospectionContentEncryptionAlgorithm : Option String
  JwtSecuredAuthorizationResponseModeSigningAlgorithm : Option String
  JwtSecuredAuthorizationResponseModeEncryptionAlgorithm : Option String
  JwtSecuredAuthorizationResponseModeContentEncryptionAlgorithm : Option String
  OidcPolicy : Option ClientOIDCPolicy
  ClientAuth : Option ClientAuth
  JwksSettings : Option JwksSettings
  ExtendedParameters : Option (List (String × ParameterValues))
  RequestPolicyRef : Option ResourceLink
  TokenExchangeProcessorPolicyRef : Option ResourceLink

/-- The vendor constructor `client.NewClient`: the three required properties
set, every optional property nil. -/
def NewClient (clientId : String) (grantTypes : List String) (name : String) : Client :=
  { ClientId := clientId, GrantTypes := some grantTypes, Name := name,
    Enabled := none, RedirectUris := none, Description := none,
    ModificationDate := none, CreationDate := none, LogoUrl := none,
    DefaultAccessTokenManagerRef := none, RestrictToDefaultAccessTokenManager := none, ValidateUsingAllEligibleAtms := none,
    RefreshRolling := none, RefreshTokenRollingIntervalType := none, RefreshTokenRollingInterval := none,
    PersistentGrantExpirationType := none, PersistentGrantExpirationTime := none, PersistentGrantExpirationTimeUnit := none,
    PersistentGrantIdleTimeoutType := none, PersistentGrantIdleTimeout := none, PersistentGrantIdleTimeoutTimeUnit := none,
    PersistentGrantReuseType := none, PersistentGrantReuseGrantTypes := none, AllowAuthenticationApiInit := none,
    BypassApprovalPage := none, RestrictScopes := none, RestrictedScopes := none,
    ExclusiveScopes := none, AuthorizationDetailTypes := none, RestrictedResponseTypes := none,
    RequirePushedAuthorizationRequests := none, RequireJwtSecuredAuthorizationResponseMode := none, RequireSignedRequests := none,
    RequestObjectSigningAlgorithm := none, DeviceFlowSettingType := none, UserAuthorizationUrlOverride := none,
    PendingAuthorizationTimeoutOverride := none, DevicePollingIntervalOverride := none, BypassActivationCodeConfirmationOverride := none,
    RequireProofKeyForCodeExchange := none, CibaDeliveryMode := none, CibaNotificationEndpoint := none,
    CibaPollingInterval := none, CibaRequireSignedRequests := none, CibaRequestObjectSigningAlgorithm := none,
    CibaUserCodeSupported := none, RefreshTokenRollingGracePeriodType := none, RefreshTokenRollingGracePeriod := none,
    ClientSecretRetentionPeriodType := none, ClientSecretRetentionPeriod := none, ClientSecretChangedTime := none,
    TokenIntrospectionSigningAlgorithm := none, TokenIntrospectionEncryptionAlgorithm := none, TokenIntrospectionContentEncryptionAlgorithm := none,
    JwtSecuredAuthorizationResponseModeSigningAlgorithm := none, JwtSecuredAuthorizationResponseModeEncryptionAlgorithm := none, JwtSecuredAuthorizationResponseModeContentEncryptionAlgorithm := none,
    OidcPolicy := none, ClientAuth := none, JwksSettings := none,
    ExtendedParameters := none, RequestPolicyRef := none, TokenExchangeProcessorPolicyRef := none }

/-- The framework conversion of a `[]string` by `types.SetValueFrom`: a nil
slice gives the null set, any other slice the known set of its strings. -/
def stringSetFrom : Option (List String) → TfStringSet
  | none => .null
  | some values => .known (values.map TfValue.known)

/-- The framework conversion of a `*ResourceLink` nested in a converted struct:
a nil pointer gives the null object. -/
def resourceLinkFrom : Option ResourceLink → TfValue resourceLinkObject
  | none => .null
  | some l => .known ⟨.known l.Id, TfValue.ofPointer l.Location⟩

/-- The framework conversion `types.ObjectValueFrom(ctx, oidcPolicyAttrType,
r.OidcPolicy)`: a nil pointer gives the null object, and each field of the
struct is converted to the attribute of its name. -/
def oidcPolicyFrom : Option ClientOIDCPolicy → TfValue oidcPolicyObject
  | none => .null
  | some p => .known
    { id_token_signing_algorithm := TfValue.ofPointer p.IdTokenSigningAlgorithm
      id_token_encryption_algorithm := TfValue.ofPointer p.IdTokenEncryptionAlgorithm
      id_token_content_encryption_algorithm :=
        TfValue.ofPointer p.IdTokenContentEncryptionAlgorithm
      policy_group := resourceLinkFrom p.PolicyGroup
      grant_access_session_revocation_api := TfValue.ofPointer p.GrantAccessSessionRevocationApi
      grant_access_session_session_management_api :=
        TfValue.ofPointer p.GrantAccessSessionSessionManagementApi
      ping_access_logout_capable := TfValue.ofPointer p.PingAccessLogoutCapable
      logout_uris := stringSetFrom p.LogoutUris
      pairwise_identifier_user_type := TfValue.ofPointer p.PairwiseIdentifierUserType
      sector_identifier_uri := TfValue.ofPointer p.SectorIdentifierUri }

/-- The framework conversion `types.ObjectValueFrom(ctx, jwksSettingsAttrType,
r.JwksSettings)`. -/
def jwksSettingsFrom : Option JwksSettings → TfValue jwksSettingsObject
  | none => .null
  | some j => .known ⟨TfValue.ofPointer j.JwksUrl, TfValue.ofPointer j.Jwks⟩

/-- The framework conversion `types.MapValueFrom` of `r.ExtendedParameters`: a
nil pointer gives the null map. -/
def extendedParametersFrom :
    Option (List (String × ParameterValues)) →
      TfValue (List (String × TfValue extendedParametersObject))
  | none => .null
  | some ps => .known (ps.map fun kv => (kv.1, .known ⟨stringSetFrom kv.2.Values⟩))

/-- The function `readOauthClientResponse`: the state after the call and the
diagnostics returned, or `none` when the call panics on a nil pointer (`r`
itself, `r.ModificationDate`, `r.CreationDate` or `r.ClientAuth`).
`toState` is `resourcelink.ToState`, a function of a package that is not among
the sources.  The secret and the secondary secrets of `client_auth` are taken
from `plan`, which `Read` passes as the same model as `state`; the attributes
of `plan.ClientAuth` are read before `state.ClientAuth` is assigned.  The calls
of `types.ObjectValue`, `types.SetValue` and of the `From` conversions are made
with values of the declared types and return no diagnostics. -/
def readOauthClientResponse
    (toState : Option ResourceLink → TfValue resourceLinkObject × Diagnostics)
    (r : Option Client) (plan state : oauthClientModel) :
    Option (oauthClientModel × Diagnostics) :=
  match r with
  | none => none
  | some r =>
    match r.ModificationDate, r.CreationDate, r.ClientAuth with
    | some modificationDate, some creationDate, some rClientAuth =>
      let diags : Diagnostics := []
      let defaultAccessTokenManagerRef := toState r.DefaultAccessTokenManagerRef
      let diags := diags.Append defaultAccessTokenManagerRef.2
      -- state.ClientAuth: the secret and the secondary secrets come from the plan
      let secretToState : TfString :=
        match plan.ClientAuth with
        | .known clientAuthFromPlan =>
          if IsNonEmptyString clientAuthFromPlan.secret then
            TfValue.known clientAuthFromPlan.secret.ValueString
          else TfValue.null
        | _ => TfValue.null
      let secondarySecretsSetSlice : List (TfValue secondarySecretsObject) :=
        match plan.ClientAuth with
        | .known clientAuthFromPlan => clientAuthFromPlan.secondary_secrets.Elements
        | _ => []
      let secondarySecretsObjToState : TfValue (List (TfValue secondarySecretsObject)) :=
        TfValue.known secondarySecretsSetSlice
      let clientAuthToState : TfValue clientAuthObject := TfValue.known
        { type := TfValue.ofPointer rClientAuth.Type_
          secret := secretToState
          secondary_secrets := secondarySecretsObjToState
          client_cert_issuer_dn := TfValue.ofPointer rClientAuth.ClientCertIssuerDn
          client_cert_subject_dn := TfValue.ofPointer rClientAuth.ClientCertSubjectDn
          enforce_replay_prevention := TfValue.ofPointer rClientAuth.EnforceReplayPrevention
          token_endpoint_auth_signing_algorithm :=
            TfValue.ofPointer rClientAuth.TokenEndpointAuthSigningAlgorithm }
      let requestPolicyRefToState := toState r.RequestPolicyRef
      let diags := diags.Append requestPolicyRefToState.2
      let tokenExchangeProcessorPolicyRefToState := toState r.TokenExchangeProcessorPolicyRef
      let diags := diags.Append tokenExchangeProcessorPolicyRefToState.2
      some ({ state with
        Id := TfValue.known r.ClientId
        ClientId := TfValue.known r.ClientId
        Enabled := TfValue.ofPointer r.Enabled
        RedirectUris := GetStringSet (r.RedirectUris.getD [])
        GrantTypes := GetStringSet (r.GrantTypes.getD [])
        Name := TfValue.known r.Name
        Description := TfValue.ofPointer r.Description
        ModificationDate := TfValue.known modificationDate.rfc3339Nano
        CreationDate := TfValue.known creationDate.rfc3339Nano
        LogoUrl := TfValue.ofPointer r.LogoUrl
        DefaultAccessTokenManagerRef := defaultAccessTokenManagerRef.1
        RestrictToDefaultAccessTokenManager := TfValue.ofPointer r.RestrictToDefaultAccessTokenManager
        ValidateUsingAllEligibleAtms := TfValue.ofPointer r.ValidateUsingAllEligibleAtms
        RefreshRolling := TfValue.ofPointer r.RefreshRolling
        RefreshTokenRollingIntervalType := TfValue.ofPointer r.RefreshTokenRollingIntervalType
        RefreshTokenRollingInterval := TfValue.ofPointer r.RefreshTokenRollingInterval
        PersistentGrantExpirationType := TfValue.ofPointer r.PersistentGrantExpirationType
        PersistentGrantExpirationTime := TfValue.ofPointer r.PersistentGrantExpirationTime
        PersistentGrantExpirationTimeUnit := if r.PersistentGrantExpirationTimeUnit.getD "" == "" then TfValue.known "DAYS"
        else TfValue.ofPointer r.PersistentGrantExpirationTimeUnit
        PersistentGrantIdleTimeoutType := TfValue.ofPointer r.PersistentGrantIdleTimeoutType
        PersistentGrantIdleTimeout := TfValue.ofPointer r.PersistentGrantIdleTimeout
        PersistentGrantIdleTimeoutTimeUnit := TfValue.ofPointer r.PersistentGrantIdleTimeoutTimeUnit
        PersistentGrantReuseType := TfValue.ofPointer r.PersistentGrantReuseType
        PersistentGrantReuseGrantTypes := GetStringSet (r.PersistentGrantReuseGrantTypes.getD [])
        AllowAuthenticationApiInit := TfValue.ofPointer r.AllowAuthenticationApiInit
        BypassApprovalPage := TfValue.ofPointer r.BypassApprovalPage
        RestrictScopes := TfValue.ofPointer r.RestrictScopes
        RestrictedScopes := stringSetFrom r.RestrictedScopes
        ExclusiveScopes := GetStringSet (r.ExclusiveScopes.getD [])
        AuthorizationDetailTypes := GetStringSet (r.AuthorizationDetailTypes.getD [])
        RestrictedResponseTypes := GetStringSet (r.RestrictedResponseTypes.getD [])
        RequirePushedAuthorizationRequests := TfValue.ofPointer r.RequirePushedAuthorizationRequests
        RequireJwtSecuredAuthorizationResponseMode := TfValue.ofPointer r.RequireJwtSecuredAuthorizationResponseMode
        RequireSignedRequests := TfValue.ofPointer r.RequireSignedRequests
        RequestObjectSigningAlgorithm := TfValue.ofPointer r.RequestObjectSigningAlgorithm
        DeviceFlowSettingType := TfValue.ofPointer r.DeviceFlowSettingType
        UserAuthorizationUrlOverride := TfValue.ofPointer r.UserAuthorizationUrlOverride
        PendingAuthorizationTimeoutOverride := TfValue.ofPointer r.PendingAuthorizationTimeoutOverride
        DevicePollingIntervalOverride := TfValue.ofPointer r.DevicePollingIntervalOverride
        BypassActivationCodeConfirmationOverride := TfValue.ofPointer r.BypassActivationCodeConfirmationOverride
        RequireProofKeyForCodeExchange := TfValue.ofPointer r.RequireProofKeyForCodeExchange
        CibaDeliveryMode := TfValue.ofPointer r.CibaDeliveryMode
        CibaNotificationEndpoint := TfValue.ofPointer r.CibaNotificationEndpoint
        CibaPollingInterval := TfValue.ofPointer r.CibaPollingInterval
        CibaRequireSignedRequests := TfValue.ofPointer r.CibaRequireSignedRequests
        CibaRequestObjectSigningAlgorithm := TfValue.ofPointer r.CibaRequestObjectSigningAlgorithm
        CibaUserCodeSupported := TfValue.ofPointer r.CibaUserCodeSupported
        RefreshTokenRollingGracePeriodType := TfValue.ofPointer r.RefreshTokenRollingGracePeriodType
        RefreshTokenRollingGracePeriod := TfValue.ofPointer r.RefreshTokenRollingGracePeriod
        ClientSecretRetentionPeriodType := TfValue.ofPointer r.ClientSecretRetentionPeriodType
        ClientSecretRetentionPeriod := TfValue.ofPointer r.ClientSecretRetentionPeriod
        ClientSecretChangedTime := TfValue.known (r.ClientSecretChangedTime.getD GoTime.zero).rfc3339Nano
        TokenIntrospectionSigningAlgorithm := TfValue.ofPointer r.TokenIntrospectionSigningAlgorithm
        TokenIntrospectionEncryptionAlgorithm := TfValue.ofPointer r.TokenIntrospectionEncryptionAlgorithm
        TokenIntrospectionContentEncryptionAlgorithm := TfValue.ofPointer r.TokenIntrospectionContentEncryptionAlgorithm
        JwtSecuredAuthorizationResponseModeSigningAlgorithm := TfValue.ofPointer r.JwtSecuredAuthorizationResponseModeSigningAlgorithm
        JwtSecuredAuthorizationResponseModeEncryptionAlgorithm := TfValue.ofPointer r.JwtSecuredAuthorizationResponseModeEncryptionAlgorithm
        JwtSecuredAuthorizationResponseModeContentEncryptionAlgorithm := TfValue.ofPointer r.JwtSecuredAuthorizationResponseModeContentEncryptionAlgorithm
        OidcPolicy := oidcPolicyFrom r.OidcPolicy
        ClientAuth := clientAuthToState
        JwksSettings := jwksSettingsFrom r.JwksSettings
        ExtendedParameters := extendedParametersFrom r.ExtendedParameters
        RequestPolicyRef := requestPolicyRefToState.1
        TokenExchangeProcessorPolicyRef := tokenExchangeProcessorPolicyRefToState.1
      }, diags)
    | _, _, _ => none

/-- One round of the loop over `grant_types` in `ValidateConfig`: the
diagnostics and the flag `hasCibaGrantType` after looking at one grant type. -/
def validateGrantType (clientAuth : TfValue clientAuthObject)
    (acc : Diagnostics × Bool) (grantType : TfString) : Diagnostics × Bool :=
  let grantTypeVal := grantType.ValueString
  let diags1 : Diagnostics :=
    if grantTypeVal == "CLIENT_CREDENTIALS" then
      match clientAuth with
      | .known clientAuthAttributes =>
        let clientAuthType := clientAuthAttributes.type.ValueString
        let clientAuthSecret := clientAuthAttributes.secret.ValueString
        let d1 :=
          if clientAuthType != "NONE" then
            acc.1.AddError
              "client_auth.type must be set to \"SECRET\" when \"CLIENT_CREDENTIALS\" is included in grant_types."
              ""
          else acc.1
        if clientAuthSecret == "" then
          d1.AddError
            "client_auth.secret cannot be empty when \"CLIENT_CREDENTIALS\" is included in grant_types."
            ""
        else d1
      | _ =>
        acc.1.AddError
          "client_auth must be defined when \"CLIENT_CREDENTIALS\" is included in grant_types." ""
    else acc.1
  (diags1, if grantTypeVal == "CIBA" then true else acc.2)

/-- Method `ValidateConfig` of the OAuth client resource: the diagnostics of the
response after the call.  `respDiagnostics` are the diagnostics on entry and
`configGet` is the result of `req.Config.Get`.  `IsNonEmptyObj` is
`internaltypes.IsNonEmptyObj`, a function of a package that is not among the
sources. -/
def oauthClientResource.ValidateConfig (IsNonEmptyObj : TfValue jwksSettingsObject → Bool)
    (respDiagnostics : Diagnostics) (configGet : oauthClientModel × Diagnostics) : Diagnostics :=
  let model := configGet.1
  let diags := respDiagnostics.Append configGet.2
  -- Persistent Grant Expiration Validation
  let diags :=
    if (IsDefined model.PersistentGrantExpirationTime ||
          IsDefined model.PersistentGrantExpirationTimeUnit) &&
        model.PersistentGrantExpirationType.ValueString != "OVERRIDE_SERVER_DEFAULT" then
      diags.AddError
        "persistent_grant_expiration_type must be configured to \"OVERRIDE_SERVER_DEFAULT\" to modify the other persistent_grant_expiration values."
        ""
    else diags
  -- Refresh Token Rolling Validation
  let diags :=
    if (model.RefreshTokenRollingIntervalType.ValueString == "OVERRIDE_SERVER_DEFAULT") !=
        IsDefined model.RefreshTokenRollingInterval then
      diags.AddError
        "refresh_token_rolling_interval must be configured when refresh_token_rolling_interval_type is \"OVERRIDE_SERVER_DEFAULT\"."
        ""
    else diags
  -- Client Auth Defined
  let diags :=
    match model.ClientAuth with
    | .known clientAuthAttributes =>
      if IsDefined clientAuthAttributes.type then
        let clientAuthType := clientAuthAttributes.type.ValueString
        if clientAuthType == "PRIVATE_KEY_JWT" then
          if !IsNonEmptyObj model.JwksSettings then
            diags.AddError
              "jwks_settings must be defined when client_auth is configured to \"PRIVATE_KEY_JWT\"."
              ""
          else diags
        else if clientAuthType == "CERTIFICATE" then
          if !IsDefined clientAuthAttributes.client_cert_subject_dn ||
              !IsDefined clientAuthAttributes.client_cert_issuer_dn then
            diags.AddError
              "client_cert_subject_dn and client_cert_issuer_dn must be defined when client_auth is configured to \"CERTIFICATE\"."
              ""
          else diags
        else diags
      else diags
    | _ => diags
  -- Grant Types Validation
  let afterGrantTypes :=
    model.GrantTypes.Elements.foldl (validateGrantType model.ClientAuth) (diags, false)
  let diags := afterGrantTypes.1
  let hasCibaGrantType := afterGrantTypes.2
  -- CIBA Validation
  let diags :=
    if !hasCibaGrantType && (IsDefined model.CibaDeliveryMode ||
        IsDefined model.CibaNotificationEndpoint ||
        IsDefined model.CibaPollingInterval ||
        IsDefined model.CibaRequireSignedRequests ||
        IsDefined model.CibaRequestObjectSigningAlgorithm ||
        IsDefined model.CibaUserCodeSupported) then
      diags.AddError
        "ciba attributes can only be configured when \"CIBA\" is included in grant_types." ""
    else diags
  let diags :=
    if hasCibaGrantType && (model.CibaDeliveryMode.ValueString == "PING" &&
        !IsDefined model.CibaNotificationEndpoint) then
      diags.AddError
        "ciba_notification_endpoint must be defined when ciba_delivery_mode is \"PING\"." ""
    else diags
  -- Client Auth Validation
  -- ID Token Signing Algorithm Validation when client_auth is not defined
  let diags :=
    if !IsDefined model.ClientAuth then
      let algorithmAttributeSet : List String :=
        (match model.OidcPolicy with
          | .known oidcPolicy => [oidcPolicy.id_token_signing_algorithm.ValueString]
          | _ => []) ++
        (if IsDefined model.TokenIntrospectionSigningAlgorithm then
          [model.TokenIntrospectionSigningAlgorithm.ValueString] else []) ++
        (if IsDefined model.JwtSecuredAuthorizationResponseModeSigningAlgorithm then
          [model.JwtSecuredAuthorizationResponseModeSigningAlgorithm.ValueString] else [])
      let diags :=
        algorithmAttributeSet.foldl
          (fun (d : Diagnostics) algorithmVal =>
            if algorithmVal == "HS256" then
              d.AddError "client_auth must be defined when using the \"HS256\" signing algorithm" ""
            else d)
          diags
      if IsDefined model.TokenIntrospectionEncryptionAlgorithm then
        diags.AddError
          "client_auth must be configured when token_introspection_encryption_algorithm is configured."
          ""
      else diags
    else diags
  -- Restrict Scopes Validation
  let diags :=
    if decide (model.RestrictedScopes.Elements.length > 0) && !model.RestrictScopes.ValueBool then
      diags.AddError "restrict_scopes must be set to true to configure restricted_scopes." ""
    else diags
  -- OIDC Policy Validation
  let diags :=
    match model.OidcPolicy with
    | .known oidcPolicy =>
      if !oidcPolicy.pairwise_identifier_user_type.ValueBool &&
          IsDefined oidcPolicy.sector_identifier_uri then
        diags.AddError
          "sector_identifier_uri can only be configured when pairwise_identifier_user_type is set to true."
          ""
      else diags
    | _ => diags
  -- JWKS Settings Validation
  if !IsDefined model.JwksSettings then
    let diags :=
      if IsDefined model.TokenIntrospectionEncryptionAlgorithm then
        diags.AddError
          "token_introspection_encryption_algorithm must not be configured when jwks_settings is not configured."
          ""
      else diags
    if model.RequireSignedRequests.ValueBool then
      diags.AddError "require_signed_requests must be false when jwks_settings is not configured." ""
    else diags
  else diags

/-- Method `Read` of the OAuth client resource.  `respDiagnostics` are the
diagnostics of the response on entry, `stateGet` is the result of
`req.State.Get`, and `GetOauthClientById` is the vendor call for a client id.
After an error of the call has been reported the method goes on to the
conversion of the response.  Writing a model of the schema's type to state
returns no diagnostics. -/
def oauthClientResource.Read
    (toState : Option ResourceLink → TfValue resourceLinkObject × Diagnostics)
    (unmarshal : Unmarshaler) (GetOauthClientById : String → ApiResult Client)
    (respDiagnostics : Diagnostics) (stateGet : oauthClientModel × Diagnostics) :
    ReadOutcome oauthClientModel Client :=
  let state := stateGet.1
  let diags0 := respDiagnostics.Append stateGet.2
  if diags0.HasError then ⟨diags0, [], false⟩
  else
    let result := GetOauthClientById state.ClientId.ValueString
    let apiReadOauthClient := result.responseData
    let reported : Diagnostics × List (ReadEvent oauthClientModel Client) :=
      match result.err with
      | some err =>
        if isNotFound result.httpResp then
          (ReportHttpErrorAsWarning unmarshal diags0
              "An error occurred while getting the OAuth Client" err result.httpResp,
            [.RemoveResource])
        else
          (ReportHttpError unmarshal diags0
              "An error occurred while getting the  OAuth Client" err result.httpResp,
            [])
      | none => (diags0, [])
    -- Read the response into the state
    match readOauthClientResponse toState apiReadOauthClient state state with
    | none => ⟨reported.1, reported.2 ++ [.readResponse apiReadOauthClient], true⟩
    | some (state1, diags) =>
      -- Set refreshed state
      ⟨reported.1.Append diags,
        reported.2 ++ [.readResponse apiReadOauthClient, .StateSet state1], false⟩

/-! ## `internal/resource/config/localidentity/identityprofile`

The model struct `localIdentityIdentityProfileModel` and the attribute type
maps (`emailVerificationConfigAttrTypes` and the others) are declared in a file
of the package that is not among the sources; the structures below take the
attributes and their types from the schema of the resource and from the default
objects at the head of the file. -/

/-- A known `auth_source_update_policy` object. -/
structure authSourceUpdatePolicyObject where
  store_attributes : TfBool
  retain_attributes : TfBool
  update_attributes : TfBool
  update_interval : TfInt64
  deriving DecidableEq, Repr

/-- A known element of `auth_sources`. -/
structure authSourcesObject where
  id : TfString
  source : TfString
  deriving DecidableEq, Repr

/-- A known `registration_config` object. -/
structure registrationConfigObject where
  captcha_enabled : TfBool
  captcha_provider_ref : TfValue resourceLinkObject
  template_name : TfString
  create_authn_session_after_registration : TfBool
  username_field : TfString
  this_is_my_device_enabled : TfBool
  registration_workflow : TfValue resourceLinkObject
  execute_workflow : TfString
  deriving DecidableEq, Repr

/-- A known `profile_config` object. -/
structure profileConfigObject where
  delete_identity_enabled : TfBool
  template_name : TfString
  deriving DecidableEq, Repr

/-- A known element of `field_config.fields`. -/
structure fieldObject where
  type : TfString
  id : TfString
  label : TfString
  registration_page_field : TfBool
  profile_page_field : TfBool
  attributes : TfValue (List (String × TfBool))
  deriving DecidableEq, Repr

/-- A known `field_config` object; `fields` is a list attribute. -/
structure fieldConfigObject where
  fields : TfValue (List (TfValue fieldObject))
  strip_space_from_unique_field : TfBool
  deriving DecidableEq, Repr

/-- A known `email_verification_config` object. -/
structure emailVerificationConfigObject where
  email_verification_enabled : TfBool
  verify_email_template_name : TfString
  email_verification_sent_template_name : TfString
  email_verification_success_template_name : TfString
  email_verification_error_template_name : TfString
  email_verification_type : TfString
  otp_length : TfInt64
  otp_retry_attempts : TfInt64
  allowed_otp_character_set : TfString
  otp_time_to_live : TfInt64
  email_verification_otp_template_name : TfString
  otl_time_to_live : TfInt64
  field_for_email_to_verify : TfString
  field_storing_verification_status : TfString
  notification_publisher_ref : TfValue resourceLinkObject
  require_verified_email : TfBool
  require_verified_email_template_name : TfString
  deriving DecidableEq, Repr

/-- A known element of the map `data_store_config.data_store_mapping`. -/
structure dataStoreMappingObject where
  type : TfString
  name : TfString
  metadata : TfValue (List (String × TfString))
  deriving DecidableEq, Repr

/-- A known `data_store_config` object. -/
structure dataStoreConfigObject where
  base_dn : TfString
  type : TfString
  data_store_ref : TfValue resourceLinkObject
  data_store_mapping : TfValue (List (String × TfValue dataStoreMappingObject))
  create_pattern : TfString
  object_class : TfString
  auxiliary_object_classes : TfStringSet
  deriving DecidableEq, Repr

/-- The resource model `localIdentityIdentityProfileModel`. -/
structure localIdentityIdentityProfileModel where
  Id : TfString
  ProfileId : TfString
  Name : TfString
  ApcId : TfValue resourceLinkObject
  AuthSources : TfValue (List (TfValue authSourcesObject))
  AuthSourceUpdatePolicy : TfValue authSourceUpdatePolicyObject
  RegistrationEnabled : TfBool
  RegistrationConfig : TfValue registrationConfigObject
  ProfileConfig : TfValue profileConfigObject
  FieldConfig : TfValue fieldConfigObject
  EmailVerificationConfig : TfValue emailVerificationConfigObject
  DataStoreConfig : TfValue dataStoreConfigObject
  ProfileEnabled : TfBool
  deriving DecidableEq, Repr

/-- The checks of `ValidateConfig` on an `email_verification_config` that is
defined: the attributes excluded by the verification type, then the attributes
required when verification is enabled. -/
def validateEmailVerificationConfig (emailVerificationConfig : emailVerificationConfigObject)
    (diags : Diagnostics) : Diagnostics :=
  let emailVerificationType := emailVerificationConfig.email_verification_type.ValueString
  -- Validates Email Verification type for Email Configuration
  let diags :=
    if emailVerificationType == "OTP" then
      let diags :=
        if IsDefined emailVerificationConfig.otl_time_to_live then
          diags.AddError "Invalid Attribute Combination!"
            (Sprintln "otl_time_to_live attribute is not allowed when email_verification_type is OTP. Required attributes are otp_length, otp_retry_attempts and otp_time_to_live.")
        else diags
      let diags :=
        if IsDefined emailVerificationConfig.require_verified_email_template_name then
          diags.AddError "Invalid Attribute Combination!"
            (Sprintln "require_verified_email_template_name is not allowed when email verification or require_verified_email is disabled or when email_verification_type is OTP.")
        else diags
      if IsDefined emailVerificationConfig.email_verification_sent_template_name then
        diags.AddError "Invalid Attribute Combination!"
          (Sprintln "email_verification_sent_template_name is not allowed when email verification or require_verified_email is disabled or when email_verification_type is OTP.")
      else diags
    else if emailVerificationType == "OTL" then
      let diags :=
        if IsDefined emailVerificationConfig.otp_length then
          diags.AddError "Invalid Attribute Combination!"
            (Sprintln "otp_length attribute is not allowed when email_verification_type is OTL. Required attribute: otl_time_to_live.")
        else diags
      let diags :=
        if IsDefined emailVerificationConfig.otp_retry_attempts then
          diags.AddError "Invalid Attribute Combination!"
            (Sprintln "otp_retry_attempts attribute is not allowed when email_verification_type is OTL. Required attribute: otl_time_to_live.")
        else diags
      let diags :=
        if IsDefined emailVerificationConfig.allowed_otp_character_set then
          diags.AddError "Invalid Attribute Combination!"
            (Sprintln "allowed_otp_character_set attribute is not allowed when email_verification_type is OTL. Required attribute: otl_time_to_live.")
        else diags
      let diags :=
        if IsDefined emailVerificationConfig.otp_length then
          diags.AddError "Invalid Attribute Combination!"
            (Sprintln "otp_length attribute is not allowed when email_verification_type is OTL. Required attribute: otl_time_to_live.")
        else diags
      if IsDefined emailVerificationConfig.email_verification_otp_template_name then
        diags.AddError "Invalid Attribute Combination!"
          (Sprintln "email_verification_otp_template_name attribute is not allowed when email_verification_type is OTL. Required attribute: otl_time_to_live.")
      else diags
    else diags
  -- If email verification is enabled, some fields become required
  let verificationEnabled := emailVerificationConfig.email_verification_enabled
  if verificationEnabled.ValueBool then
    let fieldForEmailToVerify := emailVerificationConfig.field_for_email_to_verify
    let diags :=
      if !IsDefined fieldForEmailToVerify || fieldForEmailToVerify.ValueString == "" then
        diags.AddError "Missing Required Attribute"
          (Sprintln "field_for_email_to_verify is required when email_verification_enabled is set to true")
      else diags
    let fieldStoringVerificationStatus := emailVerificationConfig.field_storing_verification_status
    let diags :=
      if !IsDefined fieldStoringVerificationStatus ||
          fieldStoringVerificationStatus.ValueString == "" then
        diags.AddError "Missing Required Attribute"
          (Sprintln "field_storing_verification_status is required when email_verification_enabled is set to true")
      else diags
    if !IsDefined emailVerificationConfig.notification_publisher_ref then
      diags.AddError "Missing Required Attribute"
        (Sprintln "notification_publisher_ref is required when email_verification_enabled is set to true")
    else diags
  else diags

/-- The `fields` attribute read by `model.FieldConfig.Attributes()["fields"]`:
absent (nil, hence not defined) when `field_config` is null or unknown. -/
def fieldsOf (fieldConfig : TfValue fieldConfigObject) : Option (TfValue (List (TfValue fieldObject))) :=
  match fieldConfig with
  | .known fc => some fc.fields
  | _ => none

/-- The loop over the fields in the branch for a profile that is not enabled.
An element that is null or unknown has no attributes, and the type assertion on
its missing `profile_page_field` panics (`none`). -/
def validateFieldsProfileDisabled : List (TfValue fieldObject) → Diagnostics → Option Diagnostics
  | [], diags => some diags
  | .known fieldElemAttrs :: rest, diags =>
    let profilePagefield := fieldElemAttrs.profile_page_field
    let diags :=
      if IsDefined profilePagefield && profilePagefield.ValueBool then
        diags.AddError "Invalid Value for Attribute!"
          (Sprintln "profile_page_field option for the fields attribute should not be set to 'true' when profile is disabled.")
      else diags
    let registrationPageField := fieldElemAttrs.registration_page_field
    let diags :=
      if IsDefined registrationPageField && !registrationPageField.ValueBool then
        diags.AddError "Invalid Value for Attribute!"
          (Sprintln "registration_page_field option is required to be set to 'true' for the fields attribute when registration is the only option enabled.")
      else diags
    validateFieldsProfileDisabled rest diags
  | _ :: _, _ => none

/-- The branch of `ValidateConfig` taken when at least one of the two
capabilities is enabled.  Its checks are guarded by `profile_enabled &&
registration_enabled`.  In the part for a registration that is not enabled the
list attribute `fields` is asserted to be a `basetypes.SetValue`, which panics
(`none`) whenever `fields` is defined. -/
def validateEnabledCapabilities (model : localIdentityIdentityProfileModel)
    (diags : Diagnostics) : Option Diagnostics :=
  if model.ProfileEnabled.ValueBool && model.RegistrationEnabled.ValueBool then
    let afterProfileDisabled : Option Diagnostics :=
      if !model.ProfileEnabled.ValueBool then
        let afterFields : Option Diagnostics :=
          match fieldsOf model.FieldConfig with
          | some (.known fieldElems) => validateFieldsProfileDisabled fieldElems diags
          | _ => some diags
        match afterFields with
        | none => none
        | some diags =>
          if !model.ProfileConfig.IsNull then
            some (diags.AddError "Invalid Attribute Combination!"
              (Sprintln "profile_config is not allowed when profile is not enabled."))
          else some diags
      else some diags
    match afterProfileDisabled with
    | none => none
    | some diags =>
      let diags :=
        if model.ProfileEnabled.ValueBool && model.ProfileConfig.IsNull then
          diags.AddError "Invalid Value for Attribute!"
            (Sprintln "profile_config is required when profile is enabled.")
        else diags
      let afterRegistrationDisabled : Option Diagnostics :=
        if !model.RegistrationEnabled.ValueBool then
          match fieldsOf model.FieldConfig with
          | some (.known _) => none
          | _ =>
            if !model.RegistrationConfig.IsNull then
              some (diags.AddError "Invalid Attribute!"
                (Sprintln "registration_config is not allowed when registration is not enabled."))
            else some diags
        else some diags
      match afterRegistrationDisabled with
      | none => none
      | some diags =>
        if model.RegistrationEnabled.ValueBool && model.RegistrationConfig.IsNull then
          some (diags.AddError "Invalid Value for Attribute!"
            (Sprintln "registration_config is required when registration is enabled."))
        else some diags
  else some diags

/-- Method `ValidateConfig` of the local identity profile resource: the
diagnostics of the response after the call, or `none` when the call panics.
`respDiagnostics` are the diagnostics on entry and `configGet` is the result of
`req.Config.Get`. -/
def localIdentityIdentityProfileResource.ValidateConfig (respDiagnostics : Diagnostics)
    (configGet : localIdentityIdentityProfileModel × Diagnostics) : Option Diagnostics :=
  let model := configGet.1
  let diags := respDiagnostics.Append configGet.2
  let diags :=
    match model.EmailVerificationConfig with
    | .known emailVerificationConfig =>
      validateEmailVerificationConfig emailVerificationConfig diags
    | _ => diags
  let afterCapabilities : Option Diagnostics :=
    if !model.ProfileEnabled.ValueBool && !model.RegistrationEnabled.ValueBool then
      let diags :=
        if IsDefined model.EmailVerificationConfig || IsDefined model.DataStoreConfig ||
            IsDefined model.FieldConfig || IsDefined model.RegistrationConfig ||
            IsDefined model.ProfileConfig then
          diags.AddError "Invalid Attribute Combination!"
            (Sprintln "email, data_store_config, field Config, registration_config and profile_config are not allowed when registration and profile are disabled.")
        else diags
      if IsDefined model.AuthSourceUpdatePolicy then
        some (diags.AddError "Invalid Attribute Combination!"
          (Sprintln "auth_source_update_policy is not allowed when registration and profile are disabled."))
      else some diags
    else validateEnabledCapabilities model diags
  match afterCapabilities with
  | none => none
  | some diags =>
    match model.RegistrationConfig with
    | .known registrationConfig =>
      let captchaEnabled := registrationConfig.captcha_enabled
      let captchaProviderRef := registrationConfig.captcha_provider_ref
      if captchaEnabled.ValueBool != IsDefined captchaProviderRef then
        some (diags.AddError "Invalid registration captcha settings"
          "If registration_config.captcha_enabled is set to true, then registration_config.captcha_provider_ref must be configured. If registration_config.captcha_enabled is false, then registration_config.captcha_provider_ref must not be configured.")
      else some diags
    | _ => some diags

/-- The Go zero value of `oauthClientModel` (`var state oauthClientModel`):
every attribute is null. -/
def oauthClientModel.zero : oauthClientModel :=
  {
    Id := .null, ClientId := .null, Enabled := .null,
    RedirectUris := .null, GrantTypes := .null, Name := .null,
    Description := .null, ModificationDate := .null, CreationDate := .null,
    LogoUrl := .null, DefaultAccessTokenManagerRef := .null, RestrictToDefaultAccessTokenManager := .null,
    ValidateUsingAllEligibleAtms := .null, PersistentGrantExpirationType := .null, PersistentGrantExpirationTime := .null,
    PersistentGrantExpirationTimeUnit := .null, PersistentGrantIdleTimeoutType := .null, PersistentGrantIdleTimeout := .null,
    PersistentGrantIdleTimeoutTimeUnit := .null, PersistentGrantReuseType := .null, PersistentGrantReuseGrantTypes := .null,
    AllowAuthenticationApiInit := .null, BypassApprovalPage := .null, RestrictScopes := .null,
    RestrictedScopes := .null, ExclusiveScopes := .null, AuthorizationDetailTypes := .null,
    RestrictedResponseTypes := .null, RequirePushedAuthorizationRequests := .null, RequireJwtSecuredAuthorizationResponseMode := .null,
    RequireSignedRequests := .null, RequestObjectSigningAlgorithm := .null, OidcPolicy := .null,
    ClientAuth := .null, JwksSettings := .null, ExtendedParameters := .null,
    DeviceFlowSettingType := .null, UserAuthorizationUrlOverride := .null, PendingAuthorizationTimeoutOverride := .null,
    DevicePollingIntervalOverride := .null, BypassActivationCodeConfirmationOverride := .null, RequireProofKeyForCodeExchange := .null,
    CibaDeliveryMode := .null, CibaNotificationEndpoint := .null, CibaPollingInterval := .null,
    CibaRequireSignedRequests := .null, CibaRequestObjectSigningAlgorithm := .null, CibaUserCodeSupported := .null,
    RequestPolicyRef := .null, TokenExchangeProcessorPolicyRef := .null, RefreshRolling := .null,
    RefreshTokenRollingIntervalType := .null, RefreshTokenRollingInterval := .null, RefreshTokenRollingGracePeriodType := .null,
    RefreshTokenRollingGracePeriod := .null, ClientSecretRetentionPeriodType := .null, ClientSecretRetentionPeriod := .null,
    ClientSecretChangedTime := .null, TokenIntrospectionSigningAlgorithm := .null, TokenIntrospectionEncryptionAlgorithm := .null,
    TokenIntrospectionContentEncryptionAlgorithm := .null, JwtSecuredAuthorizationResponseModeSigningAlgorithm := .null, JwtSecuredAuthorizationResponseModeEncryptionAlgorithm := .null,
    JwtSecuredAuthorizationResponseModeContentEncryptionAlgorithm := .null }

/-- A guarded `AddError`, the shape of every single check of the validation
methods: the error is added when the condition holds and the diagnostics are
left alone otherwise. -/
def addErrorIf (c : Bool) (summary detail : String) (diags : Diagnostics) : Diagnostics :=
  if c then diags.AddError summary detail else diags

/-! ## `internal/resource/config/serversettings/wstruststssettings`

The model struct `serverSettingsWsTrustStsSettingsResourceModel` is declared in
a generated file of the package that is not among the sources; the structure
below holds the attributes that the file among the sources reads and writes,
with the element types of the default sets at its head. -/

/-- A known element of `users`. -/
structure usersObject where
  username : TfString
  password : TfString
  deriving DecidableEq, Repr

/-- The resource model `serverSettingsWsTrustStsSettingsResourceModel`. -/
structure serverSettingsWsTrustStsSettingsResourceModel where
  BasicAuthnEnabled : TfBool
  ClientCertAuthnEnabled : TfBool
  IssuerCerts : TfValue (List (TfValue idRefObject))
  RestrictByIssuerCert : TfBool
  RestrictBySubjectDn : TfBool
  SubjectDns : TfStringSet
  Users : TfValue (List (TfValue usersObject))
  deriving DecidableEq, Repr

/-- The vendor struct `client.UsernamePasswordCredentials`. -/
structure UsernamePasswordCredentials where
  Username : Option String
  Password : Option String
  EncryptedPassword : Option String
  deriving DecidableEq, Repr

/-- The vendor struct `client.WsTrustStsSettings`. -/
structure WsTrustStsSettings where
  BasicAuthnEnabled : Option Bool
  ClientCertAuthnEnabled : Option Bool
  RestrictBySubjectDn : Option Bool
  RestrictByIssuerCert : Option Bool
  SubjectDns : Option (List String)
  IssuerCerts : Option (List ResourceLink)
  Users : Option (List UsernamePasswordCredentials)
  deriving DecidableEq, Repr

/-- Method `ValidateConfig` of the WS-Trust STS settings resource: the
diagnostics of the response after the call.  `respDiagnostics` are the
diagnostics on entry and `configGet` is the result of `req.Config.Get`. -/
def serverSettingsWsTrustStsSettingsResource.ValidateConfig (respDiagnostics : Diagnostics)
    (configGet : serverSettingsWsTrustStsSettingsResourceModel × Diagnostics) : Diagnostics :=
  let config := configGet.1
  let diags := respDiagnostics.Append configGet.2
  let diags :=
    if config.BasicAuthnEnabled.ValueBool then
      if config.Users.IsNull ||
          (IsDefined config.Users && config.Users.Elements.length == 0) then
        diags.AddError "'basic_authn_enabled' can only be true if users are defined" ""
      else diags
    else if IsDefined config.Users && decide (config.Users.Elements.length > 0) then
      diags.AddError "users can only be defined if 'basic_authn_enabled' is true" ""
    else diags
  let diags :=
    if config.ClientCertAuthnEnabled.ValueBool then
      if !config.RestrictByIssuerCert.ValueBool && !config.RestrictBySubjectDn.ValueBool then
        diags.AddError
          "'client_cert_authn_enabled' can only be true if 'restrict_by_issuer_cert' or 'restrict_by_subject_dn' is true"
          ""
      else diags
    else diags
  let diags :=
    if config.RestrictByIssuerCert.ValueBool then
      let diags :=
        if config.IssuerCerts.IsNull ||
            (IsDefined config.IssuerCerts && config.IssuerCerts.Elements.length == 0) then
          diags.AddError "if 'restrict_by_issuer_cert' is true, issuer certs must be defined" ""
        else diags
      if !config.ClientCertAuthnEnabled.ValueBool then
        diags.AddError
          "'restrict_by_issuer_cert' can only be true if 'client_cert_authn_enabled' is true" ""
      else diags
    else diags
  if config.RestrictBySubjectDn.ValueBool then
    let diags :=
      if config.SubjectDns.IsNull ||
          (IsDefined config.SubjectDns && config.SubjectDns.Elements.length == 0) then
        diags.AddError "if 'restrict_by_subject_dn' is true, subject DNs must be defined" ""
      else diags
    if !config.ClientCertAuthnEnabled.ValueBool then
      diags.AddError
        "'restrict_by_subject_dn' can only be true if 'client_cert_authn_enabled' is true" ""
    else diags
  else diags

/-- The inner loop of `readClientResponseUsers` over the users of the state: it
stops at the first element that has a `password` attribute, that is, at the
first known object, and takes the pointer to its password; the user names are
not looked at.  The result is the pointer `userPassword`. -/
def userPasswordFromState : List (TfValue usersObject) → Option String
  | [] => none
  | .known userAttrs :: _ => userAttrs.password.ValueStringPointer
  | _ :: rest => userPasswordFromState rest

/-- Method `readClientResponseUsers` of the WS-Trust STS settings model: the
model after the call and the diagnostics returned, or `none` when `response` is
nil (the call panics).  The calls of `types.ObjectValue` and `types.SetValue`
are made with values of the declared types and return no diagnostics. -/
def serverSettingsWsTrustStsSettingsResourceModel.readClientResponseUsers
    (state : serverSettingsWsTrustStsSettingsResourceModel)
    (response : Option WsTrustStsSettings) :
    Option (serverSettingsWsTrustStsSettingsResourceModel × Diagnostics) :=
  match response with
  | none => none
  | some response =>
    let respDiags : Diagnostics := []
    let usersValues : List (TfValue usersObject) :=
      (response.Users.getD []).map fun usersResponseValue =>
        -- Get password value from state, if it is set, since the PF API won't return the password
        let userPassword : Option String :=
          if !state.Users.IsNull && !state.Users.IsUnknown then
            userPasswordFromState state.Users.Elements
          else none
        TfValue.known
          { password := TfValue.ofPointer userPassword
            username := TfValue.ofPointer usersResponseValue.Username }
    let usersValue : TfValue (List (TfValue usersObject)) := TfValue.known usersValues
    some ({ state with Users := usersValue }, respDiags)

/-! ## `internal/resource/config/oauth`: exclusive scopes -/

/-- The search of `strings.Index` from a given byte offset: the offset of the
first place where `substr` occurs in the remaining characters, or `-1`. -/
def stringsIndexFrom (substr : List Char) : List Char → Nat → Int
  | [], off => if substr = [] then (off : Int) else -1
  | c :: rest, off =>
    if substr.isPrefixOf (c :: rest) then (off : Int)
    else stringsIndexFrom substr rest (off + c.utf8Size)

/-- Go's `strings.Index(s, substr)`: the byte index of the first instance of
`substr` in `s`, or `-1` if `substr` is not present in `s`. -/
def stringsIndex (s substr : String) : Int :=
  stringsIndexFrom substr.toList s.toList 0

/-- The resource model
`oauthAuthServerSettingsScopesExclusiveScopesResourceModel`. -/
structure oauthAuthServerSettingsScopesExclusiveScopesResourceModel where
  Id : TfString
  Name : TfString
  Description : TfString
  Dynamic : TfBool
  deriving DecidableEq, Repr

/-- Method `ModifyPlan` of the exclusive scopes resource: the diagnostics of the
response after the call.  `respDiagnostics` are the diagnostics on entry and
`planGet` is the result of `req.Plan.Get`, whose diagnostics the method
drops. -/
def oauthAuthServerSettingsScopesExclusiveScopesResource.ModifyPlan
    (respDiagnostics : Diagnostics)
    (planGet : oauthAuthServerSettingsScopesExclusiveScopesResourceModel × Diagnostics) :
    Diagnostics :=
  let model := planGet.1
  if model.Dynamic.ValueBool && (model.Name.ValueString != "" || !model.Name.IsNull) then
    let containsAsteriskPrefix := stringsIndex model.Name.ValueString "*"
    if containsAsteriskPrefix != 0 then
      respDiagnostics.AddError
        "Dynamic property is set to true with Name property incorrectly specified!"
        "The Name property must be prefixed with an \"*\". For example, \"*example\""
    else respDiagnostics
  else respDiagnostics

/-- The vendor constructor `client.NewResourceLinkWithDefaults` and the literal
`&client.ResourceLink{}`: the zero resource link. -/
def ResourceLink.zero : ResourceLink := ⟨"", none⟩

/-- The literal `&client.ClientOIDCPolicy{}`. -/
def ClientOIDCPolicy.zero : ClientOIDCPolicy :=
  ⟨none, none, none, none, none, none, none, none, none, none⟩

/-- The literal `&client.ClientAuth{}`. -/
def ClientAuth.zero : ClientAuth := ⟨none, none, none, none, none, none, none, none⟩

/-- The literal `&client.JwksSettings{}`. -/
def JwksSettings.zero : JwksSettings := ⟨none, none⟩

/-- The calls `json.Unmarshal([]byte(internaljson.FromValue(value, skip)), target)`
for a target pointer that is not nil, one for each kind of object the OAuth
client converts: the content of the target after the call and the error
returned.  The package `internal/json` is not among the sources, so these
conversions are parameters.  `nilTarget` is the error that `json.Unmarshal`
returns for the same text when the target pointer is nil: for such a target the
standard library always returns an error (`InvalidUnmarshalError`, or the
syntax error of the text) and stores nothing. -/
structure JsonConversions where
  resourceLink : resourceLinkObject → ResourceLink → ResourceLink × Option GoError
  oidcPolicy : oidcPolicyObject → ClientOIDCPolicy → ClientOIDCPolicy × Option GoError
  clientAuth : clientAuthObject → ClientAuth → ClientAuth × Option GoError
  jwksSettings : jwksSettingsObject → JwksSettings → JwksSettings × Option GoError
  extendedParameters :
    List (String × TfValue extendedParametersObject) → List (String × ParameterValues) →
      List (String × ParameterValues) × Option GoError
  nilTarget : resourceLinkObject → GoError

/-- The function `grantTypes`: the strings of the elements of the set.  A nil
slice and an empty one are both the empty list here. -/
def grantTypes (grantTypesSet : TfStringSet) : List String :=
  grantTypesSet.Elements.map TfValue.ValueString

/-- The function `addOptionalOauthClientFields`: the request after the call and
the error returned (nil when every conversion succeeds).  The request is
updated in place, so the fields assigned before a failing conversion keep
their new values. -/
def addOptionalOauthClientFields (json : JsonConversions) (addRequest : Client)
    (plan : oauthClientModel) : Client × Option GoError :=
  let addRequest : Client :=
    { addRequest with
        Enabled := plan.Enabled.ValueBoolPointer
        Description := plan.Description.ValueStringPointer
        LogoUrl := plan.LogoUrl.ValueStringPointer
        RestrictToDefaultAccessTokenManager := plan.RestrictToDefaultAccessTokenManager.ValueBoolPointer
        ValidateUsingAllEligibleAtms := plan.ValidateUsingAllEligibleAtms.ValueBoolPointer
        RefreshRolling := plan.RefreshRolling.ValueStringPointer
        RefreshTokenRollingIntervalType := plan.RefreshTokenRollingIntervalType.ValueStringPointer
        RefreshTokenRollingInterval := plan.RefreshTokenRollingInterval.ValueInt64Pointer
        PersistentGrantExpirationType := plan.PersistentGrantExpirationType.ValueStringPointer
        PersistentGrantExpirationTime := plan.PersistentGrantExpirationTime.ValueInt64Pointer
        PersistentGrantExpirationTimeUnit := plan.PersistentGrantExpirationTimeUnit.ValueStringPointer
        PersistentGrantIdleTimeoutType := plan.PersistentGrantIdleTimeoutType.ValueStringPointer
        PersistentGrantIdleTimeout := plan.PersistentGrantIdleTimeout.ValueInt64Pointer
        PersistentGrantIdleTimeoutTimeUnit := plan.PersistentGrantIdleTimeoutTimeUnit.ValueStringPointer
        PersistentGrantReuseType := plan.PersistentGrantReuseType.ValueStringPointer
        AllowAuthenticationApiInit := plan.AllowAuthenticationApiInit.ValueBoolPointer
        BypassApprovalPage := plan.BypassApprovalPage.ValueBoolPointer
        RequirePushedAuthorizationRequests := plan.RequirePushedAuthorizationRequests.ValueBoolPointer
        RequireJwtSecuredAuthorizationResponseMode := plan.RequireJwtSecuredAuthorizationResponseMode.ValueBoolPointer
        RequireSignedRequests := plan.RequireSignedRequests.ValueBoolPointer
        RequestObjectSigningAlgorithm := plan.RequestObjectSigningAlgorithm.ValueStringPointer
        DeviceFlowSettingType := plan.DeviceFlowSettingType.ValueStringPointer
        UserAuthorizationUrlOverride := plan.UserAuthorizationUrlOverride.ValueStringPointer
        PendingAuthorizationTimeoutOverride := plan.PendingAuthorizationTimeoutOverride.ValueInt64Pointer
        DevicePollingIntervalOverride := plan.DevicePollingIntervalOverride.ValueInt64Pointer
        BypassActivationCodeConfirmationOverride := plan.BypassActivationCodeConfirmationOverride.ValueBoolPointer
        RequireProofKeyForCodeExchange := plan.RequireProofKeyForCodeExchange.ValueBoolPointer
        CibaDeliveryMode := plan.CibaDeliveryMode.ValueStringPointer
        CibaNotificationEndpoint := plan.CibaNotificationEndpoint.ValueStringPointer
        CibaPollingInterval := plan.CibaPollingInterval.ValueInt64Pointer
        CibaRequireSignedRequests := plan.CibaRequireSignedRequests.ValueBoolPointer
        CibaRequestObjectSigningAlgorithm := plan.CibaRequestObjectSigningAlgorithm.ValueStringPointer
        CibaUserCodeSupported := plan.CibaUserCodeSupported.ValueBoolPointer
        RefreshTokenRollingGracePeriodType := plan.RefreshTokenRollingGracePeriodType.ValueStringPointer
        RefreshTokenRollingGracePeriod := plan.RefreshTokenRollingGracePeriod.ValueInt64Pointer
        ClientSecretRetentionPeriodType := plan.ClientSecretRetentionPeriodType.ValueStringPointer
        ClientSecretRetentionPeriod := plan.ClientSecretRetentionPeriod.ValueInt64Pointer
        TokenIntrospectionSigningAlgorithm := plan.TokenIntrospectionSigningAlgorithm.ValueStringPointer
        TokenIntrospectionEncryptionAlgorithm := plan.TokenIntrospectionEncryptionAlgorithm.ValueStringPointer
        TokenIntrospectionContentEncryptionAlgorithm := plan.TokenIntrospectionContentEncryptionAlgorithm.ValueStringPointer
        JwtSecuredAuthorizationResponseModeSigningAlgorithm := plan.JwtSecuredAuthorizationResponseModeSigningAlgorithm.ValueStringPointer
        JwtSecuredAuthorizationResponseModeEncryptionAlgorithm := plan.JwtSecuredAuthorizationResponseModeEncryptionAlgorithm.ValueStringPointer
        JwtSecuredAuthorizationResponseModeContentEncryptionAlgorithm := plan.JwtSecuredAuthorizationResponseModeContentEncryptionAlgorithm.ValueStringPointer }
  let addRequest : Client :=
    if IsDefined plan.ExclusiveScopes then
      { addRequest with ExclusiveScopes := elementsAsStrings plan.ExclusiveScopes.Elements }
    else addRequest
  let addRequest : Client :=
    if IsDefined plan.RedirectUris then
      { addRequest with RedirectUris := elementsAsStrings plan.RedirectUris.Elements }
    else addRequest
  match (match plan.DefaultAccessTokenManagerRef with
      | .known obj =>
        let converted := json.resourceLink obj ResourceLink.zero
        ({ addRequest with DefaultAccessTokenManagerRef := some converted.1 }, converted.2)
      | _ => (addRequest, none)) with
  | (addRequest, some err) => (addRequest, some err)
  | (addRequest, none) =>
  let addRequest : Client :=
    if IsDefined plan.PersistentGrantReuseGrantTypes then
      { addRequest with
        PersistentGrantReuseGrantTypes :=
          elementsAsStrings plan.PersistentGrantReuseGrantTypes.Elements }
    else addRequest
  let addRequest : Client :=
    if IsDefined plan.RestrictScopes then
      let addRequest := { addRequest with RestrictScopes := plan.RestrictScopes.ValueBoolPointer }
      if plan.RestrictScopes.ValueBool && IsDefined plan.RestrictedScopes then
        { addRequest with RestrictedScopes := elementsAsStrings plan.RestrictedScopes.Elements }
      else addRequest
    else addRequest
  let addRequest : Client :=
    if IsDefined plan.AuthorizationDetailTypes then
      { addRequest with
        AuthorizationDetailTypes := elementsAsStrings plan.AuthorizationDetailTypes.Elements }
    else addRequest
  let addRequest : Client :=
    if IsDefined plan.RestrictedResponseTypes then
      { addRequest with
        RestrictedResponseTypes := elementsAsStrings plan.RestrictedResponseTypes.Elements }
    else addRequest
  match (match plan.OidcPolicy with
      | .known obj =>
        let converted := json.oidcPolicy obj ClientOIDCPolicy.zero
        ({ addRequest with OidcPolicy := some converted.1 }, converted.2)
      | _ => (addRequest, none)) with
  | (addRequest, some err) => (addRequest, some err)
  | (addRequest, none) =>
  match (match plan.ClientAuth with
      | .known obj =>
        let converted := json.clientAuth obj ClientAuth.zero
        ({ addRequest with ClientAuth := some converted.1 }, converted.2)
      | _ => (addRequest, none)) with
  | (addRequest, some err) => (addRequest, some err)
  | (addRequest, none) =>
  match (match plan.JwksSettings with
      | .known obj =>
        let converted := json.jwksSettings obj JwksSettings.zero
        ({ addRequest with JwksSettings := some converted.1 }, converted.2)
      | _ => (addRequest, none)) with
  | (addRequest, some err) => (addRequest, some err)
  | (addRequest, none) =>
  match (match plan.ExtendedParameters with
      | .known obj =>
        let converted := json.extendedParameters obj []
        ({ addRequest with ExtendedParameters := some converted.1 }, converted.2)
      | _ => (addRequest, none)) with
  | (addRequest, some err) => (addRequest, some err)
  | (addRequest, none) =>
  -- request_policy_ref: the target is the pointer the request already holds
  match (match plan.RequestPolicyRef with
      | .known obj =>
        match addRequest.RequestPolicyRef with
        | none => (addRequest, some (json.nilTarget obj))
        | some target =>
          let converted := json.resourceLink obj target
          ({ addRequest with RequestPolicyRef := some converted.1 }, converted.2)
      | _ => (addRequest, none)) with
  | (addRequest, some err) => (addRequest, some err)
  | (addRequest, none) =>
  -- token_exchange_processor_policy_ref: a fresh target is allocated first
  match (match plan.TokenExchangeProcessorPolicyRef with
      | .known obj =>
        let converted := json.resourceLink obj ResourceLink.zero
        ({ addRequest with TokenExchangeProcessorPolicyRef := some converted.1 }, converted.2)
      | _ => (addRequest, none)) with
  | (addRequest, some err) => (addRequest, some err)
  | (addRequest, none) => (addRequest, none)

/-- Method `Create` of the OAuth client resource.  `respDiagnostics` are the
diagnostics of the response on entry, `planGet` is the result of
`req.Plan.Get`, and `CreateOauthClient` is the vendor call for a request body.
The outcome lists the conversion of the response and the model written to
state.  Writing a model of the schema's type to state returns no
diagnostics. -/
def oauthClientResource.Create (json : JsonConversions)
    (toState : Option ResourceLink → TfValue resourceLinkObject × Diagnostics)
    (unmarshal : Unmarshaler) (CreateOauthClient : Client → ApiResult Client)
    (respDiagnostics : Diagnostics) (planGet : oauthClientModel × Diagnostics) :
    ReadOutcome oauthClientModel Client :=
  let plan := planGet.1
  let diags0 := respDiagnostics.Append planGet.2
  if diags0.HasError then ⟨diags0, [], false⟩
  else
    let createOauthClient :=
      NewClient plan.ClientId.ValueString (grantTypes plan.GrantTypes) plan.Name.ValueString
    match addOptionalOauthClientFields json createOauthClient plan with
    | (_, some err) =>
      ⟨diags0.AddError "Failed to add optional properties to add request for OAuth Client"
          err.Error, [], false⟩
    | (createOauthClient, none) =>
      let result := CreateOauthClient createOauthClient
      let oauthClientResponse := result.responseData
      match result.err with
      | some err =>
        ⟨ReportHttpError unmarshal diags0 "An error occurred while creating the OAuth Client" err
            result.httpResp, [], false⟩
      | none =>
        -- Read the response into the state
        match readOauthClientResponse toState oauthClientResponse plan oauthClientModel.zero with
        | none => ⟨diags0, [.readResponse oauthClientResponse], true⟩
        | some (state, diags) =>
          ⟨diags0.Append diags, [.readResponse oauthClientResponse, .StateSet state], false⟩

/-- Method `Update` of the OAuth client resource.  `UpdateOauthClient` is the
vendor call for a client id and a request body.  An error of the call is
reported, and the method left, unless it came with a 404 response.  After the
response has been read into `state`, the model handed to `resp.State.Set` is
`plan`. -/
def oauthClientResource.Update (json : JsonConversions)
    (toState : Option ResourceLink → TfValue resourceLinkObject × Diagnostics)
    (unmarshal : Unmarshaler) (UpdateOauthClient : String → Client → ApiResult Client)
    (respDiagnostics : Diagnostics) (planGet : oauthClientModel × Diagnostics) :
    ReadOutcome oauthClientModel Client :=
  let plan := planGet.1
  let diags0 := respDiagnostics.Append planGet.2
  if diags0.HasError then ⟨diags0, [], false⟩
  else
    let createUpdateRequest :=
      NewClient plan.ClientId.ValueString (grantTypes plan.GrantTypes) plan.Name.ValueString
    match addOptionalOauthClientFields json createUpdateRequest plan with
    | (_, some err) =>
      ⟨diags0.AddError "Failed to add optional properties to add request for OAuth Client"
          err.Error, [], false⟩
    | (createUpdateRequest, none) =>
      let result := UpdateOauthClient plan.ClientId.ValueString createUpdateRequest
      let updateOauthClientResponse := result.responseData
      let reportAndReturn : Option GoError :=
        match result.err with
        | some err => if !isNotFound result.httpResp then some err else none
        | none => none
      match reportAndReturn with
      | some err =>
        ⟨ReportHttpError unmarshal diags0 "An error occurred while updating OAuth Client" err
            result.httpResp, [], false⟩
      | none =>
        -- Read the response
        match readOauthClientResponse toState updateOauthClientResponse plan
            oauthClientModel.zero with
        | none => ⟨diags0, [.readResponse updateOauthClientResponse], true⟩
        | some (_state, diags) =>
          -- Update computed values
          ⟨diags0.Append diags, [.readResponse updateOauthClientResponse, .StateSet plan], false⟩

/-- The model last written to state in an outcome, if any. -/
def ReadOutcome.savedState {M R : Type} (out : ReadOutcome M R) : Option M :=
  out.events.foldl
    (fun saved e =>
      match e with
      | .StateSet data => some data
      | .RemoveResource => none
      | .readResponse _ => saved)
    none

/-- Conversions for evaluating the functions on concrete plans: each known
attribute of the object is stored in the field of its name, and a null or
unknown attribute leaves the field of the target as it is.  The error for a nil
target is the `InvalidUnmarshalError` for a resource link. -/
def fieldwiseJson : JsonConversions where
  resourceLink := fun obj target =>
    ({ Id := obj.id.valueOr target.Id
       Location := match obj.location with
         | .known v => some v
         | _ => target.Location }, none)
  oidcPolicy := fun obj target =>
    ({ IdTokenSigningAlgorithm :=
         match obj.id_token_signing_algorithm with
         | .known v => some v
         | _ => target.IdTokenSigningAlgorithm
       IdTokenEncryptionAlgorithm :=
         match obj.id_token_encryption_algorithm with
         | .known v => some v
         | _ => target.IdTokenEncryptionAlgorithm
       IdTokenContentEncryptionAlgorithm :=
         match obj.id_token_content_encryption_algorithm with
         | .known v => some v
         | _ => target.IdTokenContentEncryptionAlgorithm
       PolicyGroup :=
         match obj.policy_group with
         | .known l => some ⟨l.id.valueOr "", l.location.ValueStringPointer⟩
         | _ => target.PolicyGroup
       GrantAccessSessionRevocationApi :=
         match obj.grant_access_session_revocation_api with
         | .known v => some v
         | _ => target.GrantAccessSessionRevocationApi
       GrantAccessSessionSessionManagementApi :=
         match obj.grant_access_session_session_management_api with
         | .known v => some v
         | _ => target.GrantAccessSessionSessionManagementApi
       PingAccessLogoutCapable :=
         match obj.ping_access_logout_capable with
         | .known v => some v
         | _ => target.PingAccessLogoutCapable
       LogoutUris :=
         match obj.logout_uris with
         | .known vs => elementsAsStrings vs
         | _ => target.LogoutUris
       PairwiseIdentifierUserType :=
         match obj.pairwise_identifier_user_type with
         | .known v => some v
         | _ => target.PairwiseIdentifierUserType
       SectorIdentifierUri :=
         match obj.sector_identifier_uri with
         | .known v => some v
         | _ => target.SectorIdentifierUri }, none)
  clientAuth := fun obj target =>
    ({ target with
       Type_ := match obj.type with
         | .known v => some v
         | _ => target.Type_
       Secret := match obj.secret with
         | .known v => some v
         | _ => target.Secret
       ClientCertIssuerDn := match obj.client_cert_issuer_dn with
         | .known v => some v
         | _ => target.ClientCertIssuerDn
       ClientCertSubjectDn := match obj.client_cert_subject_dn with
         | .known v => some v
         | _ => target.ClientCertSubjectDn
       EnforceReplayPrevention := match obj.enforce_replay_prevention with
         | .known v => some v
         | _ => target.EnforceReplayPrevention
       TokenEndpointAuthSigningAlgorithm := match obj.token_endpoint_auth_signing_algorithm with
         | .known v => some v
         | _ => target.TokenEndpointAuthSigningAlgorithm }, none)
  jwksSettings := fun obj target =>
    ({ JwksUrl := match obj.jwks_url with
         | .known v => some v
         | _ => target.JwksUrl
       Jwks := match obj.jwks with
         | .known v => some v
         | _ => target.Jwks }, none)
  extendedParameters := fun obj _target =>
    (obj.map fun kv =>
      (kv.1, ⟨match kv.2 with
        | .known p => elementsAsStrings p.values.Elements
        | _ => none⟩), none)
  nilTarget := fun _ => ⟨"json: Unmarshal(nil *configurationapi.ResourceLink)"⟩

/-! ## `internal/resource/config/idp` -/

/-- A known configuration field (`fieldsAttrTypes`). -/
structure configurationFieldObject where
  name : TfString
  value : TfString
  encrypted_value : TfString
  inherited : TfBool
  deriving DecidableEq, Repr

/-- A known row of a configuration table. -/
structure configurationRowObject where
  fields : TfValue (List (TfValue configurationFieldObject))
  default_row : TfBool
  deriving DecidableEq, Repr

/-- A known configuration table (`tablesAttrTypes`). -/
structure configurationTableObject where
  name : TfString
  rows : TfValue (List (TfValue configurationRowObject))
  inherited : TfBool
  deriving DecidableEq, Repr

/-- A known `configuration` object (`configurationAttrTypes`). -/
structure configurationObject where
  tables : TfValue (List (TfValue configurationTableObject))
  fields : TfValue (List (TfValue configurationFieldObject))
  deriving DecidableEq, Repr

/-- A known core or extended attribute of the attribute contract. -/
structure contractAttributeObject where
  name : TfString
  pseudonym : TfBool
  masked : TfBool
  deriving DecidableEq, Repr

/-- A known `attribute_contract` object (`attributeContractAttrTypes`). -/
structure attributeContractObject where
  core_attributes : TfValue (List (TfValue contractAttributeObject))
  extended_attributes : TfValue (List (TfValue contractAttributeObject))
  unique_user_key_attribute : TfString
  mask_ognl_values : TfBool
  inherited : TfBool
  deriving DecidableEq, Repr

/-- A known `source` object: type and id. -/
structure sourceTypeIdObject where
  type : TfString
  id : TfString
  deriving DecidableEq, Repr

/-- A known element of `attribute_contract_fulfillment`. -/
structure attributeFulfillmentObject where
  source : TfValue sourceTypeIdObject
  value : TfString
  deriving DecidableEq, Repr

/-- A known element of `conditional_criteria`. -/
structure conditionalCriteriaObject where
  source : TfValue sourceTypeIdObject
  attribute_name : TfString
  condition : TfString
  value : TfString
  error_result : TfString
  deriving DecidableEq, Repr

/-- A known element of `expression_criteria`. -/
structure expressionCriteriaObject where
  expression : TfString
  error_result : TfString
  deriving DecidableEq, Repr

/-- A known `issuance_criteria` object. -/
structure issuanceCriteriaObject where
  conditional_criteria : TfValue (List (TfValue conditionalCriteriaObject))
  expression_criteria : TfValue (List (TfValue expressionCriteriaObject))
  deriving DecidableEq, Repr

/-- A known `attribute_mapping` object (`attributeMappingAttrTypes`). -/
structure attributeMappingObject where
  attribute_contract_fulfillment : TfValue (List (String × TfValue attributeFulfillmentObject))
  issuance_criteria : TfValue issuanceCriteriaObject
  inherited : TfBool
  deriving DecidableEq, Repr

/-- The resource model `idpAdapterResourceModel`. -/
structure idpAdapterResourceModel where
  AuthnCtxClassRef : TfString
  Id : TfString
  Name : TfString
  PluginDescriptorRef : TfValue resourceLinkObject
  ParentRef : TfValue resourceLinkObject
  Configuration : TfValue configurationObject
  AttributeMapping : TfValue attributeMappingObject
  AttributeContract : TfValue attributeContractObject
  deriving DecidableEq, Repr

/-- The vendor struct `client.IdpAdapter`.  The vendor types of the plugin
configuration, of the contract mapping and of the attribute contract are the
parameters `PC`, `PAM` and `PAC`. -/
structure IdpAdapter (PC PAM PAC : Type) where
  AuthnCtxClassRef : Option String
  Id : String
  Name : String
  PluginDescriptorRef : ResourceLink
  ParentRef : Option ResourceLink
  Configuration : PC
  AttributeMapping : Option PAM
  AttributeContract : Option PAC

/-- The helpers that `readIdpAdapterResponse` calls and that are not among the
sources: `internaltypes.StringTypeOrNil`, `internaltypes.ToStateResourceLink`
(which is handed the diagnostics and returns them updated), and the framework
conversions `types.ObjectValueFrom` for the three attribute type maps, applied
to a vendor value that is not nil. -/
structure IdpAdapterConversions (PC PAM PAC : Type) where
  StringTypeOrNil : Option String → Bool → TfString
  ToStateResourceLink : Option ResourceLink → Diagnostics → TfValue resourceLinkObject × Diagnostics
  configurationFrom : PC → TfValue configurationObject × Diagnostics
  attributeContractFrom : PAC → TfValue attributeContractObject × Diagnostics
  attributeMappingFrom : PAM → TfValue attributeMappingObject × Diagnostics

/-- The function `readIdpAdapterResponse`: the state and the diagnostics after
the call, or `none` when `r` is nil (the call panics).  `attribute_contract` and
`attribute_mapping` are assigned only when the response holds them. -/
def readIdpAdapterResponse {PC PAM PAC : Type} (conv : IdpAdapterConversions PC PAM PAC)
    (r : Option (IdpAdapter PC PAM PAC)) (state : idpAdapterResourceModel)
    (diags : Diagnostics) : Option (idpAdapterResourceModel × Diagnostics) :=
  match r with
  | none => none
  | some r =>
    let state := { state with AuthnCtxClassRef := conv.StringTypeOrNil r.AuthnCtxClassRef false }
    let state := { state with Id := TfValue.known r.Id }
    let state := { state with Name := TfValue.known r.Name }
    let pluginDescriptorRef := conv.ToStateResourceLink (some r.PluginDescriptorRef) diags
    let state := { state with PluginDescriptorRef := pluginDescriptorRef.1 }
    let diags := pluginDescriptorRef.2
    let parentRef := conv.ToStateResourceLink r.ParentRef diags
    let state := { state with ParentRef := parentRef.1 }
    let diags := parentRef.2
    let configuration := conv.configurationFrom r.Configuration
    let state := { state with Configuration := configuration.1 }
    let diags := diags.Append configuration.2
    let contract : idpAdapterResourceModel × Diagnostics :=
      match r.AttributeContract with
      | some attributeContract =>
        let converted := conv.attributeContractFrom attributeContract
        ({ state with AttributeContract := converted.1 }, diags.Append converted.2)
      | none => (state, diags)
    let state := contract.1
    let diags := contract.2
    match r.AttributeMapping with
    | some attributeMapping =>
      let converted := conv.attributeMappingFrom attributeMapping
      some ({ state with AttributeMapping := converted.1 }, diags.Append converted.2)
    | none => some (state, diags)

/-- Method `Read` of the IdP adapter resource.  `respDiagnostics` are the
diagnostics of the response on entry, `stateGet` is the result of
`req.State.Get`, and `GetIdpAdapter` is the vendor call for an adapter id.  The
prior state is the model that the response is read into. -/
def idpAdapterResource.Read {PC PAM PAC : Type} (conv : IdpAdapterConversions PC PAM PAC)
    (unmarshal : Unmarshaler) (GetIdpAdapter : String → ApiResult (IdpAdapter PC PAM PAC))
    (respDiagnostics : Diagnostics) (stateGet : idpAdapterResourceModel × Diagnostics) :
    ReadOutcome idpAdapterResourceModel (IdpAdapter PC PAM PAC) :=
  let state := stateGet.1
  let diags0 := respDiagnostics.Append stateGet.2
  if diags0.HasError then ⟨diags0, [], false⟩
  else
    let result := GetIdpAdapter state.Id.ValueString
    let apiReadIdpAdapter := result.responseData
    match result.err with
    | some err =>
      ⟨ReportHttpError unmarshal diags0 "An error occurred while looking for an IdpAdapter" err
          result.httpResp, [], false⟩
    | none =>
      -- Read the response into the state
      match readIdpAdapterResponse conv apiReadIdpAdapter state diags0 with
      | none => ⟨diags0, [.readResponse apiReadIdpAdapter], true⟩
      | some (state1, diags) =>
        -- Set refreshed state
        ⟨diags, [.readResponse apiReadIdpAdapter, .StateSet state1], false⟩

/-! ## Local identity profile: the errors of the type switch and `ModifyPlan` -/

/-- The details, before `fmt.Sprintln`, of the errors that the switch on
`email_verification_type` in `ValidateConfig` of the local identity profile
raises: the three of the case `OTP`, then the four of the case `OTL`. -/
def emailVerificationTypeErrorDetails : List String :=
  ["otl_time_to_live attribute is not allowed when email_verification_type is OTP. Required attributes are otp_length, otp_retry_attempts and otp_time_to_live.",
    "require_verified_email_template_name is not allowed when email verification or require_verified_email is disabled or when email_verification_type is OTP.",
    "email_verification_sent_template_name is not allowed when email verification or require_verified_email is disabled or when email_verification_type is OTP.",
    "otp_length attribute is not allowed when email_verification_type is OTL. Required attribute: otl_time_to_live.",
    "otp_retry_attempts attribute is not allowed when email_verification_type is OTL. Required attribute: otl_time_to_live.",
    "allowed_otp_character_set attribute is not allowed when email_verification_type is OTL. Required attribute: otl_time_to_live.",
    "email_verification_otp_template_name attribute is not allowed when email_verification_type is OTL. Required attribute: otl_time_to_live."]

/-- The default `authSourceUpdatePolicyDefault` at the head of the file. -/
def authSourceUpdatePolicyDefault : TfValue authSourceUpdatePolicyObject :=
  .known {
    store_attributes := .known false
    retain_attributes := .known false
    update_attributes := .known false
    update_interval := .known 0 }

/-- The default `emailVerificationConfigDefault` at the head of the file. -/
def emailVerificationConfigDefault : TfValue emailVerificationConfigObject :=
  .known {
    email_verification_enabled := .known false
    verify_email_template_name := .null
    email_verification_sent_template_name := .null
    email_verification_success_template_name := .null
    email_verification_error_template_name := .null
    email_verification_type := .null
    otp_length := .null
    otp_retry_attempts := .null
    allowed_otp_character_set := .null
    otp_time_to_live := .null
    email_verification_otp_template_name := .null
    otl_time_to_live := .null
    field_for_email_to_verify := .known ""
    field_storing_verification_status := .known ""
    notification_publisher_ref := .null
    require_verified_email := .null
    require_verified_email_template_name := .null }

/-- The block of `ModifyPlan` with the comment "Email verification config inner
defaults", on the attributes of an `email_verification_config` that is defined:
each of ten attributes, when unknown, is set to its default or to null. -/
def emailVerificationConfigInnerDefaults
    (emailVerificationAttributes : emailVerificationConfigObject) :
    emailVerificationConfigObject :=
  -- Some defaults in the email verification config only apply if email verification is enabled
  let emailVerificationEnabled := emailVerificationAttributes.email_verification_enabled.ValueBool
  -- Some attributes only apply for certain email verification types
  let emailVerificationType := emailVerificationAttributes.email_verification_type
  let isOTP := emailVerificationType.ValueString == "OTP"
  let isOTL := emailVerificationType.ValueString == "OTL"
  -- Set unknown email verification attributes to defaults
  let emailVerificationAttributes :=
    if emailVerificationAttributes.verify_email_template_name.IsUnknown then
      if emailVerificationEnabled then
        { emailVerificationAttributes with
          verify_email_template_name :=
            .known "message-template-email-ownership-verification.html" }
      else { emailVerificationAttributes with verify_email_template_name := .null }
    else emailVerificationAttributes
  let emailVerificationAttributes :=
    if emailVerificationAttributes.email_verification_success_template_name.IsUnknown then
      if emailVerificationEnabled then
        { emailVerificationAttributes with
          email_verification_success_template_name :=
            .known "local.identity.email.verification.success.html" }
      else { emailVerificationAttributes with email_verification_success_template_name := .null }
    else emailVerificationAttributes
  let emailVerificationAttributes :=
    if emailVerificationAttributes.email_verification_error_template_name.IsUnknown then
      if emailVerificationEnabled then
        { emailVerificationAttributes with
          email_verification_error_template_name :=
            .known "local.identity.email.verification.error.html" }
      else { emailVerificationAttributes with email_verification_error_template_name := .null }
    else emailVerificationAttributes
  let emailVerificationAttributes :=
    if emailVerificationAttributes.require_verified_email.IsUnknown then
      if emailVerificationEnabled then
        { emailVerificationAttributes with require_verified_email := .known false }
      else { emailVerificationAttributes with require_verified_email := .null }
    else emailVerificationAttributes
  -- Attributes with defaults only when OTP is enabled
  let emailVerificationAttributes :=
    if emailVerificationAttributes.allowed_otp_character_set.IsUnknown then
      if emailVerificationEnabled && isOTP then
        { emailVerificationAttributes with
          allowed_otp_character_set := .known "23456789BCDFGHJKMNPQRSTVWXZbcdfghjkmnpqrstvwxz" }
      else { emailVerificationAttributes with allowed_otp_character_set := .null }
    else emailVerificationAttributes
  let emailVerificationAttributes :=
    if emailVerificationAttributes.otp_time_to_live.IsUnknown then
      if emailVerificationEnabled && isOTP then
        { emailVerificationAttributes with otp_time_to_live := .known 15 }
      else { emailVerificationAttributes with otp_time_to_live := .null }
    else emailVerificationAttributes
  let emailVerificationAttributes :=
    if emailVerificationAttributes.email_verification_otp_template_name.IsUnknown then
      if emailVerificationEnabled && isOTP then
        { emailVerificationAttributes with
          email_verification_otp_template_name :=
            .known "local.identity.email.verification.otp.html" }
      else { emailVerificationAttributes with email_verification_otp_template_name := .null }
    else emailVerificationAttributes
  -- Attributes with defaults only when OTL is enabled
  let emailVerificationAttributes :=
    if emailVerificationAttributes.email_verification_sent_template_name.IsUnknown then
      if emailVerificationEnabled && isOTL then
        { emailVerificationAttributes with
          email_verification_sent_template_name :=
            .known "local.identity.email.verification.sent.html" }
      else { emailVerificationAttributes with email_verification_sent_template_name := .null }
    else emailVerificationAttributes
  let emailVerificationAttributes :=
    if emailVerificationAttributes.otl_time_to_live.IsUnknown then
      if emailVerificationEnabled && isOTL then
        { emailVerificationAttributes with otl_time_to_live := .known 1440 }
      else { emailVerificationAttributes with otl_time_to_live := .null }
    else emailVerificationAttributes
  if emailVerificationAttributes.require_verified_email_template_name.IsUnknown then
    if emailVerificationEnabled && isOTL then
      { emailVerificationAttributes with
        require_verified_email_template_name :=
          .known "local.identity.email.verification.required.html" }
    else { emailVerificationAttributes with require_verified_email_template_name := .null }
  else emailVerificationAttributes

/-- The `defaultAttrs` that the loop over the fields in `ModifyPlan` builds for
a field type; the map is held as a list of its entries in the order of their
keys.  For the other types the map is empty. -/
def fieldDefaultAttrs (fieldType : String) : List (String × TfBool) :=
  if fieldType == "HIDDEN" then
    [("Mask Log Values", .known false), ("Unique ID Field", .known false)]
  else if fieldType == "CHECKBOX" then
    [("Mask Log Values", .known false), ("Must Be Checked", .known false),
      ("Read-Only", .known false)]
  else if fieldType == "DATE" then
    [("Mask Log Values", .known false), ("Read-Only", .known false), ("Required", .known false)]
  else if fieldType == "EMAIL" || fieldType == "PHONE" || fieldType == "TEXT" then
    [("Mask Log Values", .known false), ("Read-Only", .known false), ("Required", .known false),
      ("Unique ID Field", .known false)]
  else []

/-- The loop of `ModifyPlan` over the elements of `field_config.fields`: a field
whose `attributes` is unknown gets the defaults of its type, when there are
any.  An element that is null or unknown has no attributes, and the call of
`IsUnknown` on its missing `attributes` panics (`none`). -/
def fieldsWithDefaults : List (TfValue fieldObject) → Option (List (TfValue fieldObject))
  | [] => some []
  | .known fieldAttrs :: rest =>
    let fieldWithDefaults : fieldObject :=
      if !fieldAttrs.attributes.IsUnknown then fieldAttrs
      else
        let defaultAttrs := fieldDefaultAttrs fieldAttrs.type.ValueString
        if defaultAttrs.length > 0 then { fieldAttrs with attributes := .known defaultAttrs }
        else fieldAttrs
    match fieldsWithDefaults rest with
    | none => none
    | some done => some (.known fieldWithDefaults :: done)
  | _ :: _ => none

/-- What `ModifyPlan` of the local identity profile resource leaves behind: the
diagnostics of the response, and the plan handed to `resp.Plan.Set` when that
call is reached. -/
structure ModifyPlanOutcome where
  Diagnostics : Diagnostics
  planSet : Option localIdentityIdentityProfileModel
  deriving DecidableEq, Repr

/-- Method `ModifyPlan` of the local identity profile resource, or `none` when
the call panics.  `respDiagnostics` are the diagnostics on entry and `planGet`
is the result of `req.Plan.Get` into the pointer `plan`, which stays nil for a
null plan.  The values built by `types.ObjectValue`, `types.MapValue` and
`types.ListValue` match their attribute types, so these calls return no
diagnostics. -/
def localIdentityIdentityProfileResource.ModifyPlan (respDiagnostics : Diagnostics)
    (planGet : Option localIdentityIdentityProfileModel × Diagnostics) :
    Option ModifyPlanOutcome :=
  let diags := respDiagnostics.Append planGet.2
  match planGet.1 with
  -- If the plan is null, this must be a destroy. Just exit early
  | none => some ⟨diags, none⟩
  | some plan =>
    -- Set defaults that apply only when at least one of registration_enabled or profile_enabled is set to true
    let plan :=
      if plan.RegistrationEnabled.ValueBool || plan.ProfileEnabled.ValueBool then
        let plan :=
          if plan.AuthSourceUpdatePolicy.IsUnknown then
            { plan with AuthSourceUpdatePolicy := authSourceUpdatePolicyDefault }
          else plan
        if plan.EmailVerificationConfig.IsUnknown then
          { plan with EmailVerificationConfig := emailVerificationConfigDefault }
        else plan
      else
        let plan :=
          if plan.AuthSourceUpdatePolicy.IsUnknown then
            { plan with AuthSourceUpdatePolicy := .null }
          else plan
        if plan.EmailVerificationConfig.IsUnknown then
          { plan with EmailVerificationConfig := .null }
        else plan
    -- Email verification config inner defaults
    let plan :=
      match plan.EmailVerificationConfig with
      | .known emailVerificationAttributes =>
        -- Update the object with the set defaults
        { plan with
          EmailVerificationConfig :=
            .known (emailVerificationConfigInnerDefaults emailVerificationAttributes) }
      | _ => plan
    -- Some default for fields attributes depend on the field type
    let afterFields : Option localIdentityIdentityProfileModel :=
      match plan.FieldConfig with
      | .known fieldsAttrs =>
        match fieldsAttrs.fields with
        | .known fields =>
          match fieldsWithDefaults fields with
          | none => none
          | some done =>
            -- Update the Field config with any defaults that were set
            some { plan with FieldConfig := .known { fieldsAttrs with fields := .known done } }
        | _ => some plan
      | _ => some plan
    match afterFields with
    | none => none
    | some plan => some ⟨diags, some plan⟩

/-! # Theorems -/

/-! ## Diagnostics -/

theorem append1_hasError (diags : Diagnostics) (d : Diagnostic) :
    (diags.append1 d).HasError = (diags.HasError || d.severity == .error) := by
  unfold Diagnostics.append1 Diagnostics.HasError
  by_cases h : d ∈ diags
  · simp only [h, if_true]
    by_cases hs : d.severity = .error
    · have : (diags.any fun d => d.severity == .error) = true :=
        List.any_eq_true.mpr ⟨d, h, by simp [hs]⟩
      simp [this]
    · simp [hs]
  · simp [h, List.any_append]

theorem addError_hasError (diags : Diagnostics) (summary detail : String) :
    (diags.AddError summary detail).HasError = true := by
  simp [Diagnostics.AddError, Diagnostics.Append, append1_hasError]

theorem addWarning_hasError (diags : Diagnostics) (summary detail : String) :
    (diags.AddWarning summary detail).HasError = diags.HasError := by
  simp [Diagnostics.AddWarning, Diagnostics.Append, append1_hasError]

theorem addError_eq (diags : Diagnostics) (summary detail : String) :
    diags.AddError summary detail =
      if (⟨.error, summary, detail⟩ : Diagnostic) ∈ diags then diags
      else diags ++ [⟨.error, summary, detail⟩] := by
  simp [Diagnostics.AddError, Diagnostics.Append, Diagnostics.append1]

theorem addWarning_eq (diags : Diagnostics) (summary detail : String) :
    diags.AddWarning summary detail =
      if (⟨.warning, summary, detail⟩ : Diagnostic) ∈ diags then diags
      else diags ++ [⟨.warning, summary, detail⟩] := by
  simp [Diagnostics.AddWarning, Diagnostics.Append, Diagnostics.append1]

theorem mem_addError (diags : Diagnostics) (summary detail : String) (d : Diagnostic) :
    d ∈ diags.AddError summary detail ↔ d ∈ diags ∨ d = ⟨.error, summary, detail⟩ := by
  rw [addError_eq]
  split
  · constructor
    · intro h; exact Or.inl h
    · rintro (h | h)
      · exact h
      · subst h; assumption
  · simp

theorem mem_addWarning (diags : Diagnostics) (summary detail : String) (d : Diagnostic) :
    d ∈ diags.AddWarning summary detail ↔ d ∈ diags ∨ d = ⟨.warning, summary, detail⟩ := by
  rw [addWarning_eq]
  split
  · constructor
    · intro h; exact Or.inl h
    · rintro (h | h)
      · exact h
      · subst h; assumption
  · simp

/-! ## Reporting HTTP errors -/

theorem reportHttpError_noEnvelope (unmarshal : Unmarshaler) (diagnostics : Diagnostics)
    (errorSummary : String) (err : GoError) (httpResp : Option HttpResponse)
    (h : noEnvelope unmarshal httpResp) :
    ReportHttpError unmarshal diagnostics errorSummary err httpResp =
      diagnostics.AddError errorSummary err.Error := by
  unfold ReportHttpError
  cases httpResp with
  | none => simp
  | some resp =>
    cases hb : resp.Body with
    | none => simp [hb]
    | some body =>
      have := h resp body rfl hb
      simp [hb, this]

theorem reportHttpError_envelope (unmarshal : Unmarshaler) (diagnostics : Diagnostics)
    (errorSummary : String) (err : GoError) (resp : HttpResponse) (body : String)
    (env : pingFederateError) (hb : resp.Body = some body) (hu : unmarshal body = some env) :
    ReportHttpError unmarshal diagnostics errorSummary err (some resp) =
      diagnostics.AddError errorSummary (err.Error ++ " - Detail: " ++ body) := by
  simp [ReportHttpError, hb, hu]

theorem reportHttpError_cases (unmarshal : Unmarshaler) (httpResp : Option HttpResponse) :
    noEnvelope unmarshal httpResp ∨ ∃ env, parsesAs unmarshal httpResp env := by
  cases httpResp with
  | none => left; intro resp body h; cases h
  | some resp =>
    cases hb : resp.Body with
    | none => left; intro r b h hb2; cases h; rw [hb] at hb2; cases hb2
    | some body =>
      cases hu : unmarshal body with
      | none =>
        left; intro r b h hb2; cases h; rw [hb] at hb2; cases hb2; exact hu
      | some env => right; exact ⟨env, resp, body, rfl, hb, hu⟩

theorem reportHttpResponse_noEnvelope (unmarshal : Unmarshaler) (diagnostics : Diagnostics)
    (errorSummary : String) (err : GoError) (httpResp : Option HttpResponse) (isWarning : Bool)
    (h : noEnvelope unmarshal httpResp) :
    reportHttpResponse unmarshal diagnostics errorSummary err httpResp isWarning =
      if isWarning then diagnostics.AddWarning errorSummary err.Error
      else diagnostics.AddError errorSummary err.Error := by
  unfold reportHttpResponse
  cases httpResp with
  | none => simp
  | some resp =>
    cases hb : resp.Body with
    | none => simp [hb]
    | some body =>
      have := h resp body rfl hb
      simp [hb, this]

theorem reportHttpResponse_envelope (unmarshal : Unmarshaler) (diagnostics : Diagnostics)
    (errorSummary : String) (err : GoError) (httpResp : Option HttpResponse) (isWarning : Bool)
    (env : pingFederateError) (h : parsesAs unmarshal httpResp env) :
    reportHttpResponse unmarshal diagnostics errorSummary err httpResp isWarning =
      if isWarning then
        diagnostics.AddWarning errorSummary (err.Error ++ " - Detail: " ++ env.Detail)
      else diagnostics.AddError errorSummary (err.Error ++ " - Detail: " ++ env.Detail) := by
  obtain ⟨resp, body, rfl, hb, hu⟩ := h
  cases isWarning <;> simp [reportHttpResponse, hb, hu]

theorem ReportHttpError_one_error (unmarshal : Unmarshaler) (diagnostics : Diagnostics)
    (errorSummary : String) (err : GoError) (httpResp : Option HttpResponse) :
    ∃ detail : String, ReportHttpError unmarshal diagnostics errorSummary err httpResp =
      diagnostics.AddError errorSummary detail := by
  rcases reportHttpError_cases unmarshal httpResp with h | ⟨env, resp, body, rfl, hb, hu⟩
  · exact ⟨err.Error, reportHttpError_noEnvelope unmarshal diagnostics errorSummary err httpResp h⟩
  · exact ⟨_, reportHttpError_envelope unmarshal diagnostics errorSummary err resp body env hb hu⟩

theorem ReportHttpErrorAsWarning_one_warning (unmarshal : Unmarshaler) (diagnostics : Diagnostics)
    (errorSummary : String) (err : GoError) (httpResp : Option HttpResponse) :
    ∃ detail : String, ReportHttpErrorAsWarning unmarshal diagnostics errorSummary err httpResp =
      diagnostics.AddWarning errorSummary detail := by
  rcases reportHttpError_cases unmarshal httpResp with h | ⟨env, h⟩
  · exact ⟨_, by
      simpa [ReportHttpErrorAsWarning] using
        reportHttpResponse_noEnvelope unmarshal diagnostics errorSummary err httpResp true h⟩
  · exact ⟨_, by
      simpa [ReportHttpErrorAsWarning] using
        reportHttpResponse_envelope unmarshal diagnostics errorSummary err httpResp true env h⟩

/-! ## Claims C1 to C3: reporting HTTP errors -/

/-- C1 (refuted on the code): for the readable body `{"detail":"boom"}`, which
decodes to an envelope with detail message `boom`, `ReportHttpError` records
the error message followed by ` - Detail: ` and the whole body, not the
envelope's detail message; the sibling `reportHttpResponse` called for an error
records the detail message. -/
theorem ReportHttpError_appends_whole_body :
    jsonUnmarshal "\x7b\"detail\":\"boom\"\x7d" = some ⟨[], "", "boom"⟩ ∧
    ReportHttpError jsonUnmarshal [] "An error occurred" ⟨"422 Unprocessable Entity"⟩
        (some ⟨422, some "\x7b\"detail\":\"boom\"\x7d"⟩) =
      [⟨.error, "An error occurred",
        "422 Unprocessable Entity - Detail: \x7b\"detail\":\"boom\"\x7d"⟩] ∧
    ReportHttpError jsonUnmarshal [] "An error occurred" ⟨"422 Unprocessable Entity"⟩
        (some ⟨422, some "\x7b\"detail\":\"boom\"\x7d"⟩) ≠
      [⟨.error, "An error occurred", "422 Unprocessable Entity - Detail: boom"⟩] ∧
    reportHttpResponse jsonUnmarshal [] "An error occurred" ⟨"422 Unprocessable Entity"⟩
        (some ⟨422, some "\x7b\"detail\":\"boom\"\x7d"⟩) false =
      [⟨.error, "An error occurred", "422 Unprocessable Entity - Detail: boom"⟩] := by
  decide

/-- C2: for every decoder, error, summary and HTTP response, `ReportHttpError`
performs one `AddError` with the given summary and nothing else: the
diagnostics afterwards are the earlier ones followed by that one error
diagnostic (or the earlier ones unchanged when they already hold it), so they
report an error; and when the response is absent, its body unreadable or not
decodable, the detail is exactly the error's message. -/
theorem ReportHttpError_records_one_error (unmarshal : Unmarshaler) (diagnostics : Diagnostics)
    (errorSummary : String) (err : GoError) (httpResp : Option HttpResponse) :
    (∃ detail : String,
      ReportHttpError unmarshal diagnostics errorSummary err httpResp =
        if (⟨.error, errorSummary, detail⟩ : Diagnostic) ∈ diagnostics then diagnostics
        else diagnostics ++ [⟨.error, errorSummary, detail⟩]) ∧
    (ReportHttpError unmarshal diagnostics errorSummary err httpResp).HasError = true ∧
    (noEnvelope unmarshal httpResp →
      ReportHttpError unmarshal diagnostics errorSummary err httpResp =
        if (⟨.error, errorSummary, err.Error⟩ : Diagnostic) ∈ diagnostics then diagnostics
        else diagnostics ++ [⟨.error, errorSummary, err.Error⟩]) := by
  have hno : noEnvelope unmarshal httpResp →
      ReportHttpError unmarshal diagnostics errorSummary err httpResp =
        if (⟨.error, errorSummary, err.Error⟩ : Diagnostic) ∈ diagnostics then diagnostics
        else diagnostics ++ [⟨.error, errorSummary, err.Error⟩] := by
    intro h
    rw [reportHttpError_noEnvelope unmarshal diagnostics errorSummary err httpResp h, addError_eq]
  obtain ⟨detail, hd⟩ :=
    ReportHttpError_one_error unmarshal diagnostics errorSummary err httpResp
  refine ⟨⟨detail, ?_⟩, ?_, hno⟩
  · rw [hd, addError_eq]
  · rw [hd]; exact addError_hasError _ _ _

/-- Witness for C2: a response whose body is not JSON. -/
theorem ReportHttpError_records_one_error_witness :
    noEnvelope jsonUnmarshal (some ⟨500, some "Internal Server Error"⟩) ∧
    ReportHttpError jsonUnmarshal [] "An error occurred" ⟨"500 Internal Server Error"⟩
        (some ⟨500, some "Internal Server Error"⟩) =
      [⟨.error, "An error occurred", "500 Internal Server Error"⟩] := by
  have h : noEnvelope jsonUnmarshal (some ⟨500, some "Internal Server Error"⟩) := by
    intro resp body h1 h2
    cases h1
    cases h2
    decide
  refine ⟨h, ?_⟩
  have := (ReportHttpError_records_one_error jsonUnmarshal [] "An error occurred"
    ⟨"500 Internal Server Error"⟩ (some ⟨500, some "Internal Server Error"⟩)).2.2 h
  simpa using this

/-- C3: for every decoder, error, summary and HTTP response,
`ReportHttpErrorAsWarning` performs one `AddWarning` with the given summary and
nothing else, so whether the diagnostics report an error is unchanged and every
diagnostic that was not there before is a warning; when the body decodes to an
envelope the detail is the error's message followed by ` - Detail: ` and the
envelope's detail message, and otherwise it is exactly the error's message. -/
theorem ReportHttpErrorAsWarning_records_one_warning (unmarshal : Unmarshaler)
    (diagnostics : Diagnostics) (errorSummary : String) (err : GoError)
    (httpResp : Option HttpResponse) :
    (∃ detail : String,
      ReportHttpErrorAsWarning unmarshal diagnostics errorSummary err httpResp =
        if (⟨.warning, errorSummary, detail⟩ : Diagnostic) ∈ diagnostics then diagnostics
        else diagnostics ++ [⟨.warning, errorSummary, detail⟩]) ∧
    (ReportHttpErrorAsWarning unmarshal diagnostics errorSummary err httpResp).HasError =
      diagnostics.HasError ∧
    (∀ d ∈ ReportHttpErrorAsWarning unmarshal diagnostics errorSummary err httpResp,
      d ∉ diagnostics → d.severity = .warning) ∧
    (∀ env, parsesAs unmarshal httpResp env →
      ReportHttpErrorAsWarning unmarshal diagnostics errorSummary err httpResp =
        if (⟨.warning, errorSummary, err.Error ++ " - Detail: " ++ env.Detail⟩ : Diagnostic)
            ∈ diagnostics then diagnostics
        else diagnostics ++ [⟨.warning, errorSummary, err.Error ++ " - Detail: " ++ env.Detail⟩]) ∧
    (noEnvelope unmarshal httpResp →
      ReportHttpErrorAsWarning unmarshal diagnostics errorSummary err httpResp =
        if (⟨.warning, errorSummary, err.Error⟩ : Diagnostic) ∈ diagnostics then diagnostics
        else diagnostics ++ [⟨.warning, errorSummary, err.Error⟩]) := by
  have hyes : ∀ env, parsesAs unmarshal httpResp env →
      ReportHttpErrorAsWarning unmarshal diagnostics errorSummary err httpResp =
        diagnostics.AddWarning errorSummary (err.Error ++ " - Detail: " ++ env.Detail) := by
    intro env h
    simpa [ReportHttpErrorAsWarning] using
      reportHttpResponse_envelope unmarshal diagnostics errorSummary err httpResp true env h
  have hno : noEnvelope unmarshal httpResp →
      ReportHttpErrorAsWarning unmarshal diagnostics errorSummary err httpResp =
        diagnostics.AddWarning errorSummary err.Error := by
    intro h
    simpa [ReportHttpErrorAsWarning] using
      reportHttpResponse_noEnvelope unmarshal diagnostics errorSummary err httpResp true h
  obtain ⟨detail, hd⟩ :=
    ReportHttpErrorAsWarning_one_warning unmarshal diagnostics errorSummary err httpResp
  refine ⟨⟨detail, ?_⟩, ?_, ?_, ?_, ?_⟩
  · rw [hd, addWarning_eq]
  · rw [hd]; exact addWarning_hasError _ _ _
  · intro d hmem hnot
    rw [hd, mem_addWarning] at hmem
    rcases hmem with h | h
    · exact absurd h hnot
    · rw [h]
  · intro env h
    rw [hyes env h, addWarning_eq]
  · intro h
    rw [hno h, addWarning_eq]

/-- Witness for C3: a 404 response whose body is an error envelope. -/
theorem ReportHttpErrorAsWarning_records_one_warning_witness :
    parsesAs jsonUnmarshal (some ⟨404, some "\x7b\"detail\":\"gone\"\x7d"⟩) ⟨[], "", "gone"⟩ ∧
    ReportHttpErrorAsWarning jsonUnmarshal [] "An error occurred" ⟨"404 Not Found"⟩
        (some ⟨404, some "\x7b\"detail\":\"gone\"\x7d"⟩) =
      [⟨.warning, "An error occurred", "404 Not Found - Detail: gone"⟩] := by
  have h : parsesAs jsonUnmarshal (some ⟨404, some "\x7b\"detail\":\"gone\"\x7d"⟩)
      ⟨[], "", "gone"⟩ := ⟨_, _, rfl, rfl, by decide⟩
  refine ⟨h, ?_⟩
  have := (ReportHttpErrorAsWarning_records_one_warning jsonUnmarshal [] "An error occurred"
    ⟨"404 Not Found"⟩ (some ⟨404, some "\x7b\"detail\":\"gone\"\x7d"⟩)).2.2.2.1 _ h
  simpa using this

/-! ## Claims C6 to C8: the settings singletons -/

/-- C6: for all integers `c` and `r` (in particular all 64-bit ones) planned as
known values of `cache_duration` and `reload_delay`,
`addOptionalProtocolMetadataLifetimeSettingsFields` returns no error and a
request with `cacheDuration = c` and `reloadDelay = r`, whatever the request
held before; and `readProtocolMetadataLifetimeSettingsResponse` applied to a
response carrying these two values (in particular to the request just built)
yields, from any prior state, the state with `cache_duration = c`,
`reload_delay = r` and `id` equal to the constant `id`. -/
theorem protocolMetadataLifetimeSettings_round_trip (c r : Int) (planId : TfString)
    (addRequest : MetadataLifetimeSettings)
    (state expectedValues : protocolMetadataLifetimeSettingsResourceModel) :
    addOptionalProtocolMetadataLifetimeSettingsFields addRequest
        ⟨planId, .known c, .known r⟩ = (⟨some c, some r⟩, none) ∧
    readProtocolMetadataLifetimeSettingsResponse (some ⟨some c, some r⟩) state expectedValues =
      some ⟨.known "id", .known c, .known r⟩ ∧
    readProtocolMetadataLifetimeSettingsResponse
        (some (addOptionalProtocolMetadataLifetimeSettingsFields NewMetadataLifetimeSettings
          ⟨planId, .known c, .known r⟩).1) state expectedValues =
      some ⟨.known "id", .known c, .known r⟩ := by
  refine ⟨?_, ?_, ?_⟩ <;>
    simp [addOptionalProtocolMetadataLifetimeSettingsFields,
      readProtocolMetadataLifetimeSettingsResponse, IsDefined, TfValue.ValueInt64Pointer,
      TfValue.valuePointer]

/-- C7: for every list of host names planned as the known value of
`virtual_host_names`, `addOptionalVirtualHostNamesFields` returns no error and a
request that carries exactly these names; `readVirtualHostNamesResponse`
applied to a response carrying them yields, from any prior state, the state
whose `virtual_host_names` is the known set of exactly these names and whose
`id` is the constant `id`; and when `virtual_host_names` is null or unknown in
the plan the list of the request is left as it was (unset for a fresh
request). -/
theorem virtualHostNames_round_trip (names : List String) (planId : TfString)
    (addRequest : VirtualHostNameSettings) (state expectedValues : virtualHostNamesResourceModel) :
    addOptionalVirtualHostNamesFields addRequest ⟨planId, .known (names.map .known)⟩ =
      (⟨some names⟩, none) ∧
    readVirtualHostNamesResponse (some ⟨some names⟩) state expectedValues =
      some ⟨.known "id", .known (names.map .known)⟩ ∧
    (∀ n : TfString,
      n ∈ (((readVirtualHostNamesResponse (some ⟨some names⟩) state expectedValues).map
        (fun s => s.VirtualHostNames.Elements)).getD []) ↔ ∃ s ∈ names, n = .known s) ∧
    addOptionalVirtualHostNamesFields addRequest ⟨planId, .null⟩ = (addRequest, none) ∧
    addOptionalVirtualHostNamesFields addRequest ⟨planId, .unknown⟩ = (addRequest, none) ∧
    (addOptionalVirtualHostNamesFields NewVirtualHostNameSettings ⟨planId, .null⟩).1.VirtualHostNames
      = none ∧
    (addOptionalVirtualHostNamesFields NewVirtualHostNameSettings
      ⟨planId, .unknown⟩).1.VirtualHostNames = none := by
  have hel : elementsAsStrings (names.map TfValue.known) = some names := by
    induction names with
    | nil => rfl
    | cons a t ih => simp [elementsAsStrings, ih]
  refine ⟨?_, ?_, ?_, ?_, ?_, ?_, ?_⟩
  · simp [addOptionalVirtualHostNamesFields, IsDefined, TfValue.Elements, hel]
  · simp [readVirtualHostNamesResponse, GetStringSet]
  · intro n
    simp [readVirtualHostNamesResponse, GetStringSet, TfValue.Elements, eq_comm]
  · simp [addOptionalVirtualHostNamesFields, IsDefined]
  · simp [addOptionalVirtualHostNamesFields, IsDefined]
  · simp [addOptionalVirtualHostNamesFields, IsDefined, NewVirtualHostNameSettings]
  · simp [addOptionalVirtualHostNamesFields, IsDefined, NewVirtualHostNameSettings]

/-- C8 (refuted on the code): with provider type name `pingfederate`,
`Metadata` of the protocol metadata lifetime settings resource sets the type
name `pingfederate_protocolmetadata_lifetimesettings`, which is not the name
`pingfederate_protocol_metadata_lifetime_settings` under which the acceptance
test addresses the resource. -/
theorem protocolMetadataLifetimeSettings_Metadata_name :
    protocolMetadataLifetimeSettingsResource.Metadata "pingfederate" =
      "pingfederate_protocolmetadata_lifetimesettings" ∧
    protocolMetadataLifetimeSettingsResource.Metadata "pingfederate" ≠
      "pingfederate" ++ "_protocol_metadata_lifetime_settings" := by
  decide

/-! ## Claim C4: `Read` of the notification publisher resource -/

theorem isNotFound_iff (httpResp : Option HttpResponse) :
    isNotFound httpResp = true ↔ ∃ resp, httpResp = some resp ∧ resp.StatusCode = 404 := by
  cases httpResp with
  | none => simp [isNotFound]
  | some resp => simp [isNotFound]

/-- C4: when the prior state was decoded without error (so that the GET call is
made) and the call returns an error, then: if the call came with an HTTP
response of status 404, `Read` records one warning with the summary of the read
failure, reports no error, and its only step is the removal of the resource
from state; if it came with another status or with no HTTP response, `Read`
records an error and takes no step on the state at all; in both cases `Read`
returns without a panic, hands no response to the conversion and writes no
model to state. -/
theorem notificationPublisher_Read_failure {C PC : Type}
    (ToState : TfValue C → PC → TfValue C × Diagnostics) (unmarshal : Unmarshaler)
    (GetNotificationPublisher : String → ApiResult (NotificationPublisher PC))
    (respDiagnostics : Diagnostics)
    (stateGet : notificationPublisherResourceModel C × Diagnostics) (err : GoError)
    (hget : (respDiagnostics.Append stateGet.2).HasError = false)
    (hfail : (GetNotificationPublisher stateGet.1.PublisherId.ValueString).err = some err) :
    ((∃ resp, (GetNotificationPublisher stateGet.1.PublisherId.ValueString).httpResp = some resp ∧
        resp.StatusCode = 404) →
      (notificationPublisherResource.Read ToState unmarshal GetNotificationPublisher
          respDiagnostics stateGet).events = [.RemoveResource] ∧
      (notificationPublisherResource.Read ToState unmarshal GetNotificationPublisher
          respDiagnostics stateGet).Diagnostics.HasError = false ∧
      ∃ detail : String,
        (⟨.warning, "An error occurred while reading the notificationPublisher", detail⟩ :
            Diagnostic) ∈
          (notificationPublisherResource.Read ToState unmarshal GetNotificationPublisher
            respDiagnostics stateGet).Diagnostics ∧
        (notificationPublisherResource.Read ToState unmarshal GetNotificationPublisher
            respDiagnostics stateGet).Diagnostics =
          (respDiagnostics.Append stateGet.2).AddWarning
            "An error occurred while reading the notificationPublisher" detail) ∧
    (¬ (∃ resp, (GetNotificationPublisher stateGet.1.PublisherId.ValueString).httpResp = some resp ∧
        resp.StatusCode = 404) →
      (notificationPublisherResource.Read ToState unmarshal GetNotificationPublisher
          respDiagnostics stateGet).events = [] ∧
      (notificationPublisherResource.Read ToState unmarshal GetNotificationPublisher
          respDiagnostics stateGet).Diagnostics.HasError = true ∧
      ∃ detail : String,
        (notificationPublisherResource.Read ToState unmarshal GetNotificationPublisher
            respDiagnostics stateGet).Diagnostics =
          (respDiagnostics.Append stateGet.2).AddError
            "An error occurred while reading the notificationPublisher" detail) ∧
    (notificationPublisherResource.Read ToState unmarshal GetNotificationPublisher
        respDiagnostics stateGet).panicked = false ∧
    (∀ e ∈ (notificationPublisherResource.Read ToState unmarshal GetNotificationPublisher
        respDiagnostics stateGet).events, e.isConversion = false ∧ e.isStateSet = false) := by
  have hw := ReportHttpErrorAsWarning_one_warning unmarshal (respDiagnostics.Append stateGet.2)
    "An error occurred while reading the notificationPublisher" err
    (GetNotificationPublisher stateGet.1.PublisherId.ValueString).httpResp
  have he := ReportHttpError_one_error unmarshal (respDiagnostics.Append stateGet.2)
    "An error occurred while reading the notificationPublisher" err
    (GetNotificationPublisher stateGet.1.PublisherId.ValueString).httpResp
  obtain ⟨dw, hdw⟩ := hw
  obtain ⟨de, hde⟩ := he
  by_cases h404 : isNotFound (GetNotificationPublisher stateGet.1.PublisherId.ValueString).httpResp
      = true
  · have hyes := (isNotFound_iff _).mp h404
    have hout : notificationPublisherResource.Read ToState unmarshal GetNotificationPublisher
        respDiagnostics stateGet =
        ⟨(respDiagnostics.Append stateGet.2).AddWarning
          "An error occurred while reading the notificationPublisher" dw,
          [.RemoveResource], false⟩ := by
      simp [notificationPublisherResource.Read, hget, hfail, h404, hdw]
    rw [hout]
    refine ⟨fun _ => ⟨rfl, ?_, dw, ?_, rfl⟩, fun hn => absurd hyes hn, rfl, ?_⟩
    · simp only [addWarning_hasError]; exact hget
    · simp [mem_addWarning]
    · intro e he; simp at he; subst he; exact ⟨rfl, rfl⟩
  · have hno : ¬ ∃ resp,
        (GetNotificationPublisher stateGet.1.PublisherId.ValueString).httpResp = some resp ∧
        resp.StatusCode = 404 := fun h => h404 ((isNotFound_iff _).mpr h)
    have hout : notificationPublisherResource.Read ToState unmarshal GetNotificationPublisher
        respDiagnostics stateGet =
        ⟨(respDiagnostics.Append stateGet.2).AddError
          "An error occurred while reading the notificationPublisher" de, [], false⟩ := by
      simp [notificationPublisherResource.Read, hget, hfail, h404, hde]
    rw [hout]
    refine ⟨fun hy => absurd hy hno, fun _ => ⟨rfl, ?_, de, rfl⟩, rfl, ?_⟩
    · exact addError_hasError _ _ _
    · intro e he; simp at he

/-- Witness for C4: a GET answered with status 404 and an error envelope. -/
theorem notificationPublisher_Read_failure_witness :
    (notificationPublisherResource.Read (fun (c : TfValue Unit) (_ : Unit) => (c, []))
        jsonUnmarshal
        (fun _ => ⟨none, some ⟨404, some "\x7b\"detail\":\"gone\"\x7d"⟩, some ⟨"404 Not Found"⟩⟩)
        []
        (⟨.null, .known "n", .null, .known ⟨.known "d"⟩, .known "p"⟩, [])).events
      = [.RemoveResource] ∧
    (notificationPublisherResource.Read (fun (c : TfValue Unit) (_ : Unit) => (c, []))
        jsonUnmarshal
        (fun _ => ⟨none, some ⟨404, some "\x7b\"detail\":\"gone\"\x7d"⟩, some ⟨"404 Not Found"⟩⟩)
        []
        (⟨.null, .known "n", .null, .known ⟨.known "d"⟩, .known "p"⟩, [])).Diagnostics.HasError
      = false :=
  have h := (notificationPublisher_Read_failure (fun (c : TfValue Unit) (_ : Unit) => (c, []))
    jsonUnmarshal
    (fun _ => ⟨none, some ⟨404, some "\x7b\"detail\":\"gone\"\x7d"⟩, some ⟨"404 Not Found"⟩⟩)
    []
    (⟨.null, .known "n", .null, .known ⟨.known "d"⟩, .known "p"⟩, [])
    ⟨"404 Not Found"⟩ (by decide) rfl).1 ⟨_, rfl, rfl⟩
  ⟨h.1, h.2.1⟩

/-! ## Claims C5 and C9: the OAuth client resource -/

/-- C5 (refuted on the code): `Read` of the OAuth client resource does not end
after reporting an error of `GetOauthClientById`.  When the call fails with
status 500 and no decoded response, `Read` records the error and then hands the
nil response to `readOauthClientResponse`, which panics.  When the call returns
an error together with a decoded response (the body of a 200 answer could not
be decoded completely), `Read` records the error, converts the response and
writes the refreshed state. -/
theorem oauthClient_Read_continues_after_error :
    (oauthClientResource.Read (fun l => (resourceLinkFrom l, [])) jsonUnmarshal
        (fun _ => ⟨none, some ⟨500, some "oops"⟩, some ⟨"500 Internal Server Error"⟩⟩)
        [] (oauthClientModel.zero, [])).Diagnostics =
      [⟨.error, "An error occurred while getting the  OAuth Client",
        "500 Internal Server Error"⟩] ∧
    (oauthClientResource.Read (fun l => (resourceLinkFrom l, [])) jsonUnmarshal
        (fun _ => ⟨none, some ⟨500, some "oops"⟩, some ⟨"500 Internal Server Error"⟩⟩)
        [] (oauthClientModel.zero, [])).events.map ReadEvent.isConversion = [true] ∧
    (oauthClientResource.Read (fun l => (resourceLinkFrom l, [])) jsonUnmarshal
        (fun _ => ⟨none, some ⟨500, some "oops"⟩, some ⟨"500 Internal Server Error"⟩⟩)
        [] (oauthClientModel.zero, [])).panicked = true ∧
    (oauthClientResource.Read (fun l => (resourceLinkFrom l, [])) jsonUnmarshal
        (fun _ =>
          ⟨some { NewClient "c1" ["IMPLICIT"] "client one" with
              ModificationDate := some ⟨"2024-05-01T10:00:00Z"⟩
              CreationDate := some ⟨"2024-05-01T10:00:00Z"⟩
              ClientAuth := some ⟨some "NONE", none, none, none, none, none, none, none⟩ },
            some ⟨200, none⟩, some ⟨"json: cannot unmarshal number into Go value"⟩⟩)
        [] (oauthClientModel.zero, [])).Diagnostics.HasError = true ∧
    (oauthClientResource.Read (fun l => (resourceLinkFrom l, [])) jsonUnmarshal
        (fun _ =>
          ⟨some { NewClient "c1" ["IMPLICIT"] "client one" with
              ModificationDate := some ⟨"2024-05-01T10:00:00Z"⟩
              CreationDate := some ⟨"2024-05-01T10:00:00Z"⟩
              ClientAuth := some ⟨some "NONE", none, none, none, none, none, none, none⟩ },
            some ⟨200, none⟩, some ⟨"json: cannot unmarshal number into Go value"⟩⟩)
        [] (oauthClientModel.zero, [])).events.map
          (fun e => (e.isConversion, e.isStateSet)) = [(true, false), (false, true)] := by
  decide

/-- C9 (refuted on the code): for a configuration whose `grant_types` holds
`CLIENT_CREDENTIALS` and whose `client_auth` has type `SECRET` and a non-empty
secret, `ValidateConfig` reports the error that `client_auth.type` must be set
to `SECRET`; for the same configuration with type `NONE` it does not report
it. -/
theorem oauthClient_ValidateConfig_rejects_secret :
    (⟨.error,
        "client_auth.type must be set to \"SECRET\" when \"CLIENT_CREDENTIALS\" is included in grant_types.",
        ""⟩ : Diagnostic) ∈
      oauthClientResource.ValidateConfig IsDefined []
        ({ oauthClientModel.zero with
            ClientId := .known "c1", Name := .known "client one"
            GrantTypes := .known [.known "CLIENT_CREDENTIALS"]
            ClientAuth := .known ⟨.known "SECRET", .known "s3cret", .known [], .null, .null,
              .null, .null⟩ }, []) ∧
    (⟨.error,
        "client_auth.type must be set to \"SECRET\" when \"CLIENT_CREDENTIALS\" is included in grant_types.",
        ""⟩ : Diagnostic) ∉
      oauthClientResource.ValidateConfig IsDefined []
        ({ oauthClientModel.zero with
            ClientId := .known "c1", Name := .known "client one"
            GrantTypes := .known [.known "CLIENT_CREDENTIALS"]
            ClientAuth := .known ⟨.known "NONE", .known "s3cret", .known [], .null, .null,
              .null, .null⟩ }, []) := by
  decide

/-! ## Claim C10: the local identity profile resource -/

theorem validateEnabledCapabilities_returns (model : localIdentityIdentityProfileModel)
    (diags : Diagnostics) : ∃ out, validateEnabledCapabilities model diags = some out := by
  unfold validateEnabledCapabilities
  cases hp : model.ProfileEnabled.ValueBool <;> cases hr : model.RegistrationEnabled.ValueBool <;>
    simp
  split <;> split <;> simp

theorem localIdentityProfile_ValidateConfig_returns (respDiagnostics : Diagnostics)
    (configGet : localIdentityIdentityProfileModel × Diagnostics) :
    ∃ out, localIdentityIdentityProfileResource.ValidateConfig respDiagnostics configGet
      = some out := by
  unfold localIdentityIdentityProfileResource.ValidateConfig
  simp only []
  split
  next h =>
    split at h
    · split at h <;> cases h
    · obtain ⟨out, hout⟩ := validateEnabledCapabilities_returns configGet.1
        (match configGet.1.EmailVerificationConfig with
          | .known emailVerificationConfig =>
            validateEmailVerificationConfig emailVerificationConfig
              (respDiagnostics.Append configGet.2)
          | _ => respDiagnostics.Append configGet.2)
      rw [hout] at h
      cases h
  next d h =>
    split
    · split <;> exact ⟨_, rfl⟩
    · exact ⟨_, rfl⟩

/-- C10 (refuted on the code): with `profile_enabled` true, `registration_enabled`
false and `profile_config` null, `ValidateConfig` returns without any
diagnostic, so the error that `profile_config` is required is not reported; and
with `registration_enabled` true, `profile_enabled` false and
`registration_config` null it returns without any diagnostic as well.  With
both flags true and both objects null, both errors are reported. -/
theorem localIdentityProfile_ValidateConfig_misses_required :
    localIdentityIdentityProfileResource.ValidateConfig []
        (⟨.null, .known "p1", .known "profile", .known ⟨.known "apc", .null⟩, .null, .null,
          .known false, .null, .null, .null, .null, .null, .known true⟩, []) = some [] ∧
    localIdentityIdentityProfileResource.ValidateConfig []
        (⟨.null, .known "p1", .known "profile", .known ⟨.known "apc", .null⟩, .null, .null,
          .known true, .null, .null, .null, .null, .null, .known false⟩, []) = some [] ∧
    localIdentityIdentityProfileResource.ValidateConfig []
        (⟨.null, .known "p1", .known "profile", .known ⟨.known "apc", .null⟩, .null, .null,
          .known true, .null, .null, .null, .null, .null, .known true⟩, []) =
      some [⟨.error, "Invalid Value for Attribute!",
              "profile_config is required when profile is enabled.\n"⟩,
            ⟨.error, "Invalid Value for Attribute!",
              "registration_config is required when registration is enabled.\n"⟩] := by
  decide

/-! ## Guarded checks -/

theorem ite_addError_eq (c : Bool) (diags : Diagnostics) (summary detail : String) :
    (if c = true then diags.AddError summary detail else diags) =
      addErrorIf c summary detail diags := rfl

theorem ite_some_addError_eq (c : Bool) (diags : Diagnostics) (summary detail : String) :
    (if c = true then some (diags.AddError summary detail) else some diags) =
      some (addErrorIf c summary detail diags) := by
  cases c <;> rfl

theorem addErrorIf_hasError (c : Bool) (summary detail : String) (diags : Diagnostics) :
    (addErrorIf c summary detail diags).HasError = (c || diags.HasError) := by
  cases c <;> simp [addErrorIf, addError_hasError]

theorem addErrorIf_false (summary detail : String) (diags : Diagnostics) :
    addErrorIf false summary detail diags = diags := rfl

theorem mem_addErrorIf (c : Bool) (summary detail : String) (diags : Diagnostics)
    (d : Diagnostic) :
    d ∈ addErrorIf c summary detail diags ↔
      d ∈ diags ∨ (c = true ∧ d = ⟨.error, summary, detail⟩) := by
  cases c <;> simp [addErrorIf, mem_addError]

theorem isDefined_known {α : Type} (v : α) : IsDefined (TfValue.known v) = true := rfl

theorem isDefined_null {α : Type} : IsDefined (TfValue.null : TfValue α) = false := rfl

theorem isDefined_unknown {α : Type} : IsDefined (TfValue.unknown : TfValue α) = false := rfl

theorem validateEmailVerificationConfig_hasError (e : emailVerificationConfigObject)
    (diags : Diagnostics) (h : diags.HasError = true) :
    (validateEmailVerificationConfig e diags).HasError = true := by
  unfold validateEmailVerificationConfig
  simp -zeta only [ite_addError_eq]
  simp only []
  split_ifs <;> simp [addErrorIf_hasError, h]


/-! ## Claims C11 and C12: capability checks of the local identity profile -/

/-- C11 (refuted on the code): with `registration_enabled` true, `profile_enabled`
false and `profile_config` set, `ValidateConfig` returns without any diagnostic,
so the error that `profile_config` is not allowed is not reported; and with
`profile_enabled` true, `registration_enabled` false and `registration_config`
set it returns without any diagnostic as well. -/
theorem localIdentityProfile_ValidateConfig_misses_not_allowed :
    localIdentityIdentityProfileResource.ValidateConfig []
        (⟨.null, .known "p1", .known "profile", .known ⟨.known "apc", .null⟩, .null, .null,
          .known true,
          .known ⟨.known false, .null, .known "reg.html", .known true, .null, .known false,
            .null, .null⟩,
          .known ⟨.known false, .known "profile.html"⟩,
          .null, .null, .null, .known false⟩, []) = some [] ∧
    localIdentityIdentityProfileResource.ValidateConfig []
        (⟨.null, .known "p1", .known "profile", .known ⟨.known "apc", .null⟩, .null, .null,
          .known false,
          .known ⟨.known false, .null, .known "reg.html", .known true, .null, .known false,
            .null, .null⟩,
          .known ⟨.known false, .known "profile.html"⟩,
          .null, .null, .null, .known true⟩, []) = some [] := by
  decide

/-- C12: for every configuration in which neither `profile_enabled` nor
`registration_enabled` is true, `ValidateConfig` returns, and the diagnostics
report an error afterwards exactly when they did before the checks or at least
one of `email_verification_config`, `data_store_config`, `field_config`,
`registration_config`, `profile_config` and `auth_source_update_policy` is
defined; with none of them defined the diagnostics are left as they were, so
that no diagnostic at all is reported. -/
theorem localIdentityProfile_ValidateConfig_both_disabled (respDiagnostics : Diagnostics)
    (configGet : localIdentityIdentityProfileModel × Diagnostics)
    (hp : configGet.1.ProfileEnabled.ValueBool = false)
    (hr : configGet.1.RegistrationEnabled.ValueBool = false) :
    ∃ out, localIdentityIdentityProfileResource.ValidateConfig respDiagnostics configGet
        = some out ∧
      (out.HasError = true ↔
        (respDiagnostics.Append configGet.2).HasError = true ∨
        (IsDefined configGet.1.EmailVerificationConfig || IsDefined configGet.1.DataStoreConfig ||
          IsDefined configGet.1.FieldConfig || IsDefined configGet.1.RegistrationConfig ||
          IsDefined configGet.1.ProfileConfig ||
          IsDefined configGet.1.AuthSourceUpdatePolicy) = true) ∧
      ((IsDefined configGet.1.EmailVerificationConfig || IsDefined configGet.1.DataStoreConfig ||
          IsDefined configGet.1.FieldConfig || IsDefined configGet.1.RegistrationConfig ||
          IsDefined configGet.1.ProfileConfig ||
          IsDefined configGet.1.AuthSourceUpdatePolicy) = false →
        out = respDiagnostics.Append configGet.2) := by
  obtain ⟨model, getDiags⟩ := configGet
  simp only at hp hr
  unfold localIdentityIdentityProfileResource.ValidateConfig
  simp only [hp, hr, ite_addError_eq, ite_some_addError_eq, Bool.not_false, Bool.and_self,
    if_true]
  generalize IsDefined model.DataStoreConfig = b1
  generalize IsDefined model.FieldConfig = b2
  generalize IsDefined model.ProfileConfig = b3
  generalize IsDefined model.AuthSourceUpdatePolicy = b4
  cases hE : model.EmailVerificationConfig <;> cases hRC : model.RegistrationConfig <;>
    cases b1 <;> cases b2 <;> cases b3 <;> cases b4 <;>
    simp [isDefined_known, isDefined_null, isDefined_unknown, addErrorIf_hasError,
      addErrorIf_false, validateEmailVerificationConfig_hasError]

/-- Witness for C12: both capabilities off and nothing else configured. -/
theorem localIdentityProfile_ValidateConfig_both_disabled_witness :
    ∃ out, localIdentityIdentityProfileResource.ValidateConfig []
        (⟨.null, .known "p1", .known "profile", .known ⟨.known "apc", .null⟩, .null, .null,
          .known false, .null, .null, .null, .null, .null, .null⟩, []) = some out ∧
      out = [] := by
  obtain ⟨out, h1, _, h3⟩ := localIdentityProfile_ValidateConfig_both_disabled []
    (⟨.null, .known "p1", .known "profile", .known ⟨.known "apc", .null⟩, .null, .null,
      .known false, .null, .null, .null, .null, .null, .null⟩, []) rfl rfl
  exact ⟨out, h1, h3 rfl⟩

theorem mem_ite_diags (c : Prop) [Decidable c] (d : Diagnostic) (X Y : Diagnostics) :
    d ∈ (if c then X else Y) ↔ (c ∧ d ∈ X) ∨ (¬c ∧ d ∈ Y) := by
  by_cases h : c <;> simp [h]

/-! ## Claims C13 to C15: the WS-Trust STS settings resource -/

/-- C13: for every WS-Trust STS settings configuration (the three errors not
being among the diagnostics before the checks), none of the three errors that
relate `client_cert_authn_enabled`, `restrict_by_issuer_cert` and
`restrict_by_subject_dn` to one another is reported if and only if
`client_cert_authn_enabled` is true exactly when `restrict_by_issuer_cert` or
`restrict_by_subject_dn` is true, a flag that is null or unknown counting as not
true. -/
theorem wsTrust_ValidateConfig_cert_flags (respDiagnostics : Diagnostics)
    (configGet : serverSettingsWsTrustStsSettingsResourceModel × Diagnostics)
    (h1 : (⟨.error,
        "'client_cert_authn_enabled' can only be true if 'restrict_by_issuer_cert' or 'restrict_by_subject_dn' is true",
        ""⟩ : Diagnostic) ∉ respDiagnostics.Append configGet.2)
    (h2 : (⟨.error,
        "'restrict_by_issuer_cert' can only be true if 'client_cert_authn_enabled' is true",
        ""⟩ : Diagnostic) ∉ respDiagnostics.Append configGet.2)
    (h3 : (⟨.error,
        "'restrict_by_subject_dn' can only be true if 'client_cert_authn_enabled' is true",
        ""⟩ : Diagnostic) ∉ respDiagnostics.Append configGet.2) :
    ((⟨.error,
        "'client_cert_authn_enabled' can only be true if 'restrict_by_issuer_cert' or 'restrict_by_subject_dn' is true",
        ""⟩ : Diagnostic) ∉
        serverSettingsWsTrustStsSettingsResource.ValidateConfig respDiagnostics configGet ∧
      (⟨.error,
        "'restrict_by_issuer_cert' can only be true if 'client_cert_authn_enabled' is true",
        ""⟩ : Diagnostic) ∉
        serverSettingsWsTrustStsSettingsResource.ValidateConfig respDiagnostics configGet ∧
      (⟨.error,
        "'restrict_by_subject_dn' can only be true if 'client_cert_authn_enabled' is true",
        ""⟩ : Diagnostic) ∉
        serverSettingsWsTrustStsSettingsResource.ValidateConfig respDiagnostics configGet) ↔
    configGet.1.ClientCertAuthnEnabled.ValueBool =
      (configGet.1.RestrictByIssuerCert.ValueBool || configGet.1.RestrictBySubjectDn.ValueBool) := by
  obtain ⟨config, getDiags⟩ := configGet
  simp only at h1 h2 h3
  unfold serverSettingsWsTrustStsSettingsResource.ValidateConfig
  simp -zeta only [ite_addError_eq]
  simp only []
  generalize config.ClientCertAuthnEnabled.ValueBool = c
  generalize config.RestrictByIssuerCert.ValueBool = i
  generalize config.RestrictBySubjectDn.ValueBool = s
  cases c <;> cases i <;> cases s <;>
    simp [mem_addErrorIf, mem_ite_diags, h1, h2, h3]

/-- Witness for C13: client certificate authentication restricted by issuer
certificate. -/
theorem wsTrust_ValidateConfig_cert_flags_witness :
    (⟨.error,
        "'client_cert_authn_enabled' can only be true if 'restrict_by_issuer_cert' or 'restrict_by_subject_dn' is true",
        ""⟩ : Diagnostic) ∉
        serverSettingsWsTrustStsSettingsResource.ValidateConfig []
          (⟨.known false, .known true, .known [.known ⟨.known "cert1"⟩], .known true, .null,
            .null, .null⟩, []) ∧
      (⟨.error,
        "'restrict_by_issuer_cert' can only be true if 'client_cert_authn_enabled' is true",
        ""⟩ : Diagnostic) ∉
        serverSettingsWsTrustStsSettingsResource.ValidateConfig []
          (⟨.known false, .known true, .known [.known ⟨.known "cert1"⟩], .known true, .null,
            .null, .null⟩, []) ∧
      (⟨.error,
        "'restrict_by_subject_dn' can only be true if 'client_cert_authn_enabled' is true",
        ""⟩ : Diagnostic) ∉
        serverSettingsWsTrustStsSettingsResource.ValidateConfig []
          (⟨.known false, .known true, .known [.known ⟨.known "cert1"⟩], .known true, .null,
            .null, .null⟩, []) :=
  (wsTrust_ValidateConfig_cert_flags []
    (⟨.known false, .known true, .known [.known ⟨.known "cert1"⟩], .known true, .null,
      .null, .null⟩, []) (by decide) (by decide) (by decide)).mpr rfl

/-- C14: for every WS-Trust STS settings configuration in which `users` is null
or a known set (the two errors not being among the diagnostics before the
checks), neither error of the basic-authentication check is reported if and
only if `basic_authn_enabled` is true exactly when `users` is a non-empty set;
the error that `basic_authn_enabled` can only be true if users are defined is
reported when the flag is true and `users` is null or empty, and the error that
users can only be defined if `basic_authn_enabled` is true is reported when the
flag is not true and `users` is non-empty. -/
theorem wsTrust_ValidateConfig_basic_authn (respDiagnostics : Diagnostics)
    (configGet : serverSettingsWsTrustStsSettingsResourceModel × Diagnostics)
    (hu : configGet.1.Users = .null ∨ ∃ us, configGet.1.Users = .known us)
    (h1 : (⟨.error, "'basic_authn_enabled' can only be true if users are defined", ""⟩ :
      Diagnostic) ∉ respDiagnostics.Append configGet.2)
    (h2 : (⟨.error, "users can only be defined if 'basic_authn_enabled' is true", ""⟩ :
      Diagnostic) ∉ respDiagnostics.Append configGet.2) :
    (((⟨.error, "'basic_authn_enabled' can only be true if users are defined", ""⟩ :
          Diagnostic) ∉
        serverSettingsWsTrustStsSettingsResource.ValidateConfig respDiagnostics configGet ∧
      (⟨.error, "users can only be defined if 'basic_authn_enabled' is true", ""⟩ :
          Diagnostic) ∉
        serverSettingsWsTrustStsSettingsResource.ValidateConfig respDiagnostics configGet) ↔
      configGet.1.BasicAuthnEnabled.ValueBool = decide (configGet.1.Users.Elements ≠ [])) ∧
    ((⟨.error, "'basic_authn_enabled' can only be true if users are defined", ""⟩ :
          Diagnostic) ∈
        serverSettingsWsTrustStsSettingsResource.ValidateConfig respDiagnostics configGet ↔
      configGet.1.BasicAuthnEnabled.ValueBool = true ∧ configGet.1.Users.Elements = []) ∧
    ((⟨.error, "users can only be defined if 'basic_authn_enabled' is true", ""⟩ :
          Diagnostic) ∈
        serverSettingsWsTrustStsSettingsResource.ValidateConfig respDiagnostics configGet ↔
      configGet.1.BasicAuthnEnabled.ValueBool = false ∧ configGet.1.Users.Elements ≠ []) := by
  obtain ⟨config, getDiags⟩ := configGet
  simp only at h1 h2 hu
  unfold serverSettingsWsTrustStsSettingsResource.ValidateConfig
  simp -zeta only [ite_addError_eq]
  simp only []
  generalize config.BasicAuthnEnabled.ValueBool = b
  rcases hu with hu | ⟨us, hu⟩
  · cases b <;>
      simp [hu, mem_addErrorIf, mem_ite_diags, h1, h2, TfValue.IsNull, TfValue.Elements,
        isDefined_null]
  · cases us <;> cases b <;>
      simp [hu, mem_addErrorIf, mem_ite_diags, h1, h2, TfValue.IsNull, TfValue.Elements,
        isDefined_known]

/-- Witness for C14: basic authentication enabled with one user. -/
theorem wsTrust_ValidateConfig_basic_authn_witness :
    (⟨.error, "'basic_authn_enabled' can only be true if users are defined", ""⟩ :
          Diagnostic) ∉
        serverSettingsWsTrustStsSettingsResource.ValidateConfig []
          (⟨.known true, .null, .null, .null, .null, .null,
            .known [.known ⟨.known "alice", .known "pw-a"⟩]⟩, []) ∧
      (⟨.error, "users can only be defined if 'basic_authn_enabled' is true", ""⟩ :
          Diagnostic) ∉
        serverSettingsWsTrustStsSettingsResource.ValidateConfig []
          (⟨.known true, .null, .null, .null, .null, .null,
            .known [.known ⟨.known "alice", .known "pw-a"⟩]⟩, []) :=
  (wsTrust_ValidateConfig_basic_authn []
    (⟨.known true, .null, .null, .null, .null, .null,
      .known [.known ⟨.known "alice", .known "pw-a"⟩]⟩, [])
    (Or.inr ⟨_, rfl⟩) (by decide) (by decide)).1.mpr (by decide)

/-- C15 (refuted on the code): with the users `alice` (password `pw-a`) and `bob`
(password `pw-b`) in the prior state and the users `bob` and `carol` in the
response, `readClientResponseUsers` gives both entries the password `pw-a` of
the first user of the state: `bob` does not get the password `pw-b` of the
state user of his name, and `carol`, who has no user in state, does not get a
null password. -/
theorem wsTrust_readClientResponseUsers_first_password :
    (serverSettingsWsTrustStsSettingsResourceModel.readClientResponseUsers
        ⟨.known true, .null, .null, .null, .null, .null,
          .known [.known ⟨.known "alice", .known "pw-a"⟩, .known ⟨.known "bob", .known "pw-b"⟩]⟩
        (some ⟨some true, none, none, none, none, none,
          some [⟨some "bob", none, none⟩, ⟨some "carol", none, none⟩]⟩)).map
        (fun out => out.1.Users) =
      some (.known [.known ⟨.known "bob", .known "pw-a"⟩,
        .known ⟨.known "carol", .known "pw-a"⟩]) ∧
    (serverSettingsWsTrustStsSettingsResourceModel.readClientResponseUsers
        ⟨.known true, .null, .null, .null, .null, .null,
          .known [.known ⟨.known "alice", .known "pw-a"⟩, .known ⟨.known "bob", .known "pw-b"⟩]⟩
        (some ⟨some true, none, none, none, none, none,
          some [⟨some "bob", none, none⟩, ⟨some "carol", none, none⟩]⟩)).map
        (fun out => out.1.Users) ≠
      some (.known [.known ⟨.known "bob", .known "pw-b"⟩, .known ⟨.known "carol", .null⟩]) := by
  decide

/-! ## Claim C16: `ModifyPlan` of the exclusive scopes resource -/

theorem stringsIndexFrom_ge (substr : List Char) (l : List Char) (off : Nat) :
    stringsIndexFrom substr l off = -1 ∨ (off : Int) ≤ stringsIndexFrom substr l off := by
  induction l generalizing off with
  | nil =>
    unfold stringsIndexFrom
    split
    · right; exact le_refl _
    · left; rfl
  | cons c rest ih =>
    unfold stringsIndexFrom
    split
    · right; exact le_refl _
    · rcases ih (off + c.utf8Size) with h | h
      · left; exact h
      · right
        have : (off : Int) ≤ ((off + c.utf8Size : Nat) : Int) := by
          exact_mod_cast Nat.le_add_right off c.utf8Size
        exact le_trans this h

theorem stringsIndex_asterisk_eq_zero (s : String) :
    stringsIndex s "*" = 0 ↔ ['*'] <+: s.toList := by
  unfold stringsIndex
  have hstar : "*".toList = ['*'] := rfl
  rw [hstar]
  cases hs : s.toList with
  | nil => simp [stringsIndexFrom]
  | cons c rest =>
    unfold stringsIndexFrom
    by_cases hc : c = '*'
    · subst hc
      simp [List.isPrefixOf]
    · have hpre : ¬ (['*'] <+: c :: rest) := by
        rintro ⟨t, ht⟩
        simp at ht
        exact hc ht.1.symm
      have hne : ¬ ('*' = c) := fun h => hc h.symm
      have hpos : 0 < c.utf8Size := c.utf8Size_pos
      simp only [List.isPrefixOf, beq_iff_eq, hne, Bool.and_true, decide_False,
        Bool.false_eq_true, if_false, Nat.zero_add, hpre, iff_false]
      rcases stringsIndexFrom_ge ['*'] rest c.utf8Size with h | h
      · rw [h]; decide
      · intro h0
        rw [h0] at h
        have : (c.utf8Size : Int) ≤ 0 := h
        omega

/-- C16: for every plan of the exclusive scopes resource whose `name` is null or
a known string, `ModifyPlan` adds the error `Dynamic property is set to true
with Name property incorrectly specified!` when `dynamic` is true, `name` is
not null and `name` does not begin with `*`, and in every other case it leaves
the diagnostics as they were. -/
theorem exclusiveScopes_ModifyPlan_dynamic_name (respDiagnostics : Diagnostics)
    (planGet : oauthAuthServerSettingsScopesExclusiveScopesResourceModel × Diagnostics)
    (hn : planGet.1.Name = .null ∨ ∃ s, planGet.1.Name = .known s) :
    ((planGet.1.Dynamic.ValueBool = true ∧ planGet.1.Name ≠ .null ∧
        ¬ (['*'] <+: planGet.1.Name.ValueString.toList)) →
      oauthAuthServerSettingsScopesExclusiveScopesResource.ModifyPlan respDiagnostics planGet =
        respDiagnostics.AddError
          "Dynamic property is set to true with Name property incorrectly specified!"
          "The Name property must be prefixed with an \"*\". For example, \"*example\"") ∧
    (¬ (planGet.1.Dynamic.ValueBool = true ∧ planGet.1.Name ≠ .null ∧
        ¬ (['*'] <+: planGet.1.Name.ValueString.toList)) →
      oauthAuthServerSettingsScopesExclusiveScopesResource.ModifyPlan respDiagnostics planGet =
        respDiagnostics) := by
  obtain ⟨model, getDiags⟩ := planGet
  simp only at hn
  unfold oauthAuthServerSettingsScopesExclusiveScopesResource.ModifyPlan
  simp only []
  rcases hn with hn | ⟨s, hn⟩
  · simp [hn, TfValue.ValueString, TfValue.valueOr, TfValue.IsNull]
  · have hidx := stringsIndex_asterisk_eq_zero s
    have hv : (TfValue.known s : TfString).ValueString = s := rfl
    cases hd : model.Dynamic.ValueBool
    · simp [hn]
    · by_cases h0 : stringsIndex s "*" = 0
      · have hp : ['*'] <+: s.data := hidx.mp h0
        simp [hn, hv, TfValue.IsNull, hp, h0]
      · have hp : ¬ (['*'] <+: s.data) := fun h => h0 (hidx.mpr h)
        simp [hn, hv, TfValue.IsNull, hp, h0]

/-- Witness for C16: a dynamic scope whose name lacks the asterisk. -/
theorem exclusiveScopes_ModifyPlan_dynamic_name_witness :
    oauthAuthServerSettingsScopesExclusiveScopesResource.ModifyPlan []
        (⟨.unknown, .known "example", .known "a scope", .known true⟩, []) =
      [⟨.error, "Dynamic property is set to true with Name property incorrectly specified!",
        "The Name property must be prefixed with an \"*\". For example, \"*example\""⟩] :=
  (exclusiveScopes_ModifyPlan_dynamic_name []
    (⟨.unknown, .known "example", .known "a scope", .known true⟩, [])
    (Or.inr ⟨_, rfl⟩)).1 ⟨rfl, by decide, by decide⟩

/-! ## Claim C17: the refresh token rolling check of the OAuth client -/

theorem and_or_not_and (p q : Prop) : (p ∧ q ∨ ¬p ∧ q) ↔ q := by
  tauto

theorem bool_true_and_or_false_and (b : Bool) (q : Prop) :
    (b = true ∧ q ∨ b = false ∧ q) ↔ q := by
  cases b <;> simp

theorem bool_false_and_or_true_and (b : Bool) (q : Prop) :
    (b = false ∧ q ∨ b = true ∧ q) ↔ q := by
  cases b <;> simp

theorem diagnostic_eq_mk_iff (d : Diagnostic) (severity : Severity) (summary detail : String) :
    d = ⟨severity, summary, detail⟩ ↔
      d.severity = severity ∧ d.summary = summary ∧ d.detail = detail := by
  cases d
  simp

theorem validateGrantType_mem (clientAuth : TfValue clientAuthObject) (acc : Diagnostics × Bool)
    (grantType : TfString) (d : Diagnostic)
    (h1 : d.summary ≠
      "client_auth.type must be set to \"SECRET\" when \"CLIENT_CREDENTIALS\" is included in grant_types.")
    (h2 : d.summary ≠
      "client_auth.secret cannot be empty when \"CLIENT_CREDENTIALS\" is included in grant_types.")
    (h3 : d.summary ≠
      "client_auth must be defined when \"CLIENT_CREDENTIALS\" is included in grant_types.") :
    d ∈ (validateGrantType clientAuth acc grantType).1 ↔ d ∈ acc.1 := by
  unfold validateGrantType
  simp -zeta only [ite_addError_eq]
  simp only []
  cases clientAuth <;>
    simp [mem_ite_diags, mem_addErrorIf, mem_addError, diagnostic_eq_mk_iff, h1, h2, h3,
      and_or_not_and,
      bool_true_and_or_false_and, bool_false_and_or_true_and]

theorem validateGrantTypes_mem (clientAuth : TfValue clientAuthObject)
    (grantTypes : List TfString) (acc : Diagnostics × Bool) (d : Diagnostic)
    (h1 : d.summary ≠
      "client_auth.type must be set to \"SECRET\" when \"CLIENT_CREDENTIALS\" is included in grant_types.")
    (h2 : d.summary ≠
      "client_auth.secret cannot be empty when \"CLIENT_CREDENTIALS\" is included in grant_types.")
    (h3 : d.summary ≠
      "client_auth must be defined when \"CLIENT_CREDENTIALS\" is included in grant_types.") :
    d ∈ (grantTypes.foldl (validateGrantType clientAuth) acc).1 ↔ d ∈ acc.1 := by
  induction grantTypes generalizing acc with
  | nil => rfl
  | cons g rest ih =>
    rw [List.foldl_cons, ih, validateGrantType_mem clientAuth acc g d h1 h2 h3]

theorem hs256_fold_mem (algorithms : List String) (diags : Diagnostics) (d : Diagnostic)
    (h : d.summary ≠ "client_auth must be defined when using the \"HS256\" signing algorithm") :
    d ∈ algorithms.foldl
        (fun (acc : Diagnostics) algorithmVal =>
          addErrorIf (algorithmVal == "HS256")
            "client_auth must be defined when using the \"HS256\" signing algorithm" "" acc)
        diags ↔ d ∈ diags := by
  induction algorithms generalizing diags with
  | nil => rfl
  | cons a rest ih =>
    rw [List.foldl_cons, ih]
    simp [mem_addErrorIf, diagnostic_eq_mk_iff, h]

/-- C17: for every OAuth client configuration (the error not being among the
diagnostics before the checks), `ValidateConfig` reports the refresh token
rolling error if and only if exactly one of the following holds:
`refresh_token_rolling_interval_type` equals `OVERRIDE_SERVER_DEFAULT`;
`refresh_token_rolling_interval` is defined. -/
theorem oauthClient_ValidateConfig_refresh_rolling
    (IsNonEmptyObj : TfValue jwksSettingsObject → Bool)
    (respDiagnostics : Diagnostics) (configGet : oauthClientModel × Diagnostics)
    (hinit : (⟨.error,
        "refresh_token_rolling_interval must be configured when refresh_token_rolling_interval_type is \"OVERRIDE_SERVER_DEFAULT\".",
        ""⟩ : Diagnostic) ∉ respDiagnostics.Append configGet.2) :
    (⟨.error,
        "refresh_token_rolling_interval must be configured when refresh_token_rolling_interval_type is \"OVERRIDE_SERVER_DEFAULT\".",
        ""⟩ : Diagnostic) ∈
      oauthClientResource.ValidateConfig IsNonEmptyObj respDiagnostics configGet ↔
    ((configGet.1.RefreshTokenRollingIntervalType.ValueString = "OVERRIDE_SERVER_DEFAULT" ∧
        IsDefined configGet.1.RefreshTokenRollingInterval = false) ∨
      (configGet.1.RefreshTokenRollingIntervalType.ValueString ≠ "OVERRIDE_SERVER_DEFAULT" ∧
        IsDefined configGet.1.RefreshTokenRollingInterval = true)) := by
  obtain ⟨model, getDiags⟩ := configGet
  simp only at hinit
  unfold oauthClientResource.ValidateConfig
  simp -zeta only [ite_addError_eq]
  lift_lets
  intro m d0 d1 d2 d3 g d4 hc d5 d6 alg dh d7 d8 d9 d10
  generalize he : (⟨.error,
        "refresh_token_rolling_interval must be configured when refresh_token_rolling_interval_type is \"OVERRIDE_SERVER_DEFAULT\".",
        ""⟩ : Diagnostic) = e at hinit ⊢
  have hs : e.summary =
      "refresh_token_rolling_interval must be configured when refresh_token_rolling_interval_type is \"OVERRIDE_SERVER_DEFAULT\"." := by
    rw [← he]
  have h1 : e ∈ d1 ↔ e ∈ d0 := by
    simp [d1, mem_addErrorIf, diagnostic_eq_mk_iff, hs]
  have h2 : e ∈ d2 ↔ e ∈ d1 ∨
      ((m.RefreshTokenRollingIntervalType.ValueString == "OVERRIDE_SERVER_DEFAULT") !=
        IsDefined m.RefreshTokenRollingInterval) = true := by
    simp [d2, mem_addErrorIf, ← he]
  have h3 : e ∈ d3 ↔ e ∈ d2 := by
    simp only [d3]
    split <;> simp [mem_ite_diags, mem_addErrorIf, diagnostic_eq_mk_iff, hs, and_or_not_and,
      bool_true_and_or_false_and, bool_false_and_or_true_and]
  have h4 : e ∈ d4 ↔ e ∈ d3 := by
    simp only [d4, g]
    rw [validateGrantTypes_mem _ _ _ e (by rw [hs]; decide) (by rw [hs]; decide)
      (by rw [hs]; decide)]
  have h5 : e ∈ d5 ↔ e ∈ d4 := by
    simp [d5, mem_addErrorIf, diagnostic_eq_mk_iff, hs]
  have h6 : e ∈ d6 ↔ e ∈ d5 := by
    simp [d6, mem_addErrorIf, diagnostic_eq_mk_iff, hs]
  have hh : e ∈ dh ↔ e ∈ d6 := by
    simp only [dh]
    rw [hs256_fold_mem _ _ e (by rw [hs]; decide)]
  have h7 : e ∈ d7 ↔ e ∈ d6 := by
    simp [d7, mem_ite_diags, mem_addErrorIf, diagnostic_eq_mk_iff, hs, hh, and_or_not_and,
      bool_true_and_or_false_and, bool_false_and_or_true_and]
  have h8 : e ∈ d8 ↔ e ∈ d7 := by
    simp [d8, mem_addErrorIf, diagnostic_eq_mk_iff, hs]
  have h9 : e ∈ d9 ↔ e ∈ d8 := by
    simp only [d9]
    split <;> simp [mem_addErrorIf, diagnostic_eq_mk_iff, hs]
  have h10 : e ∈ d10 ↔ e ∈ d9 := by
    simp [d10, mem_addErrorIf, diagnostic_eq_mk_iff, hs]
  have hfin : e ∈ (if (!IsDefined m.JwksSettings) = true then
        addErrorIf (m.RequireSignedRequests.ValueBool)
          "require_signed_requests must be false when jwks_settings is not configured." "" d10
      else d9) ↔ e ∈ d9 := by
    simp [mem_ite_diags, mem_addErrorIf, diagnostic_eq_mk_iff, hs, h10, and_or_not_and,
      bool_true_and_or_false_and, bool_false_and_or_true_and]
  rw [hfin, h9, h8, h7, h6, h5, h4, h3, h2, h1]
  have h0 : ¬ e ∈ d0 := hinit
  simp only [h0, false_or]
  cases hb : (m.RefreshTokenRollingIntervalType.ValueString == "OVERRIDE_SERVER_DEFAULT") <;>
    cases hi : IsDefined m.RefreshTokenRollingInterval <;>
    simp_all [m]

/-- Witness for C17: the interval type overrides the server default and no
interval is configured. -/
theorem oauthClient_ValidateConfig_refresh_rolling_witness :
    (⟨.error,
        "refresh_token_rolling_interval must be configured when refresh_token_rolling_interval_type is \"OVERRIDE_SERVER_DEFAULT\".",
        ""⟩ : Diagnostic) ∈
      oauthClientResource.ValidateConfig IsDefined []
        ({ oauthClientModel.zero with
            ClientId := .known "c1", Name := .known "client one"
            GrantTypes := .known [.known "IMPLICIT"]
            RefreshTokenRollingIntervalType := .known "OVERRIDE_SERVER_DEFAULT" }, []) :=
  (oauthClient_ValidateConfig_refresh_rolling IsDefined []
    ({ oauthClientModel.zero with
        ClientId := .known "c1", Name := .known "client one"
        GrantTypes := .known [.known "IMPLICIT"]
        RefreshTokenRollingIntervalType := .known "OVERRIDE_SERVER_DEFAULT" }, [])
    (by decide)).mpr (Or.inl ⟨rfl, rfl⟩)

/-! ## Claims C18 and C19: requests and saved state of the OAuth client -/

/-- C18 (refuted on the code): for every plan in which `request_policy_ref` is
defined and every choice of the JSON conversions, `addOptionalOauthClientFields`
applied to a request freshly made by `NewClient` returns an error: the request
policy reference of such a request is nil, and the text of the plan value is
unmarshalled into that nil pointer (for `token_exchange_processor_policy_ref` a
resource link is allocated first). -/
theorem addOptionalOauthClientFields_request_policy_ref_error (json : JsonConversions)
    (plan : oauthClientModel) (clientId name : String) (gts : List String)
    (obj : resourceLinkObject) (h : plan.RequestPolicyRef = .known obj) :
    (addOptionalOauthClientFields json (NewClient clientId gts name) plan).2 ≠ none := by
  unfold addOptionalOauthClientFields
  lift_lets
  intro r0 r1 r2
  have hr : r2.RequestPolicyRef = none := by
    simp only [r2, r1, r0]
    split <;> split <;> rfl
  clear_value r2
  clear r1 r0
  split
  · simp
  · rename_i x a heq
    have ha : a.RequestPolicyRef = none := by
      cases hD : plan.DefaultAccessTokenManagerRef <;> simp [hD] at heq <;>
        (obtain ⟨rfl, _⟩ := heq; exact hr)
    clear heq hr x r2
    lift_lets
    intro r3 r4a r4 r5 r6
    have hr : r6.RequestPolicyRef = none := by
      simp only [r6, r5, r4, r4a, r3]
      repeat' split
      all_goals exact ha
    clear_value r6
    clear r5 r4 r4a r3 ha a
    split
    · simp
    · rename_i x a heq
      have ha : a.RequestPolicyRef = none := by
        cases hD : plan.OidcPolicy <;> simp [hD] at heq <;>
          (obtain ⟨rfl, _⟩ := heq; exact hr)
      clear heq hr x r6
      split
      · simp
      · rename_i x b heq
        have hb : b.RequestPolicyRef = none := by
          cases hD : plan.ClientAuth <;> simp [hD] at heq <;>
            (obtain ⟨rfl, _⟩ := heq; exact ha)
        clear heq ha x a
        split
        · simp
        · rename_i x a heq
          have ha : a.RequestPolicyRef = none := by
            cases hD : plan.JwksSettings <;> simp [hD] at heq <;>
              (obtain ⟨rfl, _⟩ := heq; exact hb)
          clear heq hb x b
          split
          · simp
          · rename_i x b heq
            have hb : b.RequestPolicyRef = none := by
              cases hD : plan.ExtendedParameters <;> simp [hD] at heq <;>
                (obtain ⟨rfl, _⟩ := heq; exact ha)
            clear heq ha x a
            simp [h, hb]

/-- Witness for C18: a plan with `request_policy_ref = { id = "policy1" }`;
with `token_exchange_processor_policy_ref` set instead, the request gets a
resource link with that id and no error is returned. -/
theorem addOptionalOauthClientFields_request_policy_ref_error_witness :
    (addOptionalOauthClientFields fieldwiseJson (NewClient "c1" ["IMPLICIT"] "client one")
        { oauthClientModel.zero with
          ClientId := .known "c1", Name := .known "client one"
          GrantTypes := .known [.known "IMPLICIT"]
          RequestPolicyRef := .known ⟨.known "policy1", .null⟩ }).2 ≠ none ∧
    (addOptionalOauthClientFields fieldwiseJson (NewClient "c1" ["IMPLICIT"] "client one")
        { oauthClientModel.zero with
          ClientId := .known "c1", Name := .known "client one"
          GrantTypes := .known [.known "IMPLICIT"]
          TokenExchangeProcessorPolicyRef := .known ⟨.known "policy1", .null⟩ }).2 = none ∧
    (addOptionalOauthClientFields fieldwiseJson (NewClient "c1" ["IMPLICIT"] "client one")
        { oauthClientModel.zero with
          ClientId := .known "c1", Name := .known "client one"
          GrantTypes := .known [.known "IMPLICIT"]
          TokenExchangeProcessorPolicyRef :=
            .known ⟨.known "policy1", .null⟩ }).1.TokenExchangeProcessorPolicyRef =
      some ⟨"policy1", none⟩ :=
  ⟨addOptionalOauthClientFields_request_policy_ref_error fieldwiseJson _ "c1" "client one"
      ["IMPLICIT"] ⟨.known "policy1", .null⟩ rfl,
    by decide, by decide⟩

theorem oauthClient_Update_savedState (json : JsonConversions)
    (toState : Option ResourceLink → TfValue resourceLinkObject × Diagnostics)
    (unmarshal : Unmarshaler) (UpdateOauthClient : String → Client → ApiResult Client)
    (respDiagnostics : Diagnostics) (planGet : oauthClientModel × Diagnostics) :
    (oauthClientResource.Update json toState unmarshal UpdateOauthClient respDiagnostics
        planGet).savedState = none ∨
    (oauthClientResource.Update json toState unmarshal UpdateOauthClient respDiagnostics
        planGet).savedState = some planGet.1 := by
  unfold oauthClientResource.Update
  simp only []
  repeat' split
  all_goals simp [ReadOutcome.savedState]

/-- C19 (refuted on the code): for a plan whose computed dates are unknown and a
successful update call whose response carries the dates, `Update` returns
without diagnostics and the model it writes to state is the plan: the saved
`modification_date`, `creation_date` and `client_secret_changed_time` are the
unknown values of the plan, while the model that `readOauthClientResponse` builds
from the response holds the dates of the response; the sibling `Create` saves
that model. -/
theorem oauthClient_Update_saves_plan :
    (oauthClientResource.Update fieldwiseJson (fun l => (resourceLinkFrom l, [])) jsonUnmarshal
        (fun _ body => ⟨some { body with
            ModificationDate := some ⟨"2024-06-01T12:00:00Z"⟩
            CreationDate := some ⟨"2024-01-01T08:00:00Z"⟩
            ClientSecretChangedTime := some ⟨"2024-01-01T08:00:00Z"⟩
            ClientAuth := some ⟨some "NONE", none, none, none, none, none, none, none⟩ },
          some ⟨200, none⟩, none⟩)
        []
        ({ oauthClientModel.zero with
            ClientId := .known "c1", Name := .known "client one"
            GrantTypes := .known [.known "IMPLICIT"]
            ModificationDate := .unknown, CreationDate := .unknown
            ClientSecretChangedTime := .unknown }, [])).savedState.map
          (fun s => (s.ModificationDate, s.CreationDate, s.ClientSecretChangedTime)) =
      some (.unknown, .unknown, .unknown) ∧
    (oauthClientResource.Update fieldwiseJson (fun l => (resourceLinkFrom l, [])) jsonUnmarshal
        (fun _ body => ⟨some { body with
            ModificationDate := some ⟨"2024-06-01T12:00:00Z"⟩
            CreationDate := some ⟨"2024-01-01T08:00:00Z"⟩
            ClientSecretChangedTime := some ⟨"2024-01-01T08:00:00Z"⟩
            ClientAuth := some ⟨some "NONE", none, none, none, none, none, none, none⟩ },
          some ⟨200, none⟩, none⟩)
        []
        ({ oauthClientModel.zero with
            ClientId := .known "c1", Name := .known "client one"
            GrantTypes := .known [.known "IMPLICIT"]
            ModificationDate := .unknown, CreationDate := .unknown
            ClientSecretChangedTime := .unknown }, [])).Diagnostics = [] ∧
    (readOauthClientResponse (fun l => (resourceLinkFrom l, []))
        (some { NewClient "c1" ["IMPLICIT"] "client one" with
            ModificationDate := some ⟨"2024-06-01T12:00:00Z"⟩
            CreationDate := some ⟨"2024-01-01T08:00:00Z"⟩
            ClientSecretChangedTime := some ⟨"2024-01-01T08:00:00Z"⟩
            ClientAuth := some ⟨some "NONE", none, none, none, none, none, none, none⟩ })
        { oauthClientModel.zero with
            ClientId := .known "c1", Name := .known "client one"
            GrantTypes := .known [.known "IMPLICIT"]
            ModificationDate := .unknown, CreationDate := .unknown
            ClientSecretChangedTime := .unknown }
        oauthClientModel.zero).map
          (fun s => (s.1.ModificationDate, s.1.CreationDate, s.1.ClientSecretChangedTime)) =
      some (.known "2024-06-01T12:00:00Z", .known "2024-01-01T08:00:00Z",
        .known "2024-01-01T08:00:00Z") ∧
    (oauthClientResource.Create fieldwiseJson (fun l => (resourceLinkFrom l, [])) jsonUnmarshal
        (fun body => ⟨some { body with
            ModificationDate := some ⟨"2024-06-01T12:00:00Z"⟩
            CreationDate := some ⟨"2024-01-01T08:00:00Z"⟩
            ClientSecretChangedTime := some ⟨"2024-01-01T08:00:00Z"⟩
            ClientAuth := some ⟨some "NONE", none, none, none, none, none, none, none⟩ },
          some ⟨200, none⟩, none⟩)
        []
        ({ oauthClientModel.zero with
            ClientId := .known "c1", Name := .known "client one"
            GrantTypes := .known [.known "IMPLICIT"]
            ModificationDate := .unknown, CreationDate := .unknown
            ClientSecretChangedTime := .unknown }, [])).savedState.map
          (fun s => (s.ModificationDate, s.CreationDate, s.ClientSecretChangedTime)) =
      some (.known "2024-06-01T12:00:00Z", .known "2024-01-01T08:00:00Z",
        .known "2024-01-01T08:00:00Z") := by
  decide

/-! ## Claim C20: reading an IdP adapter response -/

/-- C20 as stated fails: with a prior state that holds an `attribute_contract`
and an `attribute_mapping`, and a response that has neither,
`readIdpAdapterResponse` leaves both as the prior state held them instead of
making them null; `Read`, which reads the response into the prior state, writes
them back to state. -/
theorem readIdpAdapterResponse_keeps_prior_counterexample :
    (readIdpAdapterResponse
        (⟨fun p _ => TfValue.ofPointer p, fun l d => (resourceLinkFrom l, d),
          fun _ => (.null, []), fun _ => (.null, []), fun _ => (.null, [])⟩ :
          IdpAdapterConversions Unit Unit Unit)
        (some ⟨none, "adapter1", "Adapter one", ⟨"descriptor", none⟩, none, (), none, none⟩)
        ⟨.null, .known "adapter1", .known "Adapter one", .known ⟨.known "descriptor", .null⟩,
          .null, .null,
          .known ⟨.null, .null, .known false⟩,
          .known ⟨.known [.known ⟨.known "subject", .known false, .known false⟩], .known [],
            .null, .known false, .known false⟩⟩
        []).map (fun out => (out.1.AttributeContract, out.1.AttributeMapping)) =
      some (.known ⟨.known [.known ⟨.known "subject", .known false, .known false⟩], .known [],
              .null, .known false, .known false⟩,
            .known ⟨.null, .null, .known false⟩) ∧
    (readIdpAdapterResponse
        (⟨fun p _ => TfValue.ofPointer p, fun l d => (resourceLinkFrom l, d),
          fun _ => (.null, []), fun _ => (.null, []), fun _ => (.null, [])⟩ :
          IdpAdapterConversions Unit Unit Unit)
        (some ⟨none, "adapter1", "Adapter one", ⟨"descriptor", none⟩, none, (), none, none⟩)
        ⟨.null, .known "adapter1", .known "Adapter one", .known ⟨.known "descriptor", .null⟩,
          .null, .null,
          .known ⟨.null, .null, .known false⟩,
          .known ⟨.known [.known ⟨.known "subject", .known false, .known false⟩], .known [],
            .null, .known false, .known false⟩⟩
        []).map (fun out => (out.1.AttributeContract, out.1.AttributeMapping)) ≠
      some (.null, .null) ∧
    ((idpAdapterResource.Read
        (⟨fun p _ => TfValue.ofPointer p, fun l d => (resourceLinkFrom l, d),
          fun _ => (.null, []), fun _ => (.null, []), fun _ => (.null, [])⟩ :
          IdpAdapterConversions Unit Unit Unit)
        jsonUnmarshal
        (fun _ => ⟨some ⟨none, "adapter1", "Adapter one", ⟨"descriptor", none⟩, none, (), none,
          none⟩, some ⟨200, none⟩, none⟩)
        []
        (⟨.null, .known "adapter1", .known "Adapter one", .known ⟨.known "descriptor", .null⟩,
          .null, .null,
          .known ⟨.null, .null, .known false⟩,
          .known ⟨.known [.known ⟨.known "subject", .known false, .known false⟩], .known [],
            .null, .known false, .known false⟩⟩, [])).savedState.map
        (fun s => s.AttributeContract.IsNull || s.AttributeMapping.IsNull)) = some false := by
  decide

/-- C20 as amended: for every IdP adapter response and every prior state,
`readIdpAdapterResponse` returns, and afterwards `attribute_contract` is the
conversion of the value of the response when the response has one and is left
as the prior state held it when the response has none; the same holds for
`attribute_mapping`. -/
theorem readIdpAdapterResponse_contract_and_mapping {PC PAM PAC : Type}
    (conv : IdpAdapterConversions PC PAM PAC) (r : IdpAdapter PC PAM PAC)
    (state : idpAdapterResourceModel) (diags : Diagnostics) :
    ∃ out, readIdpAdapterResponse conv (some r) state diags = some out ∧
      out.1.AttributeContract =
        (match r.AttributeContract with
          | some attributeContract => (conv.attributeContractFrom attributeContract).1
          | none => state.AttributeContract) ∧
      out.1.AttributeMapping =
        (match r.AttributeMapping with
          | some attributeMapping => (conv.attributeMappingFrom attributeMapping).1
          | none => state.AttributeMapping) := by
  obtain ⟨ref, id, name, descriptor, parent, configuration, mapping, contract⟩ := r
  cases mapping <;> cases contract <;> exact ⟨_, rfl, rfl, rfl⟩

/-! ## Membership in the diagnostics of `ValidateConfig` -/

theorem or_repeated_left (a b c r : Prop) : (a ∨ b ∨ c ∨ a ∨ r) ↔ (a ∨ b ∨ c ∨ r) := by
  tauto

theorem validateEmailVerificationConfig_mem (e : emailVerificationConfigObject)
    (diags : Diagnostics) (d : Diagnostic) :
    d ∈ validateEmailVerificationConfig e diags ↔
      d ∈ diags ∨
      (e.email_verification_type.ValueString = "OTP" ∧
        ((IsDefined e.otl_time_to_live = true ∧
            d = ⟨.error, "Invalid Attribute Combination!",
              Sprintln "otl_time_to_live attribute is not allowed when email_verification_type is OTP. Required attributes are otp_length, otp_retry_attempts and otp_time_to_live."⟩) ∨
          (IsDefined e.require_verified_email_template_name = true ∧
            d = ⟨.error, "Invalid Attribute Combination!",
              Sprintln "require_verified_email_template_name is not allowed when email verification or require_verified_email is disabled or when email_verification_type is OTP."⟩) ∨
          (IsDefined e.email_verification_sent_template_name = true ∧
            d = ⟨.error, "Invalid Attribute Combination!",
              Sprintln "email_verification_sent_template_name is not allowed when email verification or require_verified_email is disabled or when email_verification_type is OTP."⟩))) ∨
      (e.email_verification_type.ValueString = "OTL" ∧
        ((IsDefined e.otp_length = true ∧
            d = ⟨.error, "Invalid Attribute Combination!",
              Sprintln "otp_length attribute is not allowed when email_verification_type is OTL. Required attribute: otl_time_to_live."⟩) ∨
          (IsDefined e.otp_retry_attempts = true ∧
            d = ⟨.error, "Invalid Attribute Combination!",
              Sprintln "otp_retry_attempts attribute is not allowed when email_verification_type is OTL. Required attribute: otl_time_to_live."⟩) ∨
          (IsDefined e.allowed_otp_character_set = true ∧
            d = ⟨.error, "Invalid Attribute Combination!",
              Sprintln "allowed_otp_character_set attribute is not allowed when email_verification_type is OTL. Required attribute: otl_time_to_live."⟩) ∨
          (IsDefined e.email_verification_otp_template_name = true ∧
            d = ⟨.error, "Invalid Attribute Combination!",
              Sprintln "email_verification_otp_template_name attribute is not allowed when email_verification_type is OTL. Required attribute: otl_time_to_live."⟩))) ∨
      (e.email_verification_enabled.ValueBool = true ∧
        (((IsDefined e.field_for_email_to_verify = false ∨
              e.field_for_email_to_verify.ValueString = "") ∧
            d = ⟨.error, "Missing Required Attribute",
              Sprintln "field_for_email_to_verify is required when email_verification_enabled is set to true"⟩) ∨
          ((IsDefined e.field_storing_verification_status = false ∨
              e.field_storing_verification_status.ValueString = "") ∧
            d = ⟨.error, "Missing Required Attribute",
              Sprintln "field_storing_verification_status is required when email_verification_enabled is set to true"⟩) ∨
          (IsDefined e.notification_publisher_ref = false ∧
            d = ⟨.error, "Missing Required Attribute",
              Sprintln "notification_publisher_ref is required when email_verification_enabled is set to true"⟩))) := by
  unfold validateEmailVerificationConfig
  generalize Sprintln = f
  simp -zeta only [ite_addError_eq]
  simp only []
  have hPL : e.email_verification_type.ValueString = "OTP" →
      ¬ e.email_verification_type.ValueString = "OTL" := by
    intro h; rw [h]; decide
  have e1 : (e.email_verification_type.ValueString = "OTP") =
      ((e.email_verification_type.ValueString == "OTP") = true) := by simp
  have e2 : (e.email_verification_type.ValueString = "OTL") =
      ((e.email_verification_type.ValueString == "OTL") = true) := by simp
  rw [e1, e2] at hPL
  rw [e1, e2]
  clear e1 e2
  revert hPL
  generalize (e.email_verification_type.ValueString == "OTP") = p1
  generalize (e.email_verification_type.ValueString == "OTL") = p2
  generalize e.email_verification_enabled.ValueBool = en
  intro hPL
  cases p1 <;> cases p2 <;> cases en <;>
    simp only [if_true, if_false, Bool.false_eq_true, mem_addErrorIf, true_and, false_and,
      or_false, false_or, Bool.or_eq_true, Bool.not_eq_true', beq_iff_eq, or_assoc,
      not_true_eq_false, imp_false, forall_const] at hPL ⊢
  all_goals first | rfl | exact or_congr_right (or_repeated_left _ _ _ _)

theorem validateEnabledCapabilities_mem (model : localIdentityIdentityProfileModel)
    (diags out : Diagnostics) (d : Diagnostic)
    (h : validateEnabledCapabilities model diags = some out) :
    d ∈ out ↔
      d ∈ diags ∨
      (model.ProfileEnabled.ValueBool = true ∧ model.RegistrationEnabled.ValueBool = true ∧
        ((model.ProfileConfig.IsNull = true ∧
            d = ⟨.error, "Invalid Value for Attribute!",
              Sprintln "profile_config is required when profile is enabled."⟩) ∨
          (model.RegistrationConfig.IsNull = true ∧
            d = ⟨.error, "Invalid Value for Attribute!",
              Sprintln "registration_config is required when registration is enabled."⟩))) := by
  unfold validateEnabledCapabilities at h
  cases hp : model.ProfileEnabled.ValueBool <;> cases hr : model.RegistrationEnabled.ValueBool <;>
    simp [hp, hr] at h
  · subst h; simp
  · subst h; simp
  · subst h; simp
  · simp only [ite_some_addError_eq, ite_addError_eq] at h
    simp at h
    subst h
    generalize Sprintln = f
    simp [mem_addErrorIf]
    tauto

theorem localIdentityProfile_ValidateConfig_mem (respDiagnostics : Diagnostics)
    (configGet : localIdentityIdentityProfileModel × Diagnostics) :
    ∃ out, localIdentityIdentityProfileResource.ValidateConfig respDiagnostics configGet
        = some out ∧
      ∀ d : Diagnostic, d ∈ out ↔
        (d ∈ (match configGet.1.EmailVerificationConfig with
          | .known emailVerificationConfig =>
            validateEmailVerificationConfig emailVerificationConfig
              (respDiagnostics.Append configGet.2)
          | _ => respDiagnostics.Append configGet.2)) ∨
        (configGet.1.ProfileEnabled.ValueBool = false ∧
          configGet.1.RegistrationEnabled.ValueBool = false ∧
          (((IsDefined configGet.1.EmailVerificationConfig ||
                IsDefined configGet.1.DataStoreConfig || IsDefined configGet.1.FieldConfig ||
                IsDefined configGet.1.RegistrationConfig ||
                IsDefined configGet.1.ProfileConfig) = true ∧
              d = ⟨.error, "Invalid Attribute Combination!",
                Sprintln "email, data_store_config, field Config, registration_config and profile_config are not allowed when registration and profile are disabled."⟩) ∨
            (IsDefined configGet.1.AuthSourceUpdatePolicy = true ∧
              d = ⟨.error, "Invalid Attribute Combination!",
                Sprintln "auth_source_update_policy is not allowed when registration and profile are disabled."⟩))) ∨
        (configGet.1.ProfileEnabled.ValueBool = true ∧
          configGet.1.RegistrationEnabled.ValueBool = true ∧
          ((configGet.1.ProfileConfig.IsNull = true ∧
              d = ⟨.error, "Invalid Value for Attribute!",
                Sprintln "profile_config is required when profile is enabled."⟩) ∨
            (configGet.1.RegistrationConfig.IsNull = true ∧
              d = ⟨.error, "Invalid Value for Attribute!",
                Sprintln "registration_config is required when registration is enabled."⟩))) ∨
        (∃ registrationConfig, configGet.1.RegistrationConfig = .known registrationConfig ∧
          (registrationConfig.captcha_enabled.ValueBool !=
            IsDefined registrationConfig.captcha_provider_ref) = true ∧
          d = ⟨.error, "Invalid registration captcha settings",
            "If registration_config.captcha_enabled is set to true, then registration_config.captcha_provider_ref must be configured. If registration_config.captcha_enabled is false, then registration_config.captcha_provider_ref must not be configured."⟩) := by
  obtain ⟨model, getDiags⟩ := configGet
  unfold localIdentityIdentityProfileResource.ValidateConfig
  simp only [ite_some_addError_eq, ite_addError_eq]
  generalize (match model.EmailVerificationConfig with
    | .known emailVerificationConfig =>
      validateEmailVerificationConfig emailVerificationConfig (respDiagnostics.Append getDiags)
    | _ => respDiagnostics.Append getDiags) = diags1
  obtain ⟨capOut, hcap⟩ := validateEnabledCapabilities_returns model diags1
  have hmem := fun d => validateEnabledCapabilities_mem model diags1 capOut d hcap
  rw [hcap]
  clear hcap
  cases hp : model.ProfileEnabled.ValueBool <;> cases hr : model.RegistrationEnabled.ValueBool <;>
    simp only [hp, hr, Bool.not_false, Bool.not_true, Bool.and_self, Bool.and_false,
      Bool.false_and, if_true, if_false, Bool.false_eq_true, true_and, false_and, or_false,
      false_or, and_false, Bool.true_eq_false] at hmem ⊢ <;>
    cases hrc : model.RegistrationConfig <;>
    simp only [ite_some_addError_eq, Option.some.injEq, exists_eq_left', mem_addErrorIf, hmem,
      TfValue.known.injEq, exists_eq_left', false_and, exists_false, or_false,
      reduceCtorEq] <;>
    intro d <;> (try simp only [hrc, or_assoc])

/-! ## Claims C21 to C23: checks on the email verification and captcha settings -/

/-- C21: for every configuration whose `email_verification_config` is defined
(no `Missing Required Attribute` diagnostic being present before the checks),
`ValidateConfig` returns; with `email_verification_enabled` true it reports a
`Missing Required Attribute` error if and only if `field_for_email_to_verify` is
undefined or the empty string, or `field_storing_verification_status` is
undefined or the empty string, or `notification_publisher_ref` is not defined;
with `email_verification_enabled` not true it reports no such error. -/
theorem localIdentityProfile_ValidateConfig_missing_required (respDiagnostics : Diagnostics)
    (configGet : localIdentityIdentityProfileModel × Diagnostics)
    (e : emailVerificationConfigObject)
    (he : configGet.1.EmailVerificationConfig = .known e)
    (hinit : ∀ d ∈ respDiagnostics.Append configGet.2,
      d.summary ≠ "Missing Required Attribute") :
    ∃ out, localIdentityIdentityProfileResource.ValidateConfig respDiagnostics configGet
        = some out ∧
      (e.email_verification_enabled.ValueBool = true →
        ((∃ d ∈ out, d.severity = .error ∧ d.summary = "Missing Required Attribute") ↔
          (IsDefined e.field_for_email_to_verify = false ∨
            e.field_for_email_to_verify.ValueString = "" ∨
            IsDefined e.field_storing_verification_status = false ∨
            e.field_storing_verification_status.ValueString = "" ∨
            IsDefined e.notification_publisher_ref = false))) ∧
      (e.email_verification_enabled.ValueBool = false →
        ¬ ∃ d ∈ out, d.severity = .error ∧ d.summary = "Missing Required Attribute") := by
  obtain ⟨out, hout, hmem⟩ := localIdentityProfile_ValidateConfig_mem respDiagnostics configGet
  refine ⟨out, hout, ?_⟩
  rw [he] at hmem
  simp only [validateEmailVerificationConfig_mem] at hmem
  have key : ∀ d : Diagnostic, d.summary = "Missing Required Attribute" →
      (d ∈ out ↔
        (e.email_verification_enabled.ValueBool = true ∧
          (((IsDefined e.field_for_email_to_verify = false ∨
                e.field_for_email_to_verify.ValueString = "") ∧
              d = ⟨.error, "Missing Required Attribute",
                Sprintln "field_for_email_to_verify is required when email_verification_enabled is set to true"⟩) ∨
            ((IsDefined e.field_storing_verification_status = false ∨
                e.field_storing_verification_status.ValueString = "") ∧
              d = ⟨.error, "Missing Required Attribute",
                Sprintln "field_storing_verification_status is required when email_verification_enabled is set to true"⟩) ∨
            (IsDefined e.notification_publisher_ref = false ∧
              d = ⟨.error, "Missing Required Attribute",
                Sprintln "notification_publisher_ref is required when email_verification_enabled is set to true"⟩)))) := by
    intro d hs
    have hd : d ∉ respDiagnostics.Append configGet.2 := fun h => hinit d h hs
    rw [hmem d]
    simp only [diagnostic_eq_mk_iff, hs, hd, false_or]
    simp
  clear hmem
  constructor
  · intro hen
    constructor
    · rintro ⟨d, hd, -, hs⟩
      have h := (key d hs).mp hd
      tauto
    · intro h
      rcases h with h | h | h | h | h
      · exact ⟨_, (key _ rfl).mpr ⟨hen, Or.inl ⟨Or.inl h, rfl⟩⟩, rfl, rfl⟩
      · exact ⟨_, (key _ rfl).mpr ⟨hen, Or.inl ⟨Or.inr h, rfl⟩⟩, rfl, rfl⟩
      · exact ⟨_, (key _ rfl).mpr ⟨hen, Or.inr (Or.inl ⟨Or.inl h, rfl⟩)⟩, rfl, rfl⟩
      · exact ⟨_, (key _ rfl).mpr ⟨hen, Or.inr (Or.inl ⟨Or.inr h, rfl⟩)⟩, rfl, rfl⟩
      · exact ⟨_, (key _ rfl).mpr ⟨hen, Or.inr (Or.inr ⟨h, rfl⟩)⟩, rfl, rfl⟩
  · rintro hen ⟨d, hd, -, hs⟩
    have h := (key d hs).mp hd
    rw [hen] at h
    exact absurd h.1 (by decide)

/-- Witness for C21: verification enabled with no field for the verification
status. -/
theorem localIdentityProfile_ValidateConfig_missing_required_witness :
    ∃ out, localIdentityIdentityProfileResource.ValidateConfig []
        (⟨.null, .known "p1", .known "profile", .known ⟨.known "apc", .null⟩, .null, .null,
          .known true, .null, .null, .null,
          .known ⟨.known true, .null, .null, .null, .null, .null, .null, .null, .null, .null,
            .null, .null, .known "mail", .null, .known ⟨.known "publisher", .null⟩, .null,
            .null⟩,
          .null, .known true⟩, []) = some out ∧
      ∃ d ∈ out, d.severity = .error ∧ d.summary = "Missing Required Attribute" := by
  obtain ⟨out, h1, h2, _⟩ := localIdentityProfile_ValidateConfig_missing_required []
    (⟨.null, .known "p1", .known "profile", .known ⟨.known "apc", .null⟩, .null, .null,
      .known true, .null, .null, .null,
      .known ⟨.known true, .null, .null, .null, .null, .null, .null, .null, .null, .null,
        .null, .null, .known "mail", .null, .known ⟨.known "publisher", .null⟩, .null,
        .null⟩,
      .null, .known true⟩, []) _ rfl (fun d hd => absurd hd (List.not_mem_nil d))
  exact ⟨out, h1, (h2 rfl).mpr (Or.inr (Or.inr (Or.inl rfl)))⟩

/-- C22: for every configuration whose `registration_config` is defined (no
`Invalid registration captcha settings` diagnostic being present before the
checks), `ValidateConfig` returns and reports the error `Invalid registration
captcha settings` if and only if exactly one of the following holds:
`captcha_enabled` is true; `captcha_provider_ref` is defined. -/
theorem localIdentityProfile_ValidateConfig_captcha (respDiagnostics : Diagnostics)
    (configGet : localIdentityIdentityProfileModel × Diagnostics)
    (rc : registrationConfigObject)
    (hrc : configGet.1.RegistrationConfig = .known rc)
    (hinit : ∀ d ∈ respDiagnostics.Append configGet.2,
      d.summary ≠ "Invalid registration captcha settings") :
    ∃ out, localIdentityIdentityProfileResource.ValidateConfig respDiagnostics configGet
        = some out ∧
      ((∃ d ∈ out, d.severity = .error ∧
          d.summary = "Invalid registration captcha settings") ↔
        ((rc.captcha_enabled.ValueBool = true ∧ IsDefined rc.captcha_provider_ref = false) ∨
          (rc.captcha_enabled.ValueBool = false ∧
            IsDefined rc.captcha_provider_ref = true))) := by
  obtain ⟨out, hout, hmem⟩ := localIdentityProfile_ValidateConfig_mem respDiagnostics configGet
  refine ⟨out, hout, ?_⟩
  have key : ∀ d : Diagnostic, d.summary = "Invalid registration captcha settings" →
      (d ∈ out ↔
        ((rc.captcha_enabled.ValueBool != IsDefined rc.captcha_provider_ref) = true ∧
          d = ⟨.error, "Invalid registration captcha settings",
            "If registration_config.captcha_enabled is set to true, then registration_config.captcha_provider_ref must be configured. If registration_config.captcha_enabled is false, then registration_config.captcha_provider_ref must not be configured."⟩)) := by
    intro d hs
    have hd : d ∉ respDiagnostics.Append configGet.2 := fun h => hinit d h hs
    have hemail : d ∉ (match configGet.1.EmailVerificationConfig with
        | .known emailVerificationConfig =>
          validateEmailVerificationConfig emailVerificationConfig
            (respDiagnostics.Append configGet.2)
        | _ => respDiagnostics.Append configGet.2) := by
      cases configGet.1.EmailVerificationConfig with
      | null => exact hd
      | unknown => exact hd
      | known e =>
        simp only [validateEmailVerificationConfig_mem, diagnostic_eq_mk_iff, hs, hd, false_or]
        simp
    rw [hmem d, hrc]
    simp only [diagnostic_eq_mk_iff, hs, hemail, false_or]
    simp
  clear hmem
  have hxor : (rc.captcha_enabled.ValueBool != IsDefined rc.captcha_provider_ref) = true ↔
      ((rc.captcha_enabled.ValueBool = true ∧ IsDefined rc.captcha_provider_ref = false) ∨
        (rc.captcha_enabled.ValueBool = false ∧ IsDefined rc.captcha_provider_ref = true)) := by
    cases rc.captcha_enabled.ValueBool <;> cases IsDefined rc.captcha_provider_ref <;> simp
  rw [← hxor]
  constructor
  · rintro ⟨d, hd, -, hs⟩
    exact ((key d hs).mp hd).1
  · intro h
    exact ⟨_, (key _ rfl).mpr ⟨h, rfl⟩, rfl, rfl⟩

/-- Witness for C22: captcha enabled without a captcha provider. -/
theorem localIdentityProfile_ValidateConfig_captcha_witness :
    ∃ out, localIdentityIdentityProfileResource.ValidateConfig []
        (⟨.null, .known "p1", .known "profile", .known ⟨.known "apc", .null⟩, .null, .null,
          .known true,
          .known ⟨.known true, .null, .known "reg.html", .known true, .null, .known false,
            .null, .null⟩,
          .null, .null, .null, .null, .known false⟩, []) = some out ∧
      ∃ d ∈ out, d.severity = .error ∧ d.summary = "Invalid registration captcha settings" := by
  obtain ⟨out, h1, h2⟩ := localIdentityProfile_ValidateConfig_captcha []
    (⟨.null, .known "p1", .known "profile", .known ⟨.known "apc", .null⟩, .null, .null,
      .known true,
      .known ⟨.known true, .null, .known "reg.html", .known true, .null, .known false,
        .null, .null⟩,
      .null, .null, .null, .null, .known false⟩, []) _ rfl
    (fun d hd => absurd hd (List.not_mem_nil d))
  exact ⟨out, h1, h2.mpr (Or.inl ⟨rfl, rfl⟩)⟩

/-- C23: for every configuration whose `email_verification_config` is defined
(no `Invalid Attribute Combination!` diagnostic being present before the
checks), `ValidateConfig` returns; when `email_verification_type` is `OTP` it
reports one of the errors of the switch on the type if and only if at least one
of `otl_time_to_live`, `require_verified_email_template_name` and
`email_verification_sent_template_name` is defined; when the type is `OTL`, if
and only if at least one of `otp_length`, `otp_retry_attempts`,
`allowed_otp_character_set` and `email_verification_otp_template_name` is
defined; for any other type, null included, it reports none of them. -/
theorem localIdentityProfile_ValidateConfig_type_errors (respDiagnostics : Diagnostics)
    (configGet : localIdentityIdentityProfileModel × Diagnostics)
    (e : emailVerificationConfigObject)
    (he : configGet.1.EmailVerificationConfig = .known e)
    (hinit : ∀ d ∈ respDiagnostics.Append configGet.2,
      d.summary ≠ "Invalid Attribute Combination!") :
    ∃ out, localIdentityIdentityProfileResource.ValidateConfig respDiagnostics configGet
        = some out ∧
      (e.email_verification_type.ValueString = "OTP" →
        ((∃ detail ∈ emailVerificationTypeErrorDetails,
            (⟨.error, "Invalid Attribute Combination!", Sprintln detail⟩ : Diagnostic) ∈ out) ↔
          (IsDefined e.otl_time_to_live = true ∨
            IsDefined e.require_verified_email_template_name = true ∨
            IsDefined e.email_verification_sent_template_name = true))) ∧
      (e.email_verification_type.ValueString = "OTL" →
        ((∃ detail ∈ emailVerificationTypeErrorDetails,
            (⟨.error, "Invalid Attribute Combination!", Sprintln detail⟩ : Diagnostic) ∈ out) ↔
          (IsDefined e.otp_length = true ∨ IsDefined e.otp_retry_attempts = true ∨
            IsDefined e.allowed_otp_character_set = true ∨
            IsDefined e.email_verification_otp_template_name = true))) ∧
      (e.email_verification_type.ValueString ≠ "OTP" →
        e.email_verification_type.ValueString ≠ "OTL" →
        ¬ ∃ detail ∈ emailVerificationTypeErrorDetails,
          (⟨.error, "Invalid Attribute Combination!", Sprintln detail⟩ : Diagnostic) ∈ out) := by
  obtain ⟨out, hout, hmem⟩ := localIdentityProfile_ValidateConfig_mem respDiagnostics configGet
  refine ⟨out, hout, ?_⟩
  rw [he] at hmem
  have hD : ∀ detail : String, (⟨.error, "Invalid Attribute Combination!", detail⟩ : Diagnostic) ∉
      respDiagnostics.Append configGet.2 := fun detail h => hinit _ h rfl
  simp only [validateEmailVerificationConfig_mem] at hmem
  simp only [emailVerificationTypeErrorDetails, List.mem_cons, List.mem_singleton,
    exists_eq_or_imp, exists_eq_left, hmem, hD, false_or, List.not_mem_nil, false_and,
    exists_false, or_false]
  clear hmem hD hinit hout
  refine ⟨?_, ?_, ?_⟩
  · intro hP
    have hL : ¬ e.email_verification_type.ValueString = "OTL" := by rw [hP]; decide
    simp [hP, Sprintln]
  · intro hL
    have hP : ¬ e.email_verification_type.ValueString = "OTP" := by rw [hL]; decide
    simp [hL, Sprintln]
  · intro hP hL
    simp [hP, hL, Sprintln]

/-- Witness for C23: type `OTP` with `otl_time_to_live` set. -/
theorem localIdentityProfile_ValidateConfig_type_errors_witness :
    ∃ out, localIdentityIdentityProfileResource.ValidateConfig []
        (⟨.null, .known "p1", .known "profile", .known ⟨.known "apc", .null⟩, .null, .null,
          .known true, .null, .null, .null,
          .known ⟨.known false, .null, .null, .null, .null, .known "OTP", .known 8, .known 3,
            .null, .known 15, .null, .known 1440, .known "", .known "", .null, .null, .null⟩,
          .null, .known true⟩, []) = some out ∧
      ∃ detail ∈ emailVerificationTypeErrorDetails,
        (⟨.error, "Invalid Attribute Combination!", Sprintln detail⟩ : Diagnostic) ∈ out := by
  obtain ⟨out, h1, h2, _⟩ := localIdentityProfile_ValidateConfig_type_errors []
    (⟨.null, .known "p1", .known "profile", .known ⟨.known "apc", .null⟩, .null, .null,
      .known true, .null, .null, .null,
      .known ⟨.known false, .null, .null, .null, .null, .known "OTP", .known 8, .known 3,
        .null, .known 15, .null, .known 1440, .known "", .known "", .null, .null, .null⟩,
      .null, .known true⟩, []) _ rfl (fun d hd => absurd hd (List.not_mem_nil d))
  exact ⟨out, h1, (h2 rfl).mpr (Or.inl rfl)⟩

/-! ## `ModifyPlan` of the local identity profile resource -/

theorem innerDefault_not_unknown {α : Type} (v : TfValue α) (b : Bool) (a : α) :
    (if v.IsUnknown = true then (if b = true then TfValue.known a else TfValue.null)
      else v).IsUnknown = false := by
  cases v <;> cases b <;> rfl

theorem innerDefault_verify_email_template_name (x : emailVerificationConfigObject) (b : Bool)
    (v : TfString) :
    (if x.verify_email_template_name.IsUnknown = true then
        (if b = true then { x with verify_email_template_name := v }
          else { x with verify_email_template_name := .null })
      else x) =
      { x with
        verify_email_template_name :=
          if x.verify_email_template_name.IsUnknown = true then (if b = true then v else .null)
          else x.verify_email_template_name } := by
  cases x.verify_email_template_name.IsUnknown <;> cases b <;> rfl

theorem innerDefault_email_verification_success_template_name (x : emailVerificationConfigObject) (b : Bool)
    (v : TfString) :
    (if x.email_verification_success_template_name.IsUnknown = true then
        (if b = true then { x with email_verification_success_template_name := v }
          else { x with email_verification_success_template_name := .null })
      else x) =
      { x with
        email_verification_success_template_name :=
          if x.email_verification_success_template_name.IsUnknown = true then (if b = true then v else .null)
          else x.email_verification_success_template_name } := by
  cases x.email_verification_success_template_name.IsUnknown <;> cases b <;> rfl

theorem innerDefault_email_verification_error_template_name (x : emailVerificationConfigObject) (b : Bool)
    (v : TfString) :
    (if x.email_verification_error_template_name.IsUnknown = true then
        (if b = true then { x with email_verification_error_template_name := v }
          else { x with email_verification_error_template_name := .null })
      else x) =
      { x with
        email_verification_error_template_name :=
          if x.email_verification_error_template_name.IsUnknown = true then (if b = true then v else .null)
          else x.email_verification_error_template_name } := by
  cases x.email_verification_error_template_name.IsUnknown <;> cases b <;> rfl

theorem innerDefault_require_verified_email (x : emailVerificationConfigObject) (b : Bool)
    (v : TfBool) :
    (if x.require_verified_email.IsUnknown = true then
        (if b = true then { x with require_verified_email := v }
          else { x with require_verified_email := .null })
      else x) =
      { x with
        require_verified_email :=
          if x.require_verified_email.IsUnknown = true then (if b = true then v else .null)
          else x.require_verified_email } := by
  cases x.require_verified_email.IsUnknown <;> cases b <;> rfl

theorem innerDefault_allowed_otp_character_set (x : emailVerificationConfigObject) (b : Bool)
    (v : TfString) :
    (if x.allowed_otp_character_set.IsUnknown = true then
        (if b = true then { x with allowed_otp_character_set := v }
          else { x with allowed_otp_character_set := .null })
      else x) =
      { x with
        allowed_otp_character_set :=
          if x.allowed_otp_character_set.IsUnknown = true then (if b = true then v else .null)
          else x.allowed_otp_character_set } := by
  cases x.allowed_otp_character_set.IsUnknown <;> cases b <;> rfl

theorem innerDefault_otp_time_to_live (x : emailVerificationConfigObject) (b : Bool)
    (v : TfInt64) :
    (if x.otp_time_to_live.IsUnknown = true then
        (if b = true then { x with otp_time_to_live := v }
          else { x with otp_time_to_live := .null })
      else x) =
      { x with
        otp_time_to_live :=
          if x.otp_time_to_live.IsUnknown = true then (if b = true then v else .null)
          else x.otp_time_to_live } := by
  cases x.otp_time_to_live.IsUnknown <;> cases b <;> rfl

theorem innerDefault_email_verification_otp_template_name (x : emailVerificationConfigObject) (b : Bool)
    (v : TfString) :
    (if x.email_verification_otp_template_name.IsUnknown = true then
        (if b = true then { x with email_verification_otp_template_name := v }
          else { x with email_verification_otp_template_name := .null })
      else x) =
      { x with
        email_verification_otp_template_name :=
          if x.email_verification_otp_template_name.IsUnknown = true then (if b = true then v else .null)
          else x.email_verification_otp_template_name } := by
  cases x.email_verification_otp_template_name.IsUnknown <;> cases b <;> rfl

theorem innerDefault_email_verification_sent_template_name (x : emailVerificationConfigObject) (b : Bool)
    (v : TfString) :
    (if x.email_verification_sent_template_name.IsUnknown = true then
        (if b = true then { x with email_verification_sent_template_name := v }
          else { x with email_verification_sent_template_name := .null })
      else x) =
      { x with
        email_verification_sent_template_name :=
          if x.email_verification_sent_template_name.IsUnknown = true then (if b = true then v else .null)
          else x.email_verification_sent_template_name } := by
  cases x.email_verification_sent_template_name.IsUnknown <;> cases b <;> rfl

theorem innerDefault_otl_time_to_live (x : emailVerificationConfigObject) (b : Bool)
    (v : TfInt64) :
    (if x.otl_time_to_live.IsUnknown = true then
        (if b = true then { x with otl_time_to_live := v }
          else { x with otl_time_to_live := .null })
      else x) =
      { x with
        otl_time_to_live :=
          if x.otl_time_to_live.IsUnknown = true then (if b = true then v else .null)
          else x.otl_time_to_live } := by
  cases x.otl_time_to_live.IsUnknown <;> cases b <;> rfl

theorem innerDefault_require_verified_email_template_name (x : emailVerificationConfigObject) (b : Bool)
    (v : TfString) :
    (if x.require_verified_email_template_name.IsUnknown = true then
        (if b = true then { x with require_verified_email_template_name := v }
          else { x with require_verified_email_template_name := .null })
      else x) =
      { x with
        require_verified_email_template_name :=
          if x.require_verified_email_template_name.IsUnknown = true then (if b = true then v else .null)
          else x.require_verified_email_template_name } := by
  cases x.require_verified_email_template_name.IsUnknown <;> cases b <;> rfl

theorem emailVerificationConfigInnerDefaults_eq (e : emailVerificationConfigObject) :
    emailVerificationConfigInnerDefaults e =
      { e with
        verify_email_template_name :=
          if e.verify_email_template_name.IsUnknown = true then
            (if e.email_verification_enabled.ValueBool = true then
              .known "message-template-email-ownership-verification.html"
            else .null)
          else e.verify_email_template_name
        email_verification_success_template_name :=
          if e.email_verification_success_template_name.IsUnknown = true then
            (if e.email_verification_enabled.ValueBool = true then
              .known "local.identity.email.verification.success.html"
            else .null)
          else e.email_verification_success_template_name
        email_verification_error_template_name :=
          if e.email_verification_error_template_name.IsUnknown = true then
            (if e.email_verification_enabled.ValueBool = true then
              .known "local.identity.email.verification.error.html"
            else .null)
          else e.email_verification_error_template_name
        require_verified_email :=
          if e.require_verified_email.IsUnknown = true then
            (if e.email_verification_enabled.ValueBool = true then
              .known false
            else .null)
          else e.require_verified_email
        allowed_otp_character_set :=
          if e.allowed_otp_character_set.IsUnknown = true then
            (if (e.email_verification_enabled.ValueBool &&
              e.email_verification_type.ValueString == "OTP") = true then
              .known "23456789BCDFGHJKMNPQRSTVWXZbcdfghjkmnpqrstvwxz"
            else .null)
          else e.allowed_otp_character_set
        otp_time_to_live :=
          if e.otp_time_to_live.IsUnknown = true then
            (if (e.email_verification_enabled.ValueBool &&
              e.email_verification_type.ValueString == "OTP") = true then
              .known 15
            else .null)
          else e.otp_time_to_live
        email_verification_otp_template_name :=
          if e.email_verification_otp_template_name.IsUnknown = true then
            (if (e.email_verification_enabled.ValueBool &&
              e.email_verification_type.ValueString == "OTP") = true then
              .known "local.identity.email.verification.otp.html"
            else .null)
          else e.email_verification_otp_template_name
        email_verification_sent_template_name :=
          if e.email_verification_sent_template_name.IsUnknown = true then
            (if (e.email_verification_enabled.ValueBool &&
              e.email_verification_type.ValueString == "OTL") = true then
              .known "local.identity.email.verification.sent.html"
            else .null)
          else e.email_verification_sent_template_name
        otl_time_to_live :=
          if e.otl_time_to_live.IsUnknown = true then
            (if (e.email_verification_enabled.ValueBool &&
              e.email_verification_type.ValueString == "OTL") = true then
              .known 1440
            else .null)
          else e.otl_time_to_live
        require_verified_email_template_name :=
          if e.require_verified_email_template_name.IsUnknown = true then
            (if (e.email_verification_enabled.ValueBool &&
              e.email_verification_type.ValueString == "OTL") = true then
              .known "local.identity.email.verification.required.html"
            else .null)
          else e.require_verified_email_template_name } := by
  unfold emailVerificationConfigInnerDefaults
  simp -zeta only [innerDefault_verify_email_template_name, innerDefault_email_verification_success_template_name, innerDefault_email_verification_error_template_name, innerDefault_require_verified_email, innerDefault_allowed_otp_character_set, innerDefault_otp_time_to_live, innerDefault_email_verification_otp_template_name, innerDefault_email_verification_sent_template_name, innerDefault_otl_time_to_live, innerDefault_require_verified_email_template_name]

theorem fieldsWithDefaults_returns (fields : List (TfValue fieldObject))
    (h : ∀ f ∈ fields, ∃ v, f = TfValue.known v) :
    ∃ done, fieldsWithDefaults fields = some done := by
  induction fields with
  | nil => exact ⟨[], rfl⟩
  | cons f rest ih =>
    obtain ⟨v, rfl⟩ := h f (List.mem_cons_self _ _)
    obtain ⟨done, hdone⟩ := ih (fun g hg => h g (List.mem_cons_of_mem _ hg))
    simp [fieldsWithDefaults, hdone]

theorem emailVerificationConfigInnerDefaults_default (e : emailVerificationConfigObject)
    (h : emailVerificationConfigDefault = .known e) :
    emailVerificationConfigInnerDefaults e = e := by
  simp only [emailVerificationConfigDefault, TfValue.known.injEq] at h
  subst h
  decide

theorem localIdentityProfile_ModifyPlan_planSet (respDiagnostics : Diagnostics)
    (plan : localIdentityIdentityProfileModel) (getDiags : Diagnostics)
    (hf : ∀ fc fs, plan.FieldConfig = .known fc → fc.fields = .known fs →
      ∀ f ∈ fs, ∃ v, f = TfValue.known v) :
    ∃ out p, localIdentityIdentityProfileResource.ModifyPlan respDiagnostics
        (some plan, getDiags) = some out ∧
      out.Diagnostics = respDiagnostics.Append getDiags ∧
      out.planSet = some p ∧
      p.AuthSourceUpdatePolicy =
        (if plan.AuthSourceUpdatePolicy.IsUnknown = true then
          (if (plan.RegistrationEnabled.ValueBool || plan.ProfileEnabled.ValueBool) = true then
            authSourceUpdatePolicyDefault
          else .null)
        else plan.AuthSourceUpdatePolicy) ∧
      p.EmailVerificationConfig =
        (match plan.EmailVerificationConfig with
          | .unknown =>
            if (plan.RegistrationEnabled.ValueBool || plan.ProfileEnabled.ValueBool) = true then
              emailVerificationConfigDefault
            else .null
          | .null => .null
          | .known e => .known (emailVerificationConfigInnerDefaults e)) := by
  obtain ⟨id, profileId, name, apcId, authSources, policy, regEnabled, regConfig, profileConfig,
    fieldConfig, emailConfig, dataStoreConfig, profileEnabled⟩ := plan
  simp only at hf
  unfold localIdentityIdentityProfileResource.ModifyPlan
  simp only []
  generalize (regEnabled.ValueBool || profileEnabled.ValueBool) = enabled
  have hfields : ∀ fs, (∀ fc, fieldConfig = .known fc → fc.fields = .known fs →
      ∃ done, fieldsWithDefaults fs = some done) := by
    intro fs fc h1 h2
    exact fieldsWithDefaults_returns fs (hf fc fs h1 h2)
  clear hf
  have hdef := fun e => emailVerificationConfigInnerDefaults_default e
  cases fieldConfig with
  | null =>
    cases policy <;> cases emailConfig <;> cases enabled <;>
      simp [TfValue.IsUnknown, emailVerificationConfigDefault] <;>
      first | done | exact hdef _ rfl
  | unknown =>
    cases policy <;> cases emailConfig <;> cases enabled <;>
      simp [TfValue.IsUnknown, emailVerificationConfigDefault] <;>
      first | done | exact hdef _ rfl
  | known fc =>
    cases hfs : fc.fields with
    | null =>
      cases policy <;> cases emailConfig <;> cases enabled <;>
        simp [TfValue.IsUnknown, emailVerificationConfigDefault, hfs] <;>
        first | done | exact hdef _ rfl
    | unknown =>
      cases policy <;> cases emailConfig <;> cases enabled <;>
        simp [TfValue.IsUnknown, emailVerificationConfigDefault, hfs] <;>
        first | done | exact hdef _ rfl
    | known fs =>
      obtain ⟨done, hdone⟩ := hfields fs fc rfl hfs
      cases policy <;> cases emailConfig <;> cases enabled <;>
        simp [TfValue.IsUnknown, emailVerificationConfigDefault, hfs, hdone] <;>
        first | done | exact hdef _ rfl

/-- A null or unknown element of `field_config.fields` makes `ModifyPlan` panic
in its loop over the fields, before `resp.Plan.Set` is reached. -/
theorem localIdentityProfile_ModifyPlan_unknown_field :
    localIdentityIdentityProfileResource.ModifyPlan []
      (some ⟨.null, .known "p1", .known "profile", .known ⟨.known "apc", .null⟩, .null, .null,
        .known true, .null, .null, .known ⟨.known [.unknown], .known false⟩, .null, .null,
        .known false⟩, []) = none := by
  decide

/-! ## `ModifyPlan` on the plans for which the loop over the fields completes -/

/-- For every plan whose `email_verification_config` is defined and in which the
elements of `field_config.fields` are known objects, so that the later loop
over the fields completes, `ModifyPlan` returns and hands to `resp.Plan.Set` a
plan whose `email_verification_config` is the one of the plan with each unknown
attribute among the ten computed ones replaced, and every other attribute kept:
with email verification enabled the three template names become their
documented names and `require_verified_email` becomes false; with it enabled and
type `OTP` the character set, `otp_time_to_live` (15) and the OTP template name
are set; with it enabled and type `OTL` the two template names and
`otl_time_to_live` (1440) are set; where the condition does not hold the unknown
attribute becomes null.  None of the ten is unknown afterwards. -/
theorem localIdentityProfile_ModifyPlan_email_inner_defaults (respDiagnostics : Diagnostics)
    (plan : localIdentityIdentityProfileModel) (getDiags : Diagnostics)
    (e : emailVerificationConfigObject)
    (he : plan.EmailVerificationConfig = .known e)
    (hf : ∀ fc fs, plan.FieldConfig = .known fc → fc.fields = .known fs →
      ∀ f ∈ fs, ∃ v, f = TfValue.known v) :
    ∃ out p e1, localIdentityIdentityProfileResource.ModifyPlan respDiagnostics
        (some plan, getDiags) = some out ∧
      out.planSet = some p ∧
      p.EmailVerificationConfig = .known e1 ∧
      e1 =
        { e with
        verify_email_template_name :=
          if e.verify_email_template_name.IsUnknown = true then
            (if e.email_verification_enabled.ValueBool = true then
              .known "message-template-email-ownership-verification.html"
            else .null)
          else e.verify_email_template_name
        email_verification_success_template_name :=
          if e.email_verification_success_template_name.IsUnknown = true then
            (if e.email_verification_enabled.ValueBool = true then
              .known "local.identity.email.verification.success.html"
            else .null)
          else e.email_verification_success_template_name
        email_verification_error_template_name :=
          if e.email_verification_error_template_name.IsUnknown = true then
            (if e.email_verification_enabled.ValueBool = true then
              .known "local.identity.email.verification.error.html"
            else .null)
          else e.email_verification_error_template_name
        require_verified_email :=
          if e.require_verified_email.IsUnknown = true then
            (if e.email_verification_enabled.ValueBool = true then
              .known false
            else .null)
          else e.require_verified_email
        allowed_otp_character_set :=
          if e.allowed_otp_character_set.IsUnknown = true then
            (if (e.email_verification_enabled.ValueBool &&
              e.email_verification_type.ValueString == "OTP") = true then
              .known "23456789BCDFGHJKMNPQRSTVWXZbcdfghjkmnpqrstvwxz"
            else .null)
          else e.allowed_otp_character_set
        otp_time_to_live :=
          if e.otp_time_to_live.IsUnknown = true then
            (if (e.email_verification_enabled.ValueBool &&
              e.email_verification_type.ValueString == "OTP") = true then
              .known 15
            else .null)
          else e.otp_time_to_live
        email_verification_otp_template_name :=
          if e.email_verification_otp_template_name.IsUnknown = true then
            (if (e.email_verification_enabled.ValueBool &&
              e.email_verification_type.ValueString == "OTP") = true then
              .known "local.identity.email.verification.otp.html"
            else .null)
          else e.email_verification_otp_template_name
        email_verification_sent_template_name :=
          if e.email_verification_sent_template_name.IsUnknown = true then
            (if (e.email_verification_enabled.ValueBool &&
              e.email_verification_type.ValueString == "OTL") = true then
              .known "local.identity.email.verification.sent.html"
            else .null)
          else e.email_verification_sent_template_name
        otl_time_to_live :=
          if e.otl_time_to_live.IsUnknown = true then
            (if (e.email_verification_enabled.ValueBool &&
              e.email_verification_type.ValueString == "OTL") = true then
              .known 1440
            else .null)
          else e.otl_time_to_live
        require_verified_email_template_name :=
          if e.require_verified_email_template_name.IsUnknown = true then
            (if (e.email_verification_enabled.ValueBool &&
              e.email_verification_type.ValueString == "OTL") = true then
              .known "local.identity.email.verification.required.html"
            else .null)
          else e.require_verified_email_template_name } ∧
      e1.verify_email_template_name.IsUnknown = false ∧
      e1.email_verification_success_template_name.IsUnknown = false ∧
      e1.email_verification_error_template_name.IsUnknown = false ∧
      e1.require_verified_email.IsUnknown = false ∧
      e1.allowed_otp_character_set.IsUnknown = false ∧
      e1.otp_time_to_live.IsUnknown = false ∧
      e1.email_verification_otp_template_name.IsUnknown = false ∧
      e1.email_verification_sent_template_name.IsUnknown = false ∧
      e1.otl_time_to_live.IsUnknown = false ∧
      e1.require_verified_email_template_name.IsUnknown = false := by
  obtain ⟨out, p, h1, _, h2, _, h3⟩ :=
    localIdentityProfile_ModifyPlan_planSet respDiagnostics plan getDiags hf
  rw [he] at h3
  refine ⟨out, p, _, h1, h2, h3, emailVerificationConfigInnerDefaults_eq e, ?_⟩
  rw [emailVerificationConfigInnerDefaults_eq]
  exact ⟨innerDefault_not_unknown _ _ _, innerDefault_not_unknown _ _ _,
    innerDefault_not_unknown _ _ _, innerDefault_not_unknown _ _ _,
    innerDefault_not_unknown _ _ _, innerDefault_not_unknown _ _ _,
    innerDefault_not_unknown _ _ _, innerDefault_not_unknown _ _ _,
    innerDefault_not_unknown _ _ _, innerDefault_not_unknown _ _ _⟩

/-- An instance of the email verification defaults: verification enabled with
type `OTP` and all ten computed attributes unknown; the plan has one field. -/
theorem localIdentityProfile_ModifyPlan_email_inner_defaults_witness :
    ∃ out p, localIdentityIdentityProfileResource.ModifyPlan []
        (some ⟨.null, .known "p1", .known "profile", .known ⟨.known "apc", .null⟩, .null, .unknown,
          .known true, .null, .null,
          .known ⟨.known [.known ⟨.known "TEXT", .known "mail", .known "Mail", .known true,
            .known false, .unknown⟩], .known false⟩,
          .known ⟨.known true, .unknown, .unknown, .unknown, .unknown, .known "OTP", .known 8,
            .known 3, .unknown, .unknown, .unknown, .unknown, .known "mail", .known "verified",
            .known ⟨.known "publisher", .null⟩, .unknown, .unknown⟩,
          .null, .known false⟩, []) = some out ∧
      out.planSet = some p ∧
      p.EmailVerificationConfig =
        .known ⟨.known true, .known "message-template-email-ownership-verification.html",
          .null, .known "local.identity.email.verification.success.html",
          .known "local.identity.email.verification.error.html", .known "OTP", .known 8,
          .known 3, .known "23456789BCDFGHJKMNPQRSTVWXZbcdfghjkmnpqrstvwxz", .known 15,
          .known "local.identity.email.verification.otp.html", .null, .known "mail",
          .known "verified", .known ⟨.known "publisher", .null⟩, .known false, .null⟩ := by
  obtain ⟨out, p, e1, h1, h2, h3, h4, _⟩ :=
    localIdentityProfile_ModifyPlan_email_inner_defaults []
      ⟨.null, .known "p1", .known "profile", .known ⟨.known "apc", .null⟩, .null, .unknown,
          .known true, .null, .null,
          .known ⟨.known [.known ⟨.known "TEXT", .known "mail", .known "Mail", .known true,
            .known false, .unknown⟩], .known false⟩,
          .known ⟨.known true, .unknown, .unknown, .unknown, .unknown, .known "OTP", .known 8,
            .known 3, .unknown, .unknown, .unknown, .unknown, .known "mail", .known "verified",
            .known ⟨.known "publisher", .null⟩, .unknown, .unknown⟩,
          .null, .known false⟩ [] _ rfl
      (by
      intro fc fs h1 h2 f hf
      cases h1
      cases h2
      simp only [List.mem_singleton] at hf
      exact ⟨_, hf⟩)
  refine ⟨out, p, h1, h2, ?_⟩
  rw [h3, h4]
  decide

/-- For every non-null plan in which the elements of `field_config.fields` are
known objects, so that the later loop over the fields completes, `ModifyPlan`
returns and hands a plan to `resp.Plan.Set` in which an unknown
`auth_source_update_policy` has become the object with `store_attributes`,
`retain_attributes` and `update_attributes` false and `update_interval` 0 if
`registration_enabled` or `profile_enabled` is true, and null otherwise; an
unknown `email_verification_config` has become the default email verification
object under the same condition, and null otherwise; and a value of either
attribute that is not unknown is not replaced by these defaults: the policy is
kept, a null `email_verification_config` stays null and a known one only gets
its inner defaults. -/
theorem localIdentityProfile_ModifyPlan_capability_defaults (respDiagnostics : Diagnostics)
    (plan : localIdentityIdentityProfileModel) (getDiags : Diagnostics)
    (hf : ∀ fc fs, plan.FieldConfig = .known fc → fc.fields = .known fs →
      ∀ f ∈ fs, ∃ v, f = TfValue.known v) :
    ∃ out p, localIdentityIdentityProfileResource.ModifyPlan respDiagnostics
        (some plan, getDiags) = some out ∧
      out.planSet = some p ∧
      (plan.AuthSourceUpdatePolicy = .unknown →
        p.AuthSourceUpdatePolicy =
          if (plan.RegistrationEnabled.ValueBool || plan.ProfileEnabled.ValueBool) = true then
            .known {
              store_attributes := .known false
              retain_attributes := .known false
              update_attributes := .known false
              update_interval := .known 0 }
          else .null) ∧
      (plan.AuthSourceUpdatePolicy ≠ .unknown →
        p.AuthSourceUpdatePolicy = plan.AuthSourceUpdatePolicy) ∧
      (plan.EmailVerificationConfig = .unknown →
        p.EmailVerificationConfig =
          if (plan.RegistrationEnabled.ValueBool || plan.ProfileEnabled.ValueBool) = true then
            .known {
              email_verification_enabled := .known false
              verify_email_template_name := .null
              email_verification_sent_template_name := .null
              email_verification_success_template_name := .null
              email_verification_error_template_name := .null
              email_verification_type := .null
              otp_length := .null
              otp_retry_attempts := .null
              allowed_otp_character_set := .null
              otp_time_to_live := .null
              email_verification_otp_template_name := .null
              otl_time_to_live := .null
              field_for_email_to_verify := .known ""
              field_storing_verification_status := .known ""
              notification_publisher_ref := .null
              require_verified_email := .null
              require_verified_email_template_name := .null }
          else .null) ∧
      (plan.EmailVerificationConfig = .null → p.EmailVerificationConfig = .null) ∧
      (∀ e, plan.EmailVerificationConfig = .known e →
        p.EmailVerificationConfig = .known (emailVerificationConfigInnerDefaults e)) := by
  obtain ⟨out, p, h1, _, h2, h3, h4⟩ :=
    localIdentityProfile_ModifyPlan_planSet respDiagnostics plan getDiags hf
  refine ⟨out, p, h1, h2, ?_, ?_, ?_, ?_, ?_⟩
  · intro h
    rw [h3, h]
    rfl
  · intro h
    rw [h3]
    cases hp : plan.AuthSourceUpdatePolicy with
    | unknown => exact absurd hp h
    | null => rfl
    | known v => rfl
  · intro h
    rw [h4, h]
    rfl
  · intro h
    rw [h4, h]
  · intro e h
    rw [h4, h]

/-- An instance of the capability defaults: registration enabled, both
attributes unknown. -/
theorem localIdentityProfile_ModifyPlan_capability_defaults_witness :
    ∃ out p, localIdentityIdentityProfileResource.ModifyPlan []
        (some ⟨.null, .known "p1", .known "profile", .known ⟨.known "apc", .null⟩, .null,
          .unknown, .known true, .null, .null,
          .known ⟨.known [.known ⟨.known "TEXT", .known "mail", .known "Mail", .known true,
            .known false, .unknown⟩], .known false⟩,
          .unknown, .null, .known false⟩, []) = some out ∧
      out.planSet = some p ∧
      p.AuthSourceUpdatePolicy =
        .known ⟨.known false, .known false, .known false, .known 0⟩ ∧
      p.EmailVerificationConfig =
        .known ⟨.known false, .null, .null, .null, .null, .null, .null, .null, .null, .null,
          .null, .null, .known "", .known "", .null, .null, .null⟩ := by
  obtain ⟨out, p, h1, h2, h3, _, h5, _⟩ :=
    localIdentityProfile_ModifyPlan_capability_defaults []
      ⟨.null, .known "p1", .known "profile", .known ⟨.known "apc", .null⟩, .null,
        .unknown, .known true, .null, .null,
        .known ⟨.known [.known ⟨.known "TEXT", .known "mail", .known "Mail", .known true,
          .known false, .unknown⟩], .known false⟩,
        .unknown, .null, .known false⟩ []
      (by
      intro fc fs h1 h2 f hf
      cases h1
      cases h2
      simp only [List.mem_singleton] at hf
      exact ⟨_, hf⟩)
  exact ⟨out, p, h1, h2, h3 rfl, h5 rfl⟩

/-! ## Claims C24 and C25: defaults that `ModifyPlan` does not deliver -/

/-- C24 (refuted on the code): for a plan whose `email_verification_config` is
defined, with verification enabled, type `OTP` and the ten computed attributes
unknown, and whose `field_config.fields` holds a known field followed by an
unknown element, `ModifyPlan` panics in its loop over the fields: `resp.Plan.Set`
is not reached and no unknown attribute is replaced.  With the unknown element
left out of the list, the same plan is handed to `resp.Plan.Set` with the ten
attributes replaced as the claim says, and so are the plan of type `OTL` and
the plan with verification not enabled. -/
theorem localIdentityProfile_ModifyPlan_email_defaults_lost :
    localIdentityIdentityProfileResource.ModifyPlan []
        (some ⟨.null, .known "p1", .known "profile", .known ⟨.known "apc", .null⟩, .null,
          .known ⟨.known false, .known false, .known false, .known 0⟩,
          .known true, .null, .null,
          .known ⟨.known [.known ⟨.known "TEXT", .known "mail", .known "Mail", .known true,
            .known false, .unknown⟩, .unknown], .known false⟩,
          .known ⟨.known true, .unknown, .unknown, .unknown, .unknown, .known "OTP", .known 8,
            .known 3, .unknown, .unknown, .unknown, .unknown, .known "mail", .known "verified",
            .known ⟨.known "publisher", .null⟩, .unknown, .unknown⟩,
          .null, .known false⟩, []) = none ∧
    (localIdentityIdentityProfileResource.ModifyPlan []
        (some ⟨.null, .known "p1", .known "profile", .known ⟨.known "apc", .null⟩, .null,
          .known ⟨.known false, .known false, .known false, .known 0⟩,
          .known true, .null, .null,
          .known ⟨.known [.known ⟨.known "TEXT", .known "mail", .known "Mail", .known true,
            .known false, .unknown⟩], .known false⟩,
          .known ⟨.known true, .unknown, .unknown, .unknown, .unknown, .known "OTP", .known 8,
            .known 3, .unknown, .unknown, .unknown, .unknown, .known "mail", .known "verified",
            .known ⟨.known "publisher", .null⟩, .unknown, .unknown⟩,
          .null, .known false⟩, [])).bind
        (fun out => out.planSet.map (fun p => p.EmailVerificationConfig)) =
      some (.known {
        email_verification_enabled := .known true
        verify_email_template_name :=
          .known "message-template-email-ownership-verification.html"
        email_verification_sent_template_name := .null
        email_verification_success_template_name :=
          .known "local.identity.email.verification.success.html"
        email_verification_error_template_name :=
          .known "local.identity.email.verification.error.html"
        email_verification_type := .known "OTP"
        otp_length := .known 8
        otp_retry_attempts := .known 3
        allowed_otp_character_set := .known "23456789BCDFGHJKMNPQRSTVWXZbcdfghjkmnpqrstvwxz"
        otp_time_to_live := .known 15
        email_verification_otp_template_name :=
          .known "local.identity.email.verification.otp.html"
        otl_time_to_live := .null
        field_for_email_to_verify := .known "mail"
        field_storing_verification_status := .known "verified"
        notification_publisher_ref := .known ⟨.known "publisher", .null⟩
        require_verified_email := .known false
        require_verified_email_template_name := .null }) ∧
    (localIdentityIdentityProfileResource.ModifyPlan []
        (some ⟨.null, .known "p1", .known "profile", .known ⟨.known "apc", .null⟩, .null,
          .known ⟨.known false, .known false, .known false, .known 0⟩,
          .known true, .null, .null,
          .known ⟨.known [.known ⟨.known "TEXT", .known "mail", .known "Mail", .known true,
            .known false, .unknown⟩], .known false⟩,
          .known ⟨.known true, .unknown, .unknown, .unknown, .unknown, .known "OTL", .null,
            .null, .unknown, .unknown, .unknown, .unknown, .known "mail", .known "verified",
            .known ⟨.known "publisher", .null⟩, .known true, .unknown⟩,
          .null, .known false⟩, [])).bind
        (fun out => out.planSet.map (fun p => p.EmailVerificationConfig)) =
      some (.known {
        email_verification_enabled := .known true
        verify_email_template_name :=
          .known "message-template-email-ownership-verification.html"
        email_verification_sent_template_name :=
          .known "local.identity.email.verification.sent.html"
        email_verification_success_template_name :=
          .known "local.identity.email.verification.success.html"
        email_verification_error_template_name :=
          .known "local.identity.email.verification.error.html"
        email_verification_type := .known "OTL"
        otp_length := .null
        otp_retry_attempts := .null
        allowed_otp_character_set := .null
        otp_time_to_live := .null
        email_verification_otp_template_name := .null
        otl_time_to_live := .known 1440
        field_for_email_to_verify := .known "mail"
        field_storing_verification_status := .known "verified"
        notification_publisher_ref := .known ⟨.known "publisher", .null⟩
        require_verified_email := .known true
        require_verified_email_template_name :=
          .known "local.identity.email.verification.required.html" }) ∧
    (localIdentityIdentityProfileResource.ModifyPlan []
        (some ⟨.null, .known "p1", .known "profile", .known ⟨.known "apc", .null⟩, .null,
          .known ⟨.known false, .known false, .known false, .known 0⟩,
          .known true, .null, .null,
          .known ⟨.known [.known ⟨.known "TEXT", .known "mail", .known "Mail", .known true,
            .known false, .unknown⟩], .known false⟩,
          .known ⟨.known false, .unknown, .unknown, .unknown, .unknown, .known "OTP", .null,
            .null, .unknown, .unknown, .unknown, .unknown, .known "", .known "",
            .null, .unknown, .unknown⟩,
          .null, .known false⟩, [])).bind
        (fun out => out.planSet.map (fun p => p.EmailVerificationConfig)) =
      some (.known {
        email_verification_enabled := .known false
        verify_email_template_name := .null
        email_verification_sent_template_name := .null
        email_verification_success_template_name := .null
        email_verification_error_template_name := .null
        email_verification_type := .known "OTP"
        otp_length := .null
        otp_retry_attempts := .null
        allowed_otp_character_set := .null
        otp_time_to_live := .null
        email_verification_otp_template_name := .null
        otl_time_to_live := .null
        field_for_email_to_verify := .known ""
        field_storing_verification_status := .known ""
        notification_publisher_ref := .null
        require_verified_email := .null
        require_verified_email_template_name := .null }) := by
  decide

/-- C25 (refuted on the code): for a non-null plan with `registration_enabled`
true, `auth_source_update_policy` and `email_verification_config` unknown, and a
`field_config.fields` that holds an unknown element, `ModifyPlan` panics in its
loop over the fields: `resp.Plan.Set` is not reached and neither default is
set.  With a known field in the place of the unknown element, the plan handed
to `resp.Plan.Set` holds the policy with the three flags false and
`update_interval` 0 and the default email verification object; with neither
capability enabled both become null, and a policy and an
`email_verification_config` that are not unknown are kept. -/
theorem localIdentityProfile_ModifyPlan_capability_defaults_lost :
    localIdentityIdentityProfileResource.ModifyPlan []
        (some ⟨.null, .known "p1", .known "profile", .known ⟨.known "apc", .null⟩, .null,
          .unknown, .known true, .null, .null,
          .known ⟨.known [.unknown], .known false⟩,
          .unknown, .null, .known false⟩, []) = none ∧
    (localIdentityIdentityProfileResource.ModifyPlan []
        (some ⟨.null, .known "p1", .known "profile", .known ⟨.known "apc", .null⟩, .null,
          .unknown, .known true, .null, .null,
          .known ⟨.known [.known ⟨.known "TEXT", .known "mail", .known "Mail", .known true,
            .known false, .unknown⟩], .known false⟩,
          .unknown, .null, .known false⟩, [])).bind
        (fun out => out.planSet.map
          (fun p => (p.AuthSourceUpdatePolicy, p.EmailVerificationConfig))) =
      some (.known {
          store_attributes := .known false
          retain_attributes := .known false
          update_attributes := .known false
          update_interval := .known 0 },
        .known {
          email_verification_enabled := .known false
          verify_email_template_name := .null
          email_verification_sent_template_name := .null
          email_verification_success_template_name := .null
          email_verification_error_template_name := .null
          email_verification_type := .null
          otp_length := .null
          otp_retry_attempts := .null
          allowed_otp_character_set := .null
          otp_time_to_live := .null
          email_verification_otp_template_name := .null
          otl_time_to_live := .null
          field_for_email_to_verify := .known ""
          field_storing_verification_status := .known ""
          notification_publisher_ref := .null
          require_verified_email := .null
          require_verified_email_template_name := .null }) ∧
    (localIdentityIdentityProfileResource.ModifyPlan []
        (some ⟨.null, .known "p1", .known "profile", .known ⟨.known "apc", .null⟩, .null,
          .unknown, .known false, .null, .null,
          .known ⟨.known [.known ⟨.known "TEXT", .known "mail", .known "Mail", .known true,
            .known false, .unknown⟩], .known false⟩,
          .unknown, .null, .known false⟩, [])).bind
        (fun out => out.planSet.map
          (fun p => (p.AuthSourceUpdatePolicy, p.EmailVerificationConfig))) =
      some (.null, .null) ∧
    (localIdentityIdentityProfileResource.ModifyPlan []
        (some ⟨.null, .known "p1", .known "profile", .known ⟨.known "apc", .null⟩, .null,
          .known ⟨.known true, .known false, .known true, .known 5⟩, .known false, .null,
          .null,
          .known ⟨.known [.known ⟨.known "TEXT", .known "mail", .known "Mail", .known true,
            .known false, .unknown⟩], .known false⟩,
          .null, .null, .known true⟩, [])).bind
        (fun out => out.planSet.map
          (fun p => (p.AuthSourceUpdatePolicy, p.EmailVerificationConfig))) =
      some (.known ⟨.known true, .known false, .known true, .known 5⟩, .null) := by
  decide

end PingFederate
